import Mathlib

/-!
# MoldLab 3D: compute dispatch, simulation step pipeline and jump-flood schedule

A shallow embedding of `GameEngine::DispatchComputeShader` (src/src/GameEngine.cpp)
and of the orchestration code of `MoldLabGame` (src/src/MoldLabGame.cpp).

* C++ `int` values are mathematical integers; every arithmetic result is reduced
  to the 32-bit two's-complement range by `wrapInt`, and `/` truncates toward zero.
* Code that talks to OpenGL is a function returning a `Run`: the list of GL calls
  it issued, in order, together with its return value or the exception it threw.
* Everything the driver answers (local workgroup sizes, error flags, fresh
  handles) is read from a `Driver` record.
-/

namespace MoldLab

/-! ## Machine integers -/

/-- Largest value of a C++ `int`. -/
def INT_MAX : Int := 2147483647

/-- Smallest value of a C++ `int`. -/
def INT_MIN : Int := -2147483648

/-- Reduction of a mathematical integer to the 32-bit two's-complement range. -/
def wrapInt (x : Int) : Int := (x + 2147483648) % 4294967296 - 2147483648

/-- The `int` sum `a + b`. -/
def addInt (a b : Int) : Int := wrapInt (a + b)

/-- The `int` difference `a - b`. -/
def subInt (a b : Int) : Int := wrapInt (a - b)

/-- The `int` product `a * b`. -/
def mulInt (a b : Int) : Int := wrapInt (a * b)

/-- The `int` quotient `a / b` for a nonzero divisor: truncation toward zero. -/
def divInt (a b : Int) : Int := wrapInt (Int.tdiv a b)

/-- The `int` remainder `a % b` for a nonzero divisor: sign of the dividend. -/
def modInt (a b : Int) : Int := wrapInt (Int.tmod a b)

/-- Conversion of an `int` argument to a `GLuint` parameter: the value modulo 2^32. -/
def toGLuint (x : Int) : Int := x % 4294967296

/-! ## OpenGL calls and the driver -/

/-- Image access qualifiers passed to `glBindImageTexture`. -/
inductive Access
  | readOnly
  | writeOnly
  | readWrite
  deriving DecidableEq, Repr

/-- Barrier bits passed to `glMemoryBarrier`. -/
inductive Barrier
  | shaderStorage
  | shaderImageAccess
  deriving DecidableEq, Repr

/-- IEEE single-precision value, identified by its bit pattern. -/
structure F32 where
  bits : Nat
  deriving DecidableEq, Repr

/-- Single-precision operations of the target machine. -/
structure FloatArith where
  ofInt : Int → F32
  mul : F32 → F32 → F32
  div : F32 → F32 → F32
  add : F32 → F32 → F32
  sub : F32 → F32 → F32
  min : F32 → F32 → F32
  max : F32 → F32 → F32
  /-- The comparison `a < b`. -/
  lt : F32 → F32 → Bool
  /-- The expression `orbitRadius * cos(altitude) * sin(azimuth)`. -/
  orbitX : F32 → F32 → F32 → F32
  /-- The expression `orbitRadius * sin(altitude)`. -/
  orbitY : F32 → F32 → F32
  /-- The expression `orbitRadius * cos(altitude) * cos(azimuth)`. -/
  orbitZ : F32 → F32 → F32 → F32

/-- A `vec4` of linmath.h. -/
structure Vec4 where
  x : F32
  y : F32
  z : F32
  w : F32
  deriving DecidableEq, Repr

/-- The struct `SimulationData` mirrored into GPU memory (fields as used by the code). -/
structure SimulationData where
  spore_count : Int
  grid_size : Int
  sdf_reduction : Int
  spore_speed : F32
  decay_speed : F32
  turn_speed : F32
  sensor_distance : F32
  sensor_angle : F32
  aspect_ratio : F32
  delta_time : F32
  grid_resize_factor : F32
  camera_focus : Vec4
  camera_position : Vec4
  deriving DecidableEq, Repr

/-- Internal formats passed to `glTexStorage3D`. -/
inductive TexFormat
  | r32f
  | rgba32f
  deriving DecidableEq, Repr

/-- Texture parameters set with `glTexParameteri`. -/
inductive TexParam
  | minFilter
  | magFilter
  | wrapS
  | wrapT
  | wrapR
  deriving DecidableEq, Repr

/-- Values given to texture parameters. -/
inductive TexParamValue
  | nearest
  | clampToEdge
  deriving DecidableEq, Repr

/-- The OpenGL calls issued by the modelled code, with the values passed. -/
inductive GLCall
  | useProgram (program : Nat)
  /-- The call glDispatchCompute, with the `GLuint` values it receives. -/
  | dispatchCompute (x y z : Int)
  | memoryBarrier (bits : Barrier)
  | bindImageTexture (unit : Int) (texture : Nat) (access : Access)
  | uniform1i (location : Int) (value : Int)
  | genBuffers (buffer : Nat)
  | bindShaderStorageBuffer (buffer : Nat)
  /-- The call glBufferData(GL_SHADER_STORAGE_BUFFER, sizeof(SimulationData), &settings,
  GL_STATIC_DRAW): one write of the whole struct. -/
  | bufferDataSettings (settings : SimulationData)
  | bindBufferBase (index : Int) (buffer : Nat)
  /-- The call glBufferData(GL_SHADER_STORAGE_BUFFER, size, nullptr, GL_DYNAMIC_DRAW). -/
  | bufferDataNull (size : Int)
  | genTextures (texture : Nat)
  /-- The call glBindTexture(GL_TEXTURE_3D, texture). -/
  | bindTexture3D (texture : Nat)
  /-- The call glTexStorage3D(GL_TEXTURE_3D, 1, format, width, height, depth). -/
  | texStorage3D (format : TexFormat) (width height depth : Int)
  | texParameteri (pname : TexParam) (value : TexParamValue)
  deriving DecidableEq, Repr

/-- The shader files the game creates programs from. -/
inductive ShaderFile
  | renderer
  | drawSpores
  | moveSpores
  | decaySpores
  | jumpFloodInit
  | jumpFloodStep
  | clearGrid
  | randomizeSpores
  | scaleSpores
  deriving DecidableEq, Repr

/-- Answers of the OpenGL driver. -/
structure Driver where
  /-- Result of glGetProgramiv(program, GL_COMPUTE_WORK_GROUP_SIZE, ..). -/
  computeWorkGroupSize : Nat → Int × Int × Int
  /-- Value of glGetError() after glDispatchCompute(x, y, z) with the program bound;
  0 is GL_NO_ERROR. -/
  getError : Nat → Int → Int → Int → Nat
  /-- Handle produced by glGenBuffers. -/
  genBuffer : Nat
  /-- Handle produced by the glGenBuffers call of `initializeSimulationBuffers`. -/
  genSporesBuffer : Nat
  /-- Handle produced by the glGenTextures call of `initializeVoxelGridBuffer`. -/
  genVoxelGridTexture : Nat
  /-- Handles produced by the two glGenTextures calls of `initializeSDFBuffer`. -/
  genSdfTexture1 : Nat
  genSdfTexture2 : Nat
  /-- Program handle returned by `CreateShaderProgram` for each shader file. -/
  createShaderProgram : ShaderFile → Nat
  /-- Result of glGetUniformLocation(program, "stepSize"). -/
  stepSizeLocation : Nat → Int

/-! ## Runs: GL calls issued, and a value or an exception -/

/-- Ways a run stops early. -/
inductive Abort
  /-- Thrown: "Dispatch item must be above 0". -/
  | dispatchItemBelowOne
  /-- Thrown: "Shader Program not initialized". -/
  | programNotInitialized
  /-- Thrown: "Dispatch exceeds maximum work group counts." -/
  | exceedsWorkGroupCounts
  /-- Thrown: "Compute shader local size exceeds maximum limits." -/
  | exceedsLocalSize
  /-- Thrown: "Error occurred during compute shader dispatch." -/
  | dispatchGLError
  /-- Integer division by zero (undefined behaviour). -/
  | divisionByZero
  /-- A loop did not finish within the iteration budget given to the model. -/
  | fuelExhausted
  deriving DecidableEq, Repr

/-- Outcome of running a piece of code. -/
structure Run (α : Type) where
  calls : List GLCall
  result : Except Abort α

namespace Run

/-- Return a value without issuing a call. -/
def ret {α : Type} (a : α) : Run α := ⟨[], .ok a⟩

/-- Issue one GL call. -/
def emit (c : GLCall) : Run Unit := ⟨[c], .ok ()⟩

/-- Stop with an exception. -/
def fail {α : Type} (e : Abort) : Run α := ⟨[], .error e⟩

/-- Sequencing: the continuation runs only when the first part returned. -/
def andThen {α β : Type} (r : Run α) (f : α → Run β) : Run β :=
  match r.result with
  | .error e => ⟨r.calls, .error e⟩
  | .ok a => ⟨r.calls ++ (f a).calls, (f a).result⟩

/-- The value returned, if the run returned. -/
def value? {α : Type} (r : Run α) : Option α :=
  match r.result with
  | .error _ => none
  | .ok a => some a

/-- The exception thrown, if the run threw. -/
def error? {α : Type} (r : Run α) : Option Abort :=
  match r.result with
  | .error e => some e
  | .ok _ => none

end Run

instance : Monad Run where
  pure := Run.ret
  bind := Run.andThen

/-! ## GameEngine -/

/-- Device limits stored by `GameEngine::ComputeShaderInitializationAndCheck`. -/
structure GameEngine where
  maxWorkGroupCountX : Int
  maxWorkGroupCountY : Int
  maxWorkGroupCountZ : Int
  maxWorkGroupSizeX : Int
  maxWorkGroupSizeY : Int
  maxWorkGroupSizeZ : Int
  vSyncEnabled : Bool
  deriving DecidableEq, Repr

/-- The expression `(items + localSize - 1) / localSize` on `int`. -/
def workGroupCount (items localSize : Int) : Int :=
  divInt (subInt (addInt items localSize) 1) localSize

/-- Model of `GameEngine::DispatchComputeShader`. -/
def GameEngine.DispatchComputeShader (e : GameEngine) (d : Driver)
    (computeShaderProgram : Nat) (itemsX itemsY itemsZ : Int) : Run Unit :=
  if itemsX < 1 ∨ itemsY < 1 ∨ itemsZ < 1 then
    Run.fail .dispatchItemBelowOne
  else if computeShaderProgram = 0 then
    Run.fail .programNotInitialized
  else do
    Run.emit (.useProgram computeShaderProgram)
    let localSizeX := (d.computeWorkGroupSize computeShaderProgram).1
    let localSizeY := (d.computeWorkGroupSize computeShaderProgram).2.1
    let localSizeZ := (d.computeWorkGroupSize computeShaderProgram).2.2
    if localSizeX = 0 ∨ localSizeY = 0 ∨ localSizeZ = 0 then
      Run.fail .divisionByZero
    else
      let workGroupCountX := workGroupCount itemsX localSizeX
      let workGroupCountY := workGroupCount itemsY localSizeY
      let workGroupCountZ := workGroupCount itemsZ localSizeZ
      if workGroupCountX > e.maxWorkGroupCountX ∨
          workGroupCountY > e.maxWorkGroupCountY ∨
          workGroupCountZ > e.maxWorkGroupCountZ then
        Run.fail .exceedsWorkGroupCounts
      else if localSizeX > e.maxWorkGroupSizeX ∨
          localSizeY > e.maxWorkGroupSizeY ∨
          localSizeZ > e.maxWorkGroupSizeZ then
        Run.fail .exceedsLocalSize
      else do
        Run.emit (.dispatchCompute (toGLuint workGroupCountX) (toGLuint workGroupCountY)
          (toGLuint workGroupCountZ))
        if d.getError computeShaderProgram (toGLuint workGroupCountX) (toGLuint workGroupCountY)
            (toGLuint workGroupCountZ) ≠ 0 then
          Run.fail .dispatchGLError
        else
          Run.emit (.memoryBarrier .shaderStorage)

/-! ## MoldLabGame -/

def GRID_TEXTURE_LOCATION : Int := 0
def SDF_TEXTURE_READ_LOCATION : Int := 1
def SDF_TEXTURE_WRITE_LOCATION : Int := 2
def SPORE_BUFFER_LOCATION : Int := 0
def SIMULATION_BUFFER_LOCATION : Int := 1

/-- The class `ShaderVariable<int>`: uniform location and the pointed-to value. -/
structure ShaderVariable where
  location : Int
  value : Int
  deriving DecidableEq, Repr

/-- Model of `ShaderVariable<int>::uploadToShader`. -/
def ShaderVariable.uploadToShader (sv : ShaderVariable) : Run Unit :=
  if sv.location = -1 then Run.ret ()
  else Run.emit (.uniform1i sv.location sv.value)

/-- The struct `InputState`: key states written by the input manager. -/
structure InputState where
  isDPressed : Bool
  isAPressed : Bool
  isLeftPressed : Bool
  isRightPressed : Bool
  isUpPressed : Bool
  isDownPressed : Bool
  deriving DecidableEq, Repr

/-- Fields of `MoldLabGame` (with the device limits inherited from `GameEngine`). -/
structure MoldLabGame extends GameEngine where
  voxelGridTexture : Nat
  simulationSettingsBuffer : Nat
  sporesBuffer : Nat
  sdfTexBuffer1 : Nat
  sdfTexBuffer2 : Nat
  shaderProgram : Nat
  drawSporesShaderProgram : Nat
  moveSporesShaderProgram : Nat
  decaySporesShaderProgram : Nat
  jumpFloodInitShaderProgram : Nat
  jumpFloodStepShaderProgram : Nat
  clearGridShaderProgram : Nat
  randomizeSporesShaderProgram : Nat
  scaleSporesShaderProgram : Nat
  jfaStepSV : ShaderVariable
  simulationSettings : SimulationData
  horizontalAngle : F32
  verticalAngle : F32
  orbitRadius : F32
  useTransparency : Bool
  wrapGrid : Bool
  gridSizeChanged : Bool
  inputState : InputState
  /-- The function-local static `angle` of `HandleCameraMovement`. -/
  cameraAngle : F32
  deriving DecidableEq, Repr

/-- Model of `uploadSettingsBuffer`; returns the buffer handle left in the reference. -/
def uploadSettingsBuffer (d : Driver) (simulationSettingsBuffer : Nat)
    (settings : SimulationData) : Run Nat := do
  let buffer ← (if simulationSettingsBuffer = 0 then do
      Run.emit (.genBuffers d.genBuffer)
      Run.ret d.genBuffer
    else Run.ret simulationSettingsBuffer)
  Run.emit (.bindShaderStorageBuffer buffer)
  Run.emit (.bufferDataSettings settings)
  Run.emit (.bindBufferBase SIMULATION_BUFFER_LOCATION buffer)
  Run.emit (.bindShaderStorageBuffer 0)
  Run.ret buffer

/-- Model of `MoldLabGame::clearGrid`. -/
def MoldLabGame.clearGrid (g : MoldLabGame) (d : Driver) : Run Unit :=
  let gridSize := g.simulationSettings.grid_size
  g.toGameEngine.DispatchComputeShader d g.clearGridShaderProgram gridSize gridSize gridSize

/-- Model of `MoldLabGame::resetSporesAndGrid`. -/
def MoldLabGame.resetSporesAndGrid (g : MoldLabGame) (d : Driver) : Run Unit := do
  g.clearGrid d
  g.toGameEngine.DispatchComputeShader d g.randomizeSporesShaderProgram
    g.simulationSettings.spore_count 1 1

/-- The loop `while (stepSize * 2 < reducedGridSize) stepSize *= 2;` of `executeJFA`,
run for at most `fuel` tests of its condition. -/
def doublingLoop : Nat → Int → Int → Option Int
  | 0, _, _ => none
  | fuel + 1, stepSize, reducedGridSize =>
    if mulInt stepSize 2 < reducedGridSize then
      doublingLoop fuel (mulInt stepSize 2) reducedGridSize
    else some stepSize

/-- The values of `stepSize` at the successive tests of the condition of the loop
`while (stepSize * 2 < reducedGridSize) stepSize *= 2;` of `executeJFA`, for at most
`fuel` tests: the operands of the products `stepSize * 2` the loop evaluates. -/
def doublingTests : Nat → Int → Int → List Int
  | 0, _, _ => []
  | fuel + 1, stepSize, reducedGridSize =>
    stepSize ::
      (if mulInt stepSize 2 < reducedGridSize then
        doublingTests fuel (mulInt stepSize 2) reducedGridSize
      else [])

/-- Local variables of `executeJFA` during the step loop, and the static `jfaStep`
that `jfaStepSV.value` points to. -/
structure JfaLocals where
  stepSize : Int
  iterations : Int
  readTexture : Nat
  writeTexture : Nat
  jfaStep : Int
  deriving DecidableEq, Repr

/-- Body of the loop `while (stepSize >= 1)` of `executeJFA`. -/
def MoldLabGame.jfaStepBody (g : MoldLabGame) (d : Driver) (reducedGridSize : Int)
    (s : JfaLocals) : Run JfaLocals := do
  let iterations := addInt s.iterations 1
  Run.emit (.bindImageTexture SDF_TEXTURE_READ_LOCATION s.readTexture .readOnly)
  Run.emit (.bindImageTexture SDF_TEXTURE_WRITE_LOCATION s.writeTexture .writeOnly)
  let jfaStep := s.stepSize
  ShaderVariable.uploadToShader { location := g.jfaStepSV.location, value := jfaStep }
  g.toGameEngine.DispatchComputeShader d g.jumpFloodStepShaderProgram
    reducedGridSize reducedGridSize reducedGridSize
  Run.emit (.memoryBarrier .shaderImageAccess)
  Run.ret { stepSize := divInt s.stepSize 2, iterations := iterations,
            readTexture := s.writeTexture, writeTexture := s.readTexture,
            jfaStep := jfaStep }

/-- The loop `while (stepSize >= 1)` of `executeJFA`, run for at most `fuel` iterations. -/
def MoldLabGame.jfaStepLoop (g : MoldLabGame) (d : Driver) (reducedGridSize : Int) :
    Nat → JfaLocals → Run JfaLocals
  | 0, s => if s.stepSize ≥ 1 then Run.fail .fuelExhausted else Run.ret s
  | fuel + 1, s =>
    if s.stepSize ≥ 1 then do
      let s1 ← g.jfaStepBody d reducedGridSize s
      MoldLabGame.jfaStepLoop g d reducedGridSize fuel s1
    else Run.ret s

/-- Model of `MoldLabGame::executeJFA`; each loop gets the iteration budget `fuel`.
Returns the local variables at the end of the function. -/
def MoldLabGame.executeJFA (fuel : Nat) (g : MoldLabGame) (d : Driver) : Run JfaLocals := do
  Run.emit (.useProgram g.jumpFloodInitShaderProgram)
  let readTexture := g.sdfTexBuffer1
  let writeTexture := g.sdfTexBuffer2
  Run.emit (.bindImageTexture SDF_TEXTURE_READ_LOCATION readTexture .writeOnly)
  if g.simulationSettings.sdf_reduction = 0 then
    Run.fail .divisionByZero
  else
    let reducedGridSize := divInt g.simulationSettings.grid_size g.simulationSettings.sdf_reduction
    g.toGameEngine.DispatchComputeShader d g.jumpFloodInitShaderProgram
      reducedGridSize reducedGridSize reducedGridSize
    Run.emit (.memoryBarrier .shaderImageAccess)
    Run.emit (.useProgram g.jumpFloodStepShaderProgram)
    match doublingLoop fuel 1 reducedGridSize with
    | none => Run.fail .fuelExhausted
    | some stepSize =>
      let s ← g.jfaStepLoop d reducedGridSize fuel
        { stepSize := stepSize, iterations := 0, readTexture := readTexture,
          writeTexture := writeTexture, jfaStep := g.jfaStepSV.value }
      Run.emit (.bindImageTexture SDF_TEXTURE_READ_LOCATION s.readTexture .readOnly)
      Run.ret s

/-- Model of `MoldLabGame::DispatchComputeShaders`; returns the object after the call. -/
def MoldLabGame.DispatchComputeShaders (fuel : Nat) (g : MoldLabGame) (d : Driver) :
    Run MoldLabGame := do
  let gridSize := g.simulationSettings.grid_size
  let buffer ← uploadSettingsBuffer d g.simulationSettingsBuffer g.simulationSettings
  let g1 := { g with simulationSettingsBuffer := buffer }
  (if ¬ g1.gridSizeChanged = true then do
      g1.toGameEngine.DispatchComputeShader d g1.decaySporesShaderProgram gridSize gridSize gridSize
      g1.toGameEngine.DispatchComputeShader d g1.moveSporesShaderProgram
        g1.simulationSettings.spore_count 1 1
      g1.toGameEngine.DispatchComputeShader d g1.drawSporesShaderProgram
        g1.simulationSettings.spore_count 1 1
    else g1.resetSporesAndGrid d)
  let g2 := { g1 with gridSizeChanged := false }
  let s ← g2.executeJFA fuel d
  Run.ret { g2 with jfaStepSV := { g2.jfaStepSV with value := s.jfaStep } }

/-- What the user did to the widgets of the settings window during one frame. -/
structure UIFrame where
  /-- New value written by the "Spore Count" slider, if it was moved. -/
  sporeCountSlider : Option Int
  /-- New value written by the "Grid Size" slider, if it was moved. -/
  gridSizeSlider : Option Int
  sporeSpeedSlider : Option F32
  turnSpeedSlider : Option F32
  decaySpeedSlider : Option F32
  sensorDistanceSlider : Option F32
  sensorAngleSlider : Option F32
  randomizePressed : Bool
  /-- Handle returned by `CreateShaderProgram` when "Use Transparency" was clicked. -/
  transparencyClicked : Option Nat
  /-- Handle returned by `CreateShaderProgram` when "Wrap Grid" was clicked. -/
  wrapGridClicked : Option Nat
  vsyncClicked : Bool

/-- A float slider: writes the new value when moved. -/
def sliderFloat (moved : Option F32) (value : F32) : F32 :=
  match moved with
  | some v => v
  | none => value

/-- The "Variables:" block of `MoldLabGame::renderUI` (the seven sliders and the
grid-size coercion between them). -/
def MoldLabGame.renderUIVariables (fa : FloatArith) (ui : UIFrame) (g : MoldLabGame) :
    Except Abort MoldLabGame :=
  let s0 := g.simulationSettings
  let s1 : SimulationData :=
    match ui.sporeCountSlider with
    | some v => { s0 with spore_count := v }
    | none => s0
  let previousGridSize := s1.grid_size
  let gridSizeChanged := ui.gridSizeSlider.isSome
  let s2 : SimulationData :=
    match ui.gridSizeSlider with
    | some v => { s1 with grid_size := v }
    | none => s1
  if s2.sdf_reduction = 0 then .error .divisionByZero
  else
    let g3 : MoldLabGame :=
      if gridSizeChanged = true then
        let reduction := s2.sdf_reduction
        let s3 := { s2 with grid_size := mulInt (divInt s2.grid_size reduction) reduction }
        if previousGridSize ≠ s3.grid_size then
          let gridResizeFactor := fa.div (fa.ofInt s3.grid_size) (fa.ofInt previousGridSize)
          { g with
            simulationSettings :=
              { s3 with
                spore_speed := fa.mul s3.spore_speed gridResizeFactor
                sensor_distance := fa.mul s3.sensor_distance gridResizeFactor
                grid_resize_factor := gridResizeFactor }
            orbitRadius := fa.mul g.orbitRadius gridResizeFactor
            gridSizeChanged := gridSizeChanged }
        else { g with simulationSettings := s3, gridSizeChanged := gridSizeChanged }
      else { g with simulationSettings := s2, gridSizeChanged := gridSizeChanged }
    let s4 := g3.simulationSettings
    .ok { g3 with
      simulationSettings :=
        { s4 with
          spore_speed := sliderFloat ui.sporeSpeedSlider s4.spore_speed
          turn_speed := sliderFloat ui.turnSpeedSlider s4.turn_speed
          decay_speed := sliderFloat ui.decaySpeedSlider s4.decay_speed
          sensor_distance := sliderFloat ui.sensorDistanceSlider s4.sensor_distance
          sensor_angle := sliderFloat ui.sensorAngleSlider s4.sensor_angle } }

/-- The buttons and checkboxes at the end of the settings window of `renderUI`. -/
def MoldLabGame.renderUIControls (d : Driver) (ui : UIFrame) (g : MoldLabGame) :
    Run MoldLabGame := do
  (if ui.randomizePressed = true then g.resetSporesAndGrid d else Run.ret ())
  let g1 : MoldLabGame :=
    match ui.transparencyClicked with
    | some program => { g with useTransparency := !g.useTransparency, shaderProgram := program }
    | none => g
  let g2 : MoldLabGame :=
    match ui.wrapGridClicked with
    | some program => { g1 with wrapGrid := !g1.wrapGrid, moveSporesShaderProgram := program }
    | none => g1
  let g3 : MoldLabGame :=
    if ui.vsyncClicked = true then { g2 with vSyncEnabled := !g2.vSyncEnabled } else g2
  Run.ret g3

/-- Model of `MoldLabGame::renderUI`; returns the object after the call. -/
def MoldLabGame.renderUI (fa : FloatArith) (d : Driver) (ui : UIFrame) (g : MoldLabGame) :
    Run MoldLabGame :=
  match g.renderUIVariables fa ui with
  | .error e => Run.fail e
  | .ok g1 => g1.renderUIControls d ui

/-- The condition `grid_size % sdf_reduction != 0` of the warning branch of `renderUI`,
on the settings it is evaluated on. -/
def divisibilityWarning (settings : SimulationData) : Bool :=
  decide (modInt settings.grid_size settings.sdf_reduction ≠ 0)

/-! ## MoldLabGame: construction, start-up and the per-frame update -/

/-- The constant `SimulationDefaults::GRID_SIZE`. -/
def SimulationDefaults.GRID_SIZE : Int := 400

/-- The constant `SimulationDefaults::SPORE_COUNT`. -/
def SimulationDefaults.SPORE_COUNT : Int := 500000

/-- The constant `SimulationDefaults::SDF_REDUCTION_FACTOR`. -/
def SimulationDefaults.SDF_REDUCTION_FACTOR : Int := 2

/-- The constant `SimulationDefaults::MAX_SPORE_COUNT` (declared `float`, used as `int`). -/
def SimulationDefaults.MAX_SPORE_COUNT : Int := 1000000

/-- The constant `SimulationDefaults::MAX_GRID_SIZE` (declared `float`, used as `int`). -/
def SimulationDefaults.MAX_GRID_SIZE : Int := 500

/-- The constant `SimulationDefaults::PI`, 3.14159265358979323846f. -/
def SimulationDefaults.PI : F32 := ⟨1078530011⟩

/-- The constant `SimulationDefaults::SPORE_SPEED`, 10.0f. -/
def SimulationDefaults.SPORE_SPEED : F32 := ⟨1092616192⟩

/-- The constant `SimulationDefaults::SPORE_DECAY`, 0.33f. -/
def SimulationDefaults.SPORE_DECAY : F32 := ⟨1051260355⟩

/-- The constant `SimulationDefaults::SPORE_SENSOR_DISTANCE`, 10.0f. -/
def SimulationDefaults.SPORE_SENSOR_DISTANCE : F32 := ⟨1092616192⟩

/-- The constant `SimulationDefaults::SPORE_SENSOR_ANGLE`, PI / 2.0f. -/
def SimulationDefaults.SPORE_SENSOR_ANGLE : F32 := ⟨1070141403⟩

/-- The constant `SimulationDefaults::SPORE_TURN_SPEED`, 1.0f. -/
def SimulationDefaults.SPORE_TURN_SPEED : F32 := ⟨1065353216⟩

/-- The value 0.0f. -/
def F32.zero : F32 := ⟨0⟩

/-- The value 0.5f. -/
def F32.half : F32 := ⟨1056964608⟩

/-- The value 1.0f. -/
def F32.one : F32 := ⟨1065353216⟩

/-- The value 8.0f. -/
def F32.eight : F32 := ⟨1090519040⟩

/-- The value 89.0f. -/
def F32.eightyNine : F32 := ⟨1118961664⟩

/-- The value -89.0f. -/
def F32.minusEightyNine : F32 := ⟨3266445312⟩

/-- The value 90.0f. -/
def F32.ninety : F32 := ⟨1119092736⟩

/-- The value 100.0f. -/
def F32.hundred : F32 := ⟨1120403456⟩

/-- The value 180.0f. -/
def F32.oneEighty : F32 := ⟨1127481344⟩

/-- The value 360.0f. -/
def F32.threeSixty : F32 := ⟨1135869952⟩

/-- The value 500.0f, which is `SimulationDefaults::GRID_SIZE * 1.25`. -/
def F32.fiveHundred : F32 := ⟨1140457472⟩

/-- Model of `assignDefaultsToSimulationData`. -/
def assignDefaultsToSimulationData (data : SimulationData) (aspectRatio : F32) : SimulationData :=
  { data with
    spore_count := SimulationDefaults.SPORE_COUNT
    grid_size := SimulationDefaults.GRID_SIZE
    sdf_reduction := SimulationDefaults.SDF_REDUCTION_FACTOR
    spore_speed := SimulationDefaults.SPORE_SPEED
    decay_speed := SimulationDefaults.SPORE_DECAY
    turn_speed := SimulationDefaults.SPORE_TURN_SPEED
    sensor_distance := SimulationDefaults.SPORE_SENSOR_DISTANCE
    sensor_angle := SimulationDefaults.SPORE_SENSOR_ANGLE
    aspect_ratio := aspectRatio }

/-- The value-initialised `SimulationData simulationSettings{}`. -/
def SimulationData.zeroed : SimulationData :=
  { spore_count := 0
    grid_size := 0
    sdf_reduction := 0
    spore_speed := F32.zero
    decay_speed := F32.zero
    turn_speed := F32.zero
    sensor_distance := F32.zero
    sensor_angle := F32.zero
    aspect_ratio := F32.zero
    delta_time := F32.zero
    grid_resize_factor := F32.zero
    camera_focus := ⟨F32.zero, F32.zero, F32.zero, F32.zero⟩
    camera_position := ⟨F32.zero, F32.zero, F32.zero, F32.zero⟩ }

/-- Model of the constructor `MoldLabGame::MoldLabGame`, given the engine part already
set up by the `GameEngine` constructor and the aspect ratio of the window. -/
def MoldLabGame.new (e : GameEngine) (aspectRatio : F32) : MoldLabGame :=
  { e with
    voxelGridTexture := 0
    simulationSettingsBuffer := 0
    sporesBuffer := 0
    sdfTexBuffer1 := 0
    sdfTexBuffer2 := 0
    shaderProgram := 0
    drawSporesShaderProgram := 0
    moveSporesShaderProgram := 0
    decaySporesShaderProgram := 0
    jumpFloodInitShaderProgram := 0
    jumpFloodStepShaderProgram := 0
    clearGridShaderProgram := 0
    randomizeSporesShaderProgram := 0
    scaleSporesShaderProgram := 0
    jfaStepSV := { location := -1, value := 0 }
    simulationSettings := assignDefaultsToSimulationData SimulationData.zeroed aspectRatio
    horizontalAngle := F32.ninety
    verticalAngle := F32.zero
    orbitRadius := F32.fiveHundred
    useTransparency := true
    wrapGrid := true
    gridSizeChanged := false
    inputState := ⟨false, false, false, false, false, false⟩
    cameraAngle := F32.zero }

/-- Model of `MoldLabGame::initializeShaders`: the nine program handles are the
answers of `CreateShaderProgram`, whose shader loading and linking is not modelled. -/
def MoldLabGame.initializeShaders (d : Driver) (g : MoldLabGame) : MoldLabGame :=
  { g with
    shaderProgram := d.createShaderProgram .renderer
    drawSporesShaderProgram := d.createShaderProgram .drawSpores
    moveSporesShaderProgram := d.createShaderProgram .moveSpores
    decaySporesShaderProgram := d.createShaderProgram .decaySpores
    jumpFloodInitShaderProgram := d.createShaderProgram .jumpFloodInit
    jumpFloodStepShaderProgram := d.createShaderProgram .jumpFloodStep
    clearGridShaderProgram := d.createShaderProgram .clearGrid
    randomizeSporesShaderProgram := d.createShaderProgram .randomizeSpores
    scaleSporesShaderProgram := d.createShaderProgram .scaleSpores }

/-- Model of `MoldLabGame::initializeUniformVariables`, for the `stepSize` uniform: the
static `jfaStep` starts as the grid size. -/
def MoldLabGame.initializeUniformVariables (d : Driver) (g : MoldLabGame) : MoldLabGame :=
  { g with
    jfaStepSV :=
      { location := d.stepSizeLocation g.jumpFloodStepShaderProgram
        value := g.simulationSettings.grid_size } }

/-- The five glTexParameteri calls made for each 3D texture. -/
def textureParameterCalls : List GLCall :=
  [.texParameteri .minFilter .nearest,
   .texParameteri .magFilter .nearest,
   .texParameteri .wrapS .clampToEdge,
   .texParameteri .wrapT .clampToEdge,
   .texParameteri .wrapR .clampToEdge]

/-- Issue a list of GL calls. -/
def Run.emitAll (calls : List GLCall) : Run Unit := ⟨calls, .ok ()⟩

/-- Model of `MoldLabGame::initializeVoxelGridBuffer`. -/
def MoldLabGame.initializeVoxelGridBuffer (d : Driver) (g : MoldLabGame) : Run MoldLabGame := do
  let voxelGridSize := SimulationDefaults.MAX_GRID_SIZE
  Run.emit (.genTextures d.genVoxelGridTexture)
  let voxelGridTexture := d.genVoxelGridTexture
  Run.emit (.bindTexture3D voxelGridTexture)
  Run.emit (.texStorage3D .r32f voxelGridSize voxelGridSize voxelGridSize)
  Run.emitAll textureParameterCalls
  Run.emit (.bindImageTexture GRID_TEXTURE_LOCATION voxelGridTexture .readWrite)
  Run.emit (.bindTexture3D 0)
  Run.ret { g with voxelGridTexture := voxelGridTexture }

/-- Model of `MoldLabGame::initializeSDFBuffer`. -/
def MoldLabGame.initializeSDFBuffer (d : Driver) (g : MoldLabGame) : Run MoldLabGame :=
  if g.simulationSettings.sdf_reduction = 0 then
    Run.fail .divisionByZero
  else do
    let reducedGridSize := divInt g.simulationSettings.grid_size g.simulationSettings.sdf_reduction
    Run.emit (.genTextures d.genSdfTexture1)
    let sdfTexBuffer1 := d.genSdfTexture1
    Run.emit (.bindTexture3D sdfTexBuffer1)
    Run.emit (.texStorage3D .rgba32f reducedGridSize reducedGridSize reducedGridSize)
    Run.emitAll textureParameterCalls
    Run.emit (.bindTexture3D 0)
    Run.emit (.genTextures d.genSdfTexture2)
    let sdfTexBuffer2 := d.genSdfTexture2
    Run.emit (.bindTexture3D sdfTexBuffer2)
    Run.emit (.texStorage3D .rgba32f reducedGridSize reducedGridSize reducedGridSize)
    Run.emitAll textureParameterCalls
    Run.emit (.bindTexture3D 0)
    Run.ret { g with sdfTexBuffer1 := sdfTexBuffer1, sdfTexBuffer2 := sdfTexBuffer2 }

/-- Reduction of a mathematical integer to the 64-bit two's-complement range
(`GLsizeiptr`). -/
def wrapInt64 (x : Int) : Int :=
  (x + 9223372036854775808) % 18446744073709551616 - 9223372036854775808

/-- Model of `MoldLabGame::initializeSimulationBuffers`; `sizeofSpore` is
`sizeof(Spore)`, whose declaration is in a header that is not part of the sources. -/
def MoldLabGame.initializeSimulationBuffers (d : Driver) (sizeofSpore : Int)
    (g : MoldLabGame) : Run MoldLabGame := do
  let sporesSize := wrapInt64 (sizeofSpore * g.simulationSettings.spore_count)
  Run.emit (.genBuffers d.genSporesBuffer)
  let sporesBuffer := d.genSporesBuffer
  Run.emit (.bindShaderStorageBuffer sporesBuffer)
  Run.emit (.bufferDataNull sporesSize)
  Run.emit (.bindBufferBase SPORE_BUFFER_LOCATION sporesBuffer)
  Run.emit (.bindShaderStorageBuffer 0)
  let buffer ← uploadSettingsBuffer d g.simulationSettingsBuffer g.simulationSettings
  Run.ret { g with sporesBuffer := sporesBuffer, simulationSettingsBuffer := buffer }

/-- Model of `MoldLabGame::renderingStart`; the vertex buffers of the full-screen quad
(`initializeVertexBuffers`) belong to rendering and are not modelled. -/
def MoldLabGame.renderingStart (d : Driver) (sizeofSpore : Int) (g : MoldLabGame) :
    Run MoldLabGame := do
  let g1 := g.initializeShaders d
  let g2 := g1.initializeUniformVariables d
  let g3 ← g2.initializeVoxelGridBuffer d
  let g4 ← g3.initializeSDFBuffer d
  g4.initializeSimulationBuffers d sizeofSpore

/-- Model of `MoldLabGame::start`, for its GL effects (font loading and key bindings are
not modelled). -/
def MoldLabGame.start (d : Driver) (g : MoldLabGame) : Run MoldLabGame := do
  g.resetSporesAndGrid d
  Run.ret g

/-- Model of `MoldLabGame::HandleCameraMovement`. -/
def MoldLabGame.HandleCameraMovement (fa : FloatArith) (g : MoldLabGame)
    (orbitRadius deltaTime : F32) : MoldLabGame :=
  let rotationSpeed := F32.hundred
  let angle := fa.add g.cameraAngle (fa.mul rotationSpeed deltaTime)
  let gridCenter :=
    fa.mul (fa.sub (fa.ofInt g.simulationSettings.grid_size) F32.one) F32.half
  let camera_focus : Vec4 := ⟨gridCenter, gridCenter, gridCenter, F32.zero⟩
  let horizontalAngle1 :=
    if g.inputState.isLeftPressed = true then
      fa.add g.horizontalAngle (fa.mul rotationSpeed deltaTime)
    else g.horizontalAngle
  let horizontalAngle2 :=
    if g.inputState.isRightPressed = true then
      fa.sub horizontalAngle1 (fa.mul rotationSpeed deltaTime)
    else horizontalAngle1
  let verticalAngle1 :=
    if g.inputState.isUpPressed = true then
      fa.min (fa.add g.verticalAngle (fa.mul rotationSpeed deltaTime)) F32.eightyNine
    else g.verticalAngle
  let verticalAngle2 :=
    if g.inputState.isDownPressed = true then
      fa.max (fa.sub verticalAngle1 (fa.mul rotationSpeed deltaTime)) F32.minusEightyNine
    else verticalAngle1
  let horizontalAngle3 :=
    if fa.lt F32.threeSixty horizontalAngle2 = true then fa.sub horizontalAngle2 F32.threeSixty
    else horizontalAngle2
  let horizontalAngle4 :=
    if fa.lt horizontalAngle3 F32.zero = true then fa.add horizontalAngle3 F32.threeSixty
    else horizontalAngle3
  let azimuth := fa.div (fa.mul horizontalAngle4 SimulationDefaults.PI) F32.oneEighty
  let altitude := fa.div (fa.mul verticalAngle2 SimulationDefaults.PI) F32.oneEighty
  let x := fa.orbitX orbitRadius altitude azimuth
  let y := fa.orbitY orbitRadius altitude
  let z := fa.orbitZ orbitRadius altitude azimuth
  let camera_position : Vec4 :=
    ⟨fa.add camera_focus.x x, fa.add camera_focus.y y, fa.add camera_focus.z z, F32.zero⟩
  { g with
    cameraAngle := angle
    horizontalAngle := horizontalAngle4
    verticalAngle := verticalAngle2
    simulationSettings :=
      { g.simulationSettings with
        camera_focus := camera_focus
        camera_position := camera_position } }

/-- Model of `MoldLabGame::update`; returns the object after the call. -/
def MoldLabGame.update (fa : FloatArith) (fuel : Nat) (d : Driver) (deltaTime : F32)
    (g : MoldLabGame) : Run MoldLabGame :=
  let g1 := g.HandleCameraMovement fa g.orbitRadius deltaTime
  let g2 : MoldLabGame :=
    { g1 with simulationSettings := { g1.simulationSettings with delta_time := deltaTime } }
  let orbitDistanceChange := fa.div (fa.ofInt g2.simulationSettings.grid_size) F32.eight
  let g3 : MoldLabGame :=
    if g2.inputState.isDPressed = true then
      { g2 with orbitRadius := fa.add g2.orbitRadius (fa.mul orbitDistanceChange deltaTime) }
    else if g2.inputState.isAPressed = true then
      { g2 with orbitRadius := fa.sub g2.orbitRadius (fa.mul orbitDistanceChange deltaTime) }
    else g2
  g3.DispatchComputeShaders fuel d

/-- The key states written by `inputManager.handleInput` before `update` is called. -/
def MoldLabGame.handleInput (input : InputState) (g : MoldLabGame) : MoldLabGame :=
  { g with inputState := input }

/-- States of the game object between calls of the frame loop of `GameEngine::run`:
after construction, `renderingStart` and `start`, and then after any returning `update`
(with the key states read before it) or `renderUI`. -/
inductive MoldLabGame.Reachable (fa : FloatArith) (fuel : Nat) (d : Driver) (sizeofSpore : Int) :
    MoldLabGame → Prop
  | started (e : GameEngine) (aspectRatio : F32) (g0 g1 : MoldLabGame) :
      ((MoldLabGame.new e aspectRatio).renderingStart d sizeofSpore).result = .ok g0 →
      (g0.start d).result = .ok g1 →
      MoldLabGame.Reachable fa fuel d sizeofSpore g1
  | updated (g g1 : MoldLabGame) (input : InputState) (deltaTime : F32) :
      MoldLabGame.Reachable fa fuel d sizeofSpore g →
      ((g.handleInput input).update fa fuel d deltaTime).result = .ok g1 →
      MoldLabGame.Reachable fa fuel d sizeofSpore g1
  | edited (g g1 : MoldLabGame) (ui : UIFrame) :
      MoldLabGame.Reachable fa fuel d sizeofSpore g →
      (g.renderUI fa d ui).result = .ok g1 →
      MoldLabGame.Reachable fa fuel d sizeofSpore g1

/-! ## Storage allocated by a trace of GL calls -/

/-- Storage given to a buffer object by glBufferData. -/
inductive BufferStorage
  /-- A store of the given number of bytes. -/
  | bytes (size : Int)
  /-- A store of sizeof(SimulationData) bytes holding the struct. -/
  | settings (data : SimulationData)
  deriving DecidableEq, Repr

/-- The part of the GL state that decides which object a storage call applies to,
and the storage given so far (most recent first). -/
structure GLState where
  shaderStorageBinding : Nat
  texture3DBinding : Nat
  buffers : List (Nat × BufferStorage)
  textures : List (Nat × (Int × Int × Int))
  deriving DecidableEq, Repr

/-- The GL state of a fresh context. -/
def GLState.initial : GLState :=
  { shaderStorageBinding := 0, texture3DBinding := 0, buffers := [], textures := [] }

/-- Effect of one GL call on the bindings and on the storage of buffers and textures. -/
def GLState.apply (s : GLState) : GLCall → GLState
  | .bindShaderStorageBuffer buffer => { s with shaderStorageBinding := buffer }
  | .bufferDataNull size =>
    { s with buffers := (s.shaderStorageBinding, .bytes size) :: s.buffers }
  | .bufferDataSettings data =>
    { s with buffers := (s.shaderStorageBinding, .settings data) :: s.buffers }
  | .bindTexture3D texture => { s with texture3DBinding := texture }
  | .texStorage3D _ width height depth =>
    { s with textures := (s.texture3DBinding, (width, height, depth)) :: s.textures }
  | _ => s

/-- The storage a buffer object has after a trace of GL calls. -/
def allocatedBuffer (calls : List GLCall) (buffer : Nat) : Option BufferStorage :=
  (calls.foldl GLState.apply GLState.initial).buffers.lookup buffer

/-- The dimensions of the storage a texture has after a trace of GL calls. -/
def allocatedTexture (calls : List GLCall) (texture : Nat) : Option (Int × Int × Int) :=
  (calls.foldl GLState.apply GLState.initial).textures.lookup texture

/-! ## Observations on traces of GL calls -/

/-- The settings written by a glBufferData call that uploads the settings struct. -/
def settingsUpload? : GLCall → Option SimulationData
  | .bufferDataSettings settings => some settings
  | _ => none

/-- The settings structs uploaded, in order. -/
def settingsUploads (calls : List GLCall) : List SimulationData := calls.filterMap settingsUpload?

/-- The bits of a glMemoryBarrier call. -/
def barrierBits? : GLCall → Option Barrier
  | .memoryBarrier bits => some bits
  | _ => none

/-- Whether a GL call is a glDispatchCompute. -/
def isDispatch : GLCall → Bool
  | .dispatchCompute _ _ _ => true
  | _ => false

/-- Number of glDispatchCompute calls in a trace. -/
def dispatchCount (calls : List GLCall) : Nat := calls.countP isDispatch

/-- The program of a glUseProgram call. -/
def usedProgram? : GLCall → Option Nat
  | .useProgram program => some program
  | _ => none

/-- The programs bound with glUseProgram, in order. -/
def usedPrograms (calls : List GLCall) : List Nat := calls.filterMap usedProgram?

/-- The value of a glUniform1i call. -/
def uniformValue? : GLCall → Option Int
  | .uniform1i _ value => some value
  | _ => none

/-- The values uploaded with glUniform1i, in order. -/
def uploadedStepSizes (calls : List GLCall) : List Int := calls.filterMap uniformValue?

/-- The texture of a read-only binding to the SDF read unit. -/
def readBinding? : GLCall → Option Nat
  | .bindImageTexture unit texture .readOnly =>
    if unit = SDF_TEXTURE_READ_LOCATION then some texture else none
  | _ => none

/-- The texture of a write-only binding to the SDF write unit. -/
def writeBinding? : GLCall → Option Nat
  | .bindImageTexture unit texture .writeOnly =>
    if unit = SDF_TEXTURE_WRITE_LOCATION then some texture else none
  | _ => none

/-- Textures bound read-only to the SDF read unit, in order. -/
def readBindings (calls : List GLCall) : List Nat := calls.filterMap readBinding?

/-- Textures bound write-only to the SDF write unit, in order. -/
def writeBindings (calls : List GLCall) : List Nat := calls.filterMap writeBinding?

/-- The value of the `stepSize` uniform after a GL call, given its value before. -/
def stepSizeAfter (current : Option Int) : GLCall → Option Int
  | .uniform1i _ value => some value
  | _ => current

/-- For each glDispatchCompute of a trace, in order, the value most recently uploaded with
glUniform1i before it (`none` when nothing was uploaded yet): the step size the dispatch
runs with. -/
def dispatchStepSizes (current : Option Int) : List GLCall → List (Option Int)
  | [] => []
  | c :: rest =>
    (if isDispatch c = true then [current] else []) ++
      dispatchStepSizes (stepSizeAfter current c) rest

/-! ## The traces a returning run of `executeJFA` is proved to produce -/

/-- Exponent of the first step size for a reduced grid size `m`. -/
def firstExponent (m : Int) : Nat := Nat.clog 2 m.toNat - 1

/-- The list `a, b, a, b, ...` of the given length. -/
def alternate (a b : Nat) : Nat → List Nat
  | 0 => []
  | k + 1 => a :: alternate b a k

/-- The step sizes `2^j, ..., 2, 1`. -/
def halvings : Nat → List Int
  | 0 => [1]
  | j + 1 => 2 ^ (j + 1) :: halvings j

/-- GL calls of one iteration of the step loop of `executeJFA` whose dispatch returns. -/
def MoldLabGame.stepCalls (g : MoldLabGame) (d : Driver) (reducedGridSize stepSize : Int)
    (readTexture writeTexture : Nat) : List GLCall :=
  [.bindImageTexture SDF_TEXTURE_READ_LOCATION readTexture .readOnly,
   .bindImageTexture SDF_TEXTURE_WRITE_LOCATION writeTexture .writeOnly] ++
  (ShaderVariable.uploadToShader { location := g.jfaStepSV.location, value := stepSize }).calls ++
  (g.toGameEngine.DispatchComputeShader d g.jumpFloodStepShaderProgram
    reducedGridSize reducedGridSize reducedGridSize).calls ++
  [.memoryBarrier .shaderImageAccess]

/-- GL calls of `j + 1` consecutive iterations with step sizes `2^j, ..., 2, 1`,
the first reading `readTexture` and writing `writeTexture`. -/
def MoldLabGame.loopCalls (g : MoldLabGame) (d : Driver) (reducedGridSize : Int) :
    Nat → Nat → Nat → List GLCall
  | 0, readTexture, writeTexture => g.stepCalls d reducedGridSize 1 readTexture writeTexture
  | j + 1, readTexture, writeTexture =>
    g.stepCalls d reducedGridSize (2 ^ (j + 1)) readTexture writeTexture ++
      MoldLabGame.loopCalls g d reducedGridSize j writeTexture readTexture

/-- GL calls of a run of `executeJFA` that returns, for reduced grid size `m`. -/
def MoldLabGame.jfaCalls (g : MoldLabGame) (d : Driver) (m : Int) : List GLCall :=
  [.useProgram g.jumpFloodInitShaderProgram,
   .bindImageTexture SDF_TEXTURE_READ_LOCATION g.sdfTexBuffer1 .writeOnly] ++
  (g.toGameEngine.DispatchComputeShader d g.jumpFloodInitShaderProgram m m m).calls ++
  [.memoryBarrier .shaderImageAccess, .useProgram g.jumpFloodStepShaderProgram] ++
  g.loopCalls d m (firstExponent m) g.sdfTexBuffer1 g.sdfTexBuffer2 ++
  [.bindImageTexture SDF_TEXTURE_READ_LOCATION
    (if (firstExponent m + 1) % 2 = 0 then g.sdfTexBuffer1 else g.sdfTexBuffer2) .readOnly]

/-- Local variables of `executeJFA` at its end, for reduced grid size `m`. -/
def MoldLabGame.jfaFinal (g : MoldLabGame) (m : Int) : JfaLocals :=
  { stepSize := 0
    iterations := ((firstExponent m + 1 : Nat) : Int)
    readTexture := if (firstExponent m + 1) % 2 = 0 then g.sdfTexBuffer1 else g.sdfTexBuffer2
    writeTexture := if (firstExponent m + 1) % 2 = 0 then g.sdfTexBuffer2 else g.sdfTexBuffer1
    jfaStep := 1 }

/-! ## Example configuration -/

/-- A frame in which the user touches no widget. -/
def UIFrame.idle : UIFrame :=
  { sporeCountSlider := none
    gridSizeSlider := none
    sporeSpeedSlider := none
    turnSpeedSlider := none
    decaySpeedSlider := none
    sensorDistanceSlider := none
    sensorAngleSlider := none
    randomizePressed := false
    transparencyClicked := none
    wrapGridClicked := none
    vsyncClicked := false }

/-- A driver whose kernels all declare local size 8 x 8 x 8 and that reports no error. -/
def sampleDriver : Driver :=
  { computeWorkGroupSize := fun _ => (8, 8, 8)
    getError := fun _ _ _ _ => 0
    genBuffer := 77
    genSporesBuffer := 2
    genVoxelGridTexture := 1
    genSdfTexture1 := 3
    genSdfTexture2 := 4
    createShaderProgram := fun f =>
      match f with
      | .renderer => 10
      | .drawSpores => 11
      | .moveSpores => 12
      | .decaySpores => 13
      | .jumpFloodInit => 14
      | .jumpFloodStep => 15
      | .clearGrid => 16
      | .randomizeSpores => 17
      | .scaleSpores => 18
    stepSizeLocation := fun _ => 5 }

/-- Device limits of a typical desktop GPU. -/
def sampleEngine : GameEngine :=
  { maxWorkGroupCountX := 2147483647
    maxWorkGroupCountY := 65535
    maxWorkGroupCountZ := 65535
    maxWorkGroupSizeX := 1024
    maxWorkGroupSizeY := 1024
    maxWorkGroupSizeZ := 64
    vSyncEnabled := false }

/-- Stand-in single-precision operations for the example configuration. -/
def sampleFloatArith : FloatArith :=
  { ofInt := fun _ => ⟨0⟩
    mul := fun a _ => a
    div := fun a _ => a
    add := fun a _ => a
    sub := fun a _ => a
    min := fun a _ => a
    max := fun a _ => a
    lt := fun a b => decide (a.bits < b.bits)
    orbitX := fun a _ _ => a
    orbitY := fun a _ => a
    orbitZ := fun a _ _ => a }

/-- A game object with the given grid size, reduction factor and reset flag. -/
def sampleGame (gridSize reduction : Int) (changed : Bool) : MoldLabGame :=
  { sampleEngine with
    voxelGridTexture := 1
    simulationSettingsBuffer := 0
    sporesBuffer := 2
    sdfTexBuffer1 := 3
    sdfTexBuffer2 := 4
    shaderProgram := 10
    drawSporesShaderProgram := 11
    moveSporesShaderProgram := 12
    decaySporesShaderProgram := 13
    jumpFloodInitShaderProgram := 14
    jumpFloodStepShaderProgram := 15
    clearGridShaderProgram := 16
    randomizeSporesShaderProgram := 17
    scaleSporesShaderProgram := 18
    jfaStepSV := ⟨5, 400⟩
    simulationSettings :=
      ⟨500000, gridSize, reduction, ⟨0⟩, ⟨0⟩, ⟨0⟩, ⟨0⟩, ⟨0⟩, ⟨0⟩, ⟨0⟩, ⟨0⟩,
        ⟨⟨0⟩, ⟨0⟩, ⟨0⟩, ⟨0⟩⟩, ⟨⟨0⟩, ⟨0⟩, ⟨0⟩, ⟨0⟩⟩⟩
    horizontalAngle := ⟨0⟩
    verticalAngle := ⟨0⟩
    orbitRadius := ⟨0⟩
    useTransparency := true
    wrapGrid := true
    gridSizeChanged := changed
    inputState := ⟨false, false, false, false, false, false⟩
    cameraAngle := ⟨0⟩ }

/-- The sample game at grid size 400 after the spore count was set to the given value. -/
def sampleGameWithSpores (count : Int) : MoldLabGame :=
  { sampleGame 400 2 false with
    simulationSettings :=
      { (sampleGame 400 2 false).simulationSettings with spore_count := count } }

/-- Key states with no key pressed. -/
def InputState.released : InputState := ⟨false, false, false, false, false, false⟩

/-- The sample game object after construction and `renderingStart`, with `sizeof(Spore)`
taken as 32. -/
def sampleStarted : MoldLabGame :=
  (((MoldLabGame.new sampleEngine F32.one).renderingStart sampleDriver 32).value?).getD
    (MoldLabGame.new sampleEngine F32.one)

/-- A session on the sample configuration, with `sizeof(Spore)` taken as 32: construction,
`renderingStart`, `start`, one frame (`update`, then `renderUI` with the given edits) and
the `update` of the next frame. -/
def sampleSession (ui : UIFrame) : Run MoldLabGame := do
  let g0 ← (MoldLabGame.new sampleEngine F32.one).renderingStart sampleDriver 32
  let g1 ← g0.start sampleDriver
  let g2 ← (g1.handleInput InputState.released).update sampleFloatArith 32 sampleDriver F32.zero
  let g3 ← g2.renderUI sampleFloatArith sampleDriver ui
  (g3.handleInput InputState.released).update sampleFloatArith 32 sampleDriver F32.zero

/-- The sample driver with a kernel local size of the given extents. -/
def sampleDriverWithLocalSize (x y z : Int) : Driver :=
  { sampleDriver with computeWorkGroupSize := fun _ => (x, y, z) }

/-- A game object with reduced grid size 2^30 + 1 on an engine whose maximum workgroup
counts are 2147483647 on every axis. -/
def sampleGameLarge : MoldLabGame :=
  { sampleGame 1073741825 1 false with
    maxWorkGroupCountY := 2147483647
    maxWorkGroupCountZ := 2147483647 }

/-! ## Theorems: machine arithmetic -/

theorem wrapInt_of_inRange {x : Int} (h1 : INT_MIN ≤ x) (h2 : x ≤ INT_MAX) : wrapInt x = x := by
  unfold INT_MIN at h1
  unfold INT_MAX at h2
  unfold wrapInt
  omega

theorem Run.bind_eq {α β : Type} (r : Run α) (f : α → Run β) : (r >>= f) = Run.andThen r f := rfl

theorem Run.pure_eq {α : Type} (a : α) : (pure a : Run α) = Run.ret a := rfl

theorem workGroupCount_of_noOverflow {items localSize : Int} (hi : 1 ≤ items) (hl : 1 ≤ localSize)
    (h : items + localSize - 1 ≤ INT_MAX) :
    workGroupCount items localSize = (items + localSize - 1) / localSize := by
  unfold INT_MAX at h
  have hq0 : 0 ≤ (items + localSize - 1) / localSize := Int.ediv_nonneg (by omega) (by omega)
  have hq1 : (items + localSize - 1) / localSize ≤ items + localSize - 1 :=
    Int.ediv_le_self _ (by omega)
  have hs : subInt (addInt items localSize) 1 = items + localSize - 1 := by
    unfold subInt addInt wrapInt
    omega
  unfold workGroupCount divInt
  rw [hs, Int.tdiv_eq_ediv (by omega) (by omega)]
  exact wrapInt_of_inRange (by unfold INT_MIN; omega) (by unfold INT_MAX; omega)

theorem ediv_eq_ceil {items localSize : Int} (hl : 1 ≤ localSize) :
    (items + localSize - 1) / localSize = ⌈(items : ℚ) / (localSize : ℚ)⌉ := by
  have hlq : (0 : ℚ) < (localSize : ℚ) := by exact_mod_cast (by omega : (0 : Int) < localSize)
  have hmod := Int.emod_add_ediv (items + localSize - 1) localSize
  have hlt := Int.emod_lt_of_pos (items + localSize - 1) (by omega : (0 : Int) < localSize)
  have hge := Int.emod_nonneg (items + localSize - 1) (by omega : localSize ≠ 0)
  symm
  rw [Int.ceil_eq_iff]
  constructor
  · rw [lt_div_iff₀ hlq]
    have : ((items + localSize - 1) / localSize - 1) * localSize < items := by nlinarith
    exact_mod_cast this
  · rw [div_le_iff₀ hlq]
    have : items ≤ ((items + localSize - 1) / localSize) * localSize := by nlinarith
    exact_mod_cast this

theorem workGroupCount_eq_ceil {items localSize : Int} (hi : 1 ≤ items) (hl : 1 ≤ localSize)
    (h : items + localSize - 1 ≤ INT_MAX) :
    workGroupCount items localSize = ⌈(items : ℚ) / (localSize : ℚ)⌉ := by
  rw [workGroupCount_of_noOverflow hi hl h, ediv_eq_ceil hl]

/-- C1: at the item count 2147483647 with local size 2 the sum `items + localSize - 1`
leaves the range of `int`; the count the code computes is -1073741824 whereas the
ceiling of 2147483647 / 2 is 1073741824. -/
theorem workGroupCount_overflow :
    workGroupCount 2147483647 2 = -1073741824 ∧
      ⌈((2147483647 : Int) : ℚ) / ((2 : Int) : ℚ)⌉ = 1073741824 := by
  constructor
  · decide
  · rw [← ediv_eq_ceil (by decide)]
    decide

/-! ## Theorems: GameEngine::DispatchComputeShader -/

theorem DispatchComputeShader_ok_iff (e : GameEngine) (d : Driver) (p : Nat) (x y z : Int) :
    (e.DispatchComputeShader d p x y z).result = .ok () ↔
      (1 ≤ x ∧ 1 ≤ y ∧ 1 ≤ z) ∧ p ≠ 0 ∧
      ((d.computeWorkGroupSize p).1 ≠ 0 ∧ (d.computeWorkGroupSize p).2.1 ≠ 0 ∧
        (d.computeWorkGroupSize p).2.2 ≠ 0) ∧
      (workGroupCount x (d.computeWorkGroupSize p).1 ≤ e.maxWorkGroupCountX ∧
        workGroupCount y (d.computeWorkGroupSize p).2.1 ≤ e.maxWorkGroupCountY ∧
        workGroupCount z (d.computeWorkGroupSize p).2.2 ≤ e.maxWorkGroupCountZ) ∧
      ((d.computeWorkGroupSize p).1 ≤ e.maxWorkGroupSizeX ∧
        (d.computeWorkGroupSize p).2.1 ≤ e.maxWorkGroupSizeY ∧
        (d.computeWorkGroupSize p).2.2 ≤ e.maxWorkGroupSizeZ) ∧
      d.getError p (toGLuint (workGroupCount x (d.computeWorkGroupSize p).1))
        (toGLuint (workGroupCount y (d.computeWorkGroupSize p).2.1))
        (toGLuint (workGroupCount z (d.computeWorkGroupSize p).2.2)) = 0 := by
  unfold GameEngine.DispatchComputeShader
  simp only [Run.bind_eq]
  split_ifs <;> simp_all [Run.andThen, Run.emit, Run.fail] <;> omega

theorem Run.error?_eq_none_iff {α : Type} (r : Run α) : r.error? = none ↔ ∃ a, r.result = .ok a := by
  unfold Run.error?
  cases h : r.result <;> simp

theorem Run.error?_eq_none_iff_unit (r : Run Unit) : r.error? = none ↔ r.result = .ok () := by
  rw [Run.error?_eq_none_iff]
  constructor
  · rintro ⟨a, h⟩; exact h
  · intro h; exact ⟨(), h⟩

theorem DispatchComputeShader_calls_of_ok (e : GameEngine) (d : Driver) (p : Nat) (x y z : Int)
    (h : (e.DispatchComputeShader d p x y z).result = .ok ()) :
    (e.DispatchComputeShader d p x y z).calls =
      [.useProgram p,
       .dispatchCompute (toGLuint (workGroupCount x (d.computeWorkGroupSize p).1))
         (toGLuint (workGroupCount y (d.computeWorkGroupSize p).2.1))
         (toGLuint (workGroupCount z (d.computeWorkGroupSize p).2.2)),
       .memoryBarrier .shaderStorage] := by
  revert h
  unfold GameEngine.DispatchComputeShader
  simp only [Run.bind_eq]
  split_ifs <;> simp [Run.andThen, Run.emit, Run.fail]

theorem DispatchComputeShader_throws_iff (e : GameEngine) (d : Driver) (p : Nat) (x y z : Int)
    (hL : (d.computeWorkGroupSize p).1 ≠ 0 ∧ (d.computeWorkGroupSize p).2.1 ≠ 0 ∧
      (d.computeWorkGroupSize p).2.2 ≠ 0)
    (hgl : ∀ a b c, d.getError p a b c = 0) :
    ((e.DispatchComputeShader d p x y z).error? ≠ none ↔
      (x < 1 ∨ y < 1 ∨ z < 1) ∨ p = 0 ∨
      (workGroupCount x (d.computeWorkGroupSize p).1 > e.maxWorkGroupCountX ∨
        workGroupCount y (d.computeWorkGroupSize p).2.1 > e.maxWorkGroupCountY ∨
        workGroupCount z (d.computeWorkGroupSize p).2.2 > e.maxWorkGroupCountZ) ∨
      ((d.computeWorkGroupSize p).1 > e.maxWorkGroupSizeX ∨
        (d.computeWorkGroupSize p).2.1 > e.maxWorkGroupSizeY ∨
        (d.computeWorkGroupSize p).2.2 > e.maxWorkGroupSizeZ)) ∧
    (e.DispatchComputeShader d p 0 y z).error? = some .dispatchItemBelowOne ∧
    ((e.DispatchComputeShader d p x y z).error? = none →
      (e.DispatchComputeShader d p x y z).calls =
        [.useProgram p,
         .dispatchCompute (toGLuint (workGroupCount x (d.computeWorkGroupSize p).1))
           (toGLuint (workGroupCount y (d.computeWorkGroupSize p).2.1))
           (toGLuint (workGroupCount z (d.computeWorkGroupSize p).2.2)),
         .memoryBarrier .shaderStorage]) := by
  refine ⟨?_, ?_, ?_⟩
  · rw [Ne, Run.error?_eq_none_iff_unit, DispatchComputeShader_ok_iff]
    have := hgl (toGLuint (workGroupCount x (d.computeWorkGroupSize p).1))
      (toGLuint (workGroupCount y (d.computeWorkGroupSize p).2.1))
      (toGLuint (workGroupCount z (d.computeWorkGroupSize p).2.2))
    constructor
    · intro h
      by_contra hc
      apply h
      push_neg at hc
      refine ⟨by omega, hc.2.1, hL, by omega, by omega, this⟩
    · intro h hc
      omega
  · unfold GameEngine.DispatchComputeShader
    simp [Run.error?, Run.fail]
  · intro h
    exact DispatchComputeShader_calls_of_ok e d p x y z ((Run.error?_eq_none_iff_unit _).1 h)

/-- C2: on the sample engine (maximum workgroup count 2147483647 along x), with a kernel of
local size (2, 1, 1) and no GL error reported, `DispatchComputeShader(13, 2147483647, 1, 1)`
does not throw. The count it computes along x, `(2147483647 + 2 - 1) / 2` in `int`, is
-1073741824, which glDispatchCompute receives as the GLuint 3221225472, whereas the
ceiling of 2147483647 / 2 is 1073741824. With the maximum count along x lowered to 65535,
which that ceiling exceeds, the call still does not throw and issues the same dispatch. -/
theorem DispatchComputeShader_dispatches_wrapped_count :
    (sampleEngine.DispatchComputeShader (sampleDriverWithLocalSize 2 1 1) 13
      2147483647 1 1).error? = none ∧
    (sampleEngine.DispatchComputeShader (sampleDriverWithLocalSize 2 1 1) 13
      2147483647 1 1).calls =
      [.useProgram 13, .dispatchCompute 3221225472 1 1, .memoryBarrier .shaderStorage] ∧
    workGroupCount 2147483647 2 = -1073741824 ∧
    toGLuint (-1073741824) = 3221225472 ∧
    ⌈((2147483647 : Int) : ℚ) / ((2 : Int) : ℚ)⌉ = 1073741824 ∧
    (65535 : Int) < ⌈((2147483647 : Int) : ℚ) / ((2 : Int) : ℚ)⌉ ∧
    (({ sampleEngine with maxWorkGroupCountX := 65535 } : GameEngine).DispatchComputeShader
      (sampleDriverWithLocalSize 2 1 1) 13 2147483647 1 1).error? = none ∧
    (({ sampleEngine with maxWorkGroupCountX := 65535 } : GameEngine).DispatchComputeShader
      (sampleDriverWithLocalSize 2 1 1) 13 2147483647 1 1).calls =
      [.useProgram 13, .dispatchCompute 3221225472 1 1, .memoryBarrier .shaderStorage] := by
  have hceil : ⌈((2147483647 : Int) : ℚ) / ((2 : Int) : ℚ)⌉ = 1073741824 := by
    rw [← ediv_eq_ceil (by decide)]
    decide
  refine ⟨by decide, by decide, by decide, by decide, hceil, ?_, by decide, by decide⟩
  rw [hceil]
  decide

/-! ## Theorems: the step schedule of executeJFA -/

theorem two_pow_bounds {k : Nat} (hk : k ≤ 30) : (1 : Int) ≤ 2 ^ k ∧ (2 : Int) ^ k ≤ 1073741824 := by
  constructor
  · exact one_le_pow₀ (by norm_num)
  · calc (2 : Int) ^ k ≤ 2 ^ 30 := pow_le_pow_right₀ (by norm_num) hk
      _ = 1073741824 := by norm_num

theorem mulInt_two_pow {k : Nat} (hk : k + 1 ≤ 30) : mulInt (2 ^ k) 2 = 2 ^ (k + 1) := by
  have h := two_pow_bounds hk
  unfold mulInt
  rw [← pow_succ]
  exact wrapInt_of_inRange (by unfold INT_MIN; omega) (by unfold INT_MAX; omega)

theorem divInt_two_pow_succ {j : Nat} (hj : j + 1 ≤ 30) : divInt (2 ^ (j + 1)) 2 = 2 ^ j := by
  have h := two_pow_bounds (show j ≤ 30 by omega)
  unfold divInt
  rw [Int.tdiv_eq_ediv (by positivity) (by norm_num), pow_succ,
    Int.mul_ediv_cancel _ (by norm_num)]
  exact wrapInt_of_inRange (by unfold INT_MIN; omega) (by unfold INT_MAX; omega)

theorem doublingLoop_from_pow (n : Int) (J : Nat) (hJ : J ≤ 29) (hle : n ≤ 2 ^ (J + 1))
    (hlt : ∀ k, k < J → (2 : Int) ^ (k + 1) < n) :
    ∀ (gap k fuel : Nat), k + gap = J → gap + 1 ≤ fuel →
      doublingLoop fuel (2 ^ k) n = some (2 ^ J) := by
  intro gap
  induction gap with
  | zero =>
    intro k fuel hk hfuel
    obtain ⟨f, rfl⟩ : ∃ f, fuel = f + 1 := ⟨fuel - 1, by omega⟩
    have hkJ : k = J := by omega
    subst hkJ
    unfold doublingLoop
    rw [mulInt_two_pow (by omega), if_neg (by omega)]
  | succ gap ih =>
    intro k fuel hk hfuel
    obtain ⟨f, rfl⟩ : ∃ f, fuel = f + 1 := ⟨fuel - 1, by omega⟩
    unfold doublingLoop
    rw [mulInt_two_pow (by omega), if_pos (hlt k (by omega))]
    exact ih (k + 1) f (by omega) (by omega)

theorem firstExponent_spec {m : Int} (h30 : m ≤ 1073741824) :
    firstExponent m ≤ 29 ∧ m ≤ 2 ^ (firstExponent m + 1) ∧
      ∀ k, k < firstExponent m → (2 : Int) ^ (k + 1) < m := by
  unfold firstExponent
  by_cases h2 : 2 ≤ m
  · have hN : 2 ≤ m.toNat := by omega
    have hpos := Nat.clog_pos (by norm_num : 1 < 2) hN
    have hc30 : Nat.clog 2 m.toNat ≤ 30 := by
      rw [← Nat.le_pow_iff_clog_le (by norm_num)]
      norm_num
      omega
    have hup := Nat.le_pow_clog (by norm_num : 1 < 2) m.toNat
    refine ⟨by omega, ?_, ?_⟩
    · rw [Nat.sub_add_cancel hpos]
      have : (m.toNat : Int) ≤ ((2 ^ Nat.clog 2 m.toNat : Nat) : Int) := by exact_mod_cast hup
      rw [Int.toNat_of_nonneg (by omega)] at this
      simpa using this
    · intro k hk
      have : 2 ^ (k + 1) < m.toNat := by
        rw [Nat.pow_lt_iff_lt_clog (by norm_num)]
        omega
      have h' : ((2 ^ (k + 1) : Nat) : Int) < (m.toNat : Int) := by exact_mod_cast this
      rw [Int.toNat_of_nonneg (by omega)] at h'
      simpa using h'
  · have hN : m.toNat ≤ 1 := by omega
    rw [Nat.clog_of_right_le_one hN]
    refine ⟨by omega, ?_, ?_⟩
    · norm_num; omega
    · intro k hk; omega

theorem doublingLoop_eq {m : Int} (h30 : m ≤ 1073741824) {fuel : Nat} (hfuel : 30 ≤ fuel) :
    doublingLoop fuel 1 m = some (2 ^ firstExponent m) := by
  obtain ⟨h1, h2, h3⟩ := firstExponent_spec h30
  have := doublingLoop_from_pow m (firstExponent m) h1 h2 h3 (firstExponent m) 0 fuel
    (by omega) (by omega)
  simpa using this


theorem uploadToShader_result (sv : ShaderVariable) : sv.uploadToShader.result = .ok () := by
  unfold ShaderVariable.uploadToShader
  split_ifs <;> rfl

theorem jfaStepBody_eq (g : MoldLabGame) (d : Driver) (n : Int) (s : JfaLocals)
    (hD : (g.toGameEngine.DispatchComputeShader d g.jumpFloodStepShaderProgram n n n).result
      = .ok ()) :
    g.jfaStepBody d n s =
      ⟨g.stepCalls d n s.stepSize s.readTexture s.writeTexture,
       .ok { stepSize := divInt s.stepSize 2, iterations := addInt s.iterations 1,
             readTexture := s.writeTexture, writeTexture := s.readTexture,
             jfaStep := s.stepSize }⟩ := by
  unfold MoldLabGame.jfaStepBody MoldLabGame.stepCalls
  simp [Run.bind_eq, Run.andThen, Run.emit, Run.ret, Run.pure_eq, hD, uploadToShader_result]

theorem jfaStepLoop_done (g : MoldLabGame) (d : Driver) (n : Int) (fuel : Nat) (s : JfaLocals)
    (h : s.stepSize < 1) : g.jfaStepLoop d n fuel s = Run.ret s := by
  cases fuel <;> unfold MoldLabGame.jfaStepLoop <;> rw [if_neg (by omega)]

theorem jfaStepLoop_eq (g : MoldLabGame) (d : Driver) (n : Int)
    (hD : (g.toGameEngine.DispatchComputeShader d g.jumpFloodStepShaderProgram n n n).result
      = .ok ()) :
    ∀ (j fuel : Nat) (s : JfaLocals), s.stepSize = 2 ^ j → j ≤ 30 → j + 1 ≤ fuel →
      0 ≤ s.iterations → s.iterations + j ≤ 1000 →
      g.jfaStepLoop d n fuel s =
        ⟨g.loopCalls d n j s.readTexture s.writeTexture,
         .ok { stepSize := 0, iterations := s.iterations + (j + 1 : Nat),
               readTexture := if (j + 1) % 2 = 0 then s.readTexture else s.writeTexture,
               writeTexture := if (j + 1) % 2 = 0 then s.writeTexture else s.readTexture,
               jfaStep := 1 }⟩ := by
  intro j
  induction j with
  | zero =>
    intro fuel s hs _ hfuel h0 h1
    obtain ⟨f, rfl⟩ : ∃ f, fuel = f + 1 := ⟨fuel - 1, by omega⟩
    unfold MoldLabGame.jfaStepLoop
    rw [if_pos (by rw [hs]; norm_num), Run.bind_eq, jfaStepBody_eq g d n s hD]
    unfold Run.andThen
    simp only
    have hdone := jfaStepLoop_done g d n f
      { stepSize := divInt s.stepSize 2, iterations := addInt s.iterations 1,
        readTexture := s.writeTexture, writeTexture := s.readTexture, jfaStep := s.stepSize }
      (by show divInt s.stepSize 2 < 1; rw [hs]; decide)
    rw [hdone]
    have hi : addInt s.iterations 1 = s.iterations + 1 := by
      unfold addInt wrapInt; omega
    simp [Run.ret, MoldLabGame.loopCalls, hs, hi]
    decide
  | succ j ih =>
    intro fuel s hs hj hfuel h0 h1
    obtain ⟨f, rfl⟩ : ∃ f, fuel = f + 1 := ⟨fuel - 1, by omega⟩
    have hb := two_pow_bounds hj
    unfold MoldLabGame.jfaStepLoop
    rw [if_pos (by rw [hs]; omega), Run.bind_eq, jfaStepBody_eq g d n s hD]
    unfold Run.andThen
    simp only
    have hi : addInt s.iterations 1 = s.iterations + 1 := by
      unfold addInt wrapInt; omega
    have hj1 : j ≤ 30 := by omega
    have hf1 : j + 1 ≤ f := by omega
    rw [ih f _ (by simp only [hs]; exact divInt_two_pow_succ hj) hj1 hf1
      (by simp only [hi]; omega) (by simp only [hi]; omega)]
    simp only [hi, hs, MoldLabGame.loopCalls]
    have hpar : (j + 1 + 1) % 2 = 0 ↔ ¬ ((j + 1) % 2 = 0) := by omega
    by_cases hp : (j + 1) % 2 = 0
    · simp [hp, hpar]; omega
    · simp [hp, hpar]; omega

theorem alternate_length (a b : Nat) (k : Nat) : (alternate a b k).length = k := by
  induction k generalizing a b with
  | zero => rfl
  | succ k ih => simp [alternate, ih]

theorem alternate_getElem? (a b : Nat) (k i : Nat) (h : i < k) :
    (alternate a b k)[i]? = some (if i % 2 = 0 then a else b) := by
  induction k generalizing a b i with
  | zero => omega
  | succ k ih =>
    cases i with
    | zero => simp [alternate]
    | succ i =>
      simp only [alternate, List.getElem?_cons_succ]
      rw [ih b a i (by omega)]
      have hpar : (i + 1) % 2 = 0 ↔ ¬ (i % 2 = 0) := by omega
      by_cases hp : i % 2 = 0 <;> simp [hp, hpar]

theorem stepCalls_eq (g : MoldLabGame) (d : Driver) (n stepSize : Int) (r w : Nat)
    (hD : (g.toGameEngine.DispatchComputeShader d g.jumpFloodStepShaderProgram n n n).result
      = .ok ()) :
    g.stepCalls d n stepSize r w =
      [.bindImageTexture SDF_TEXTURE_READ_LOCATION r .readOnly,
       .bindImageTexture SDF_TEXTURE_WRITE_LOCATION w .writeOnly] ++
      (if g.jfaStepSV.location = -1 then [] else [.uniform1i g.jfaStepSV.location stepSize]) ++
      [.useProgram g.jumpFloodStepShaderProgram,
       .dispatchCompute
         (toGLuint (workGroupCount n (d.computeWorkGroupSize g.jumpFloodStepShaderProgram).1))
         (toGLuint (workGroupCount n (d.computeWorkGroupSize g.jumpFloodStepShaderProgram).2.1))
         (toGLuint (workGroupCount n (d.computeWorkGroupSize g.jumpFloodStepShaderProgram).2.2)),
       .memoryBarrier .shaderStorage,
       .memoryBarrier .shaderImageAccess] := by
  unfold MoldLabGame.stepCalls
  rw [DispatchComputeShader_calls_of_ok _ _ _ _ _ _ hD]
  unfold ShaderVariable.uploadToShader
  split_ifs <;> simp [Run.ret, Run.emit]

theorem stepCalls_observed (g : MoldLabGame) (d : Driver) (n stepSize : Int) (r w : Nat)
    (hD : (g.toGameEngine.DispatchComputeShader d g.jumpFloodStepShaderProgram n n n).result
      = .ok ()) :
    dispatchCount (g.stepCalls d n stepSize r w) = 1 ∧
    readBindings (g.stepCalls d n stepSize r w) = [r] ∧
    writeBindings (g.stepCalls d n stepSize r w) = [w] ∧
    uploadedStepSizes (g.stepCalls d n stepSize r w) =
      (if g.jfaStepSV.location = -1 then [] else [stepSize]) := by
  rw [stepCalls_eq g d n stepSize r w hD]
  unfold dispatchCount readBindings writeBindings uploadedStepSizes
  split_ifs <;>
    simp [isDispatch, readBinding?, writeBinding?, uniformValue?, SDF_TEXTURE_READ_LOCATION,
      SDF_TEXTURE_WRITE_LOCATION]

theorem loopCalls_observed (g : MoldLabGame) (d : Driver) (n : Int)
    (hD : (g.toGameEngine.DispatchComputeShader d g.jumpFloodStepShaderProgram n n n).result
      = .ok ()) :
    ∀ (j r w : Nat),
      dispatchCount (g.loopCalls d n j r w) = j + 1 ∧
      readBindings (g.loopCalls d n j r w) = alternate r w (j + 1) ∧
      writeBindings (g.loopCalls d n j r w) = alternate w r (j + 1) ∧
      uploadedStepSizes (g.loopCalls d n j r w) =
        (if g.jfaStepSV.location = -1 then [] else halvings j) := by
  intro j
  induction j with
  | zero =>
    intro r w
    have h := stepCalls_observed g d n 1 r w hD
    simpa [MoldLabGame.loopCalls, alternate, halvings] using h
  | succ j ih =>
    intro r w
    obtain ⟨h1, h2, h3, h4⟩ := stepCalls_observed g d n (2 ^ (j + 1)) r w hD
    obtain ⟨i1, i2, i3, i4⟩ := ih w r
    unfold dispatchCount readBindings writeBindings uploadedStepSizes at *
    simp only [MoldLabGame.loopCalls, List.countP_append, List.filterMap_append, h1, h2, h3, h4,
      i1, i2, i3, i4]
    refine ⟨by omega, ?_, ?_, ?_⟩
    · simp [alternate]
    · simp [alternate]
    · split_ifs <;> simp [halvings]

theorem doublingLoop_zero {m : Int} (hm : 0 < m) : ∀ fuel, doublingLoop fuel 0 m = none := by
  intro fuel
  induction fuel with
  | zero => rfl
  | succ f ih =>
    unfold doublingLoop
    have : mulInt 0 2 = 0 := by decide
    rw [this, if_pos hm, ih]

theorem doublingLoop_none_of_large {m : Int} (hm : 1073741824 < m) :
    ∀ (gap k fuel : Nat), k + gap = 30 → doublingLoop fuel (2 ^ k) m = none := by
  intro gap
  induction gap with
  | zero =>
    intro k fuel hk
    have hk30 : k = 30 := by omega
    subst hk30
    cases fuel with
    | zero => rfl
    | succ f =>
      unfold doublingLoop
      have h1 : mulInt (2 ^ 30) 2 = -2147483648 := by decide
      rw [h1, if_pos (by omega)]
      cases f with
      | zero => rfl
      | succ f =>
        unfold doublingLoop
        have h2 : mulInt (-2147483648) 2 = 0 := by decide
        rw [h2, if_pos (by omega)]
        exact doublingLoop_zero (by omega) f
  | succ gap ih =>
    intro k fuel hk
    cases fuel with
    | zero => rfl
    | succ f =>
      have hb := two_pow_bounds (show k + 1 ≤ 30 by omega)
      unfold doublingLoop
      rw [mulInt_two_pow (by omega), if_pos (by omega)]
      exact ih (k + 1) f (by omega)

theorem doublingLoop_short (n : Int) (J : Nat) (hJ : J ≤ 29)
    (hlt : ∀ k, k < J → (2 : Int) ^ (k + 1) < n) :
    ∀ (gap k fuel : Nat), k + gap = J → fuel < gap + 1 →
      doublingLoop fuel (2 ^ k) n = none := by
  intro gap
  induction gap with
  | zero =>
    intro k fuel _ hfuel
    have : fuel = 0 := by omega
    subst this
    rfl
  | succ gap ih =>
    intro k fuel hk hfuel
    cases fuel with
    | zero => rfl
    | succ f =>
      unfold doublingLoop
      rw [mulInt_two_pow (by omega), if_pos (hlt k (by omega))]
      exact ih (k + 1) f (by omega) (by omega)

theorem doublingLoop_char (m : Int) (fuel : Nat) :
    doublingLoop fuel 1 m =
      if m ≤ 1073741824 ∧ firstExponent m + 1 ≤ fuel then some (2 ^ firstExponent m)
      else none := by
  by_cases h30 : m ≤ 1073741824
  · obtain ⟨h1, h2, h3⟩ := firstExponent_spec h30
    by_cases hf : firstExponent m + 1 ≤ fuel
    · rw [if_pos ⟨h30, hf⟩]
      have := doublingLoop_from_pow m (firstExponent m) h1 h2 h3 (firstExponent m) 0 fuel
        (by omega) hf
      simpa using this
    · rw [if_neg (by tauto)]
      have := doublingLoop_short m (firstExponent m) h1 h3 (firstExponent m) 0 fuel
        (by omega) (by omega)
      simpa using this
  · rw [if_neg (by tauto)]
    have := doublingLoop_none_of_large (show 1073741824 < m by omega) 30 0 fuel (by omega)
    simpa using this

theorem jfaStepBody_error (g : MoldLabGame) (d : Driver) (n : Int) (s : JfaLocals) (e : Abort)
    (hD : (g.toGameEngine.DispatchComputeShader d g.jumpFloodStepShaderProgram n n n).result
      = .error e) :
    (g.jfaStepBody d n s).result = .error e := by
  unfold MoldLabGame.jfaStepBody
  simp [Run.bind_eq, Run.andThen, Run.emit, Run.ret, Run.pure_eq, hD, uploadToShader_result]

theorem jfaStepLoop_error (g : MoldLabGame) (d : Driver) (n : Int) (s : JfaLocals) (e : Abort)
    (hD : (g.toGameEngine.DispatchComputeShader d g.jumpFloodStepShaderProgram n n n).result
      = .error e) (hs : 1 ≤ s.stepSize) (fuel : Nat) :
    ∃ e1, (g.jfaStepLoop d n fuel s).result = .error e1 := by
  cases fuel with
  | zero =>
    unfold MoldLabGame.jfaStepLoop
    rw [if_pos (by omega)]
    exact ⟨_, rfl⟩
  | succ f =>
    unfold MoldLabGame.jfaStepLoop
    rw [if_pos (by omega), Run.bind_eq]
    unfold Run.andThen
    rw [jfaStepBody_error g d n s e hD]
    exact ⟨_, rfl⟩

theorem executeJFA_eq (fuel : Nat) (g : MoldLabGame) (d : Driver) (m : Int)
    (hr : g.simulationSettings.sdf_reduction ≠ 0)
    (hm : divInt g.simulationSettings.grid_size g.simulationSettings.sdf_reduction = m)
    (hinit : (g.toGameEngine.DispatchComputeShader d g.jumpFloodInitShaderProgram m m m).result
      = .ok ())
    (hstep : (g.toGameEngine.DispatchComputeShader d g.jumpFloodStepShaderProgram m m m).result
      = .ok ())
    (h30 : m ≤ 1073741824) (hfuel : firstExponent m + 1 ≤ fuel) :
    g.executeJFA fuel d = ⟨g.jfaCalls d m, .ok (g.jfaFinal m)⟩ := by
  have hJ := (firstExponent_spec h30).1
  have hloop := jfaStepLoop_eq g d m hstep (firstExponent m) fuel
    { stepSize := 2 ^ firstExponent m, iterations := 0, readTexture := g.sdfTexBuffer1,
      writeTexture := g.sdfTexBuffer2, jfaStep := g.jfaStepSV.value }
    rfl (by omega) hfuel (by simp) (by simp; omega)
  unfold MoldLabGame.executeJFA
  simp only [Run.bind_eq, hm]
  rw [if_neg hr, doublingLoop_char, if_pos ⟨h30, hfuel⟩]
  simp only [Run.bind_eq, hloop]
  simp [Run.andThen, Run.emit, Run.ret, Run.pure_eq, hinit, MoldLabGame.jfaCalls,
    MoldLabGame.jfaFinal]

theorem executeJFA_inv (fuel : Nat) (g : MoldLabGame) (d : Driver) (s : JfaLocals)
    (h : (g.executeJFA fuel d).result = .ok s) :
    g.simulationSettings.sdf_reduction ≠ 0 ∧
    (g.toGameEngine.DispatchComputeShader d g.jumpFloodInitShaderProgram
      (divInt g.simulationSettings.grid_size g.simulationSettings.sdf_reduction)
      (divInt g.simulationSettings.grid_size g.simulationSettings.sdf_reduction)
      (divInt g.simulationSettings.grid_size g.simulationSettings.sdf_reduction)).result
      = .ok () ∧
    (g.toGameEngine.DispatchComputeShader d g.jumpFloodStepShaderProgram
      (divInt g.simulationSettings.grid_size g.simulationSettings.sdf_reduction)
      (divInt g.simulationSettings.grid_size g.simulationSettings.sdf_reduction)
      (divInt g.simulationSettings.grid_size g.simulationSettings.sdf_reduction)).result
      = .ok () ∧
    divInt g.simulationSettings.grid_size g.simulationSettings.sdf_reduction ≤ 1073741824 ∧
    firstExponent (divInt g.simulationSettings.grid_size g.simulationSettings.sdf_reduction) + 1
      ≤ fuel := by
  generalize hm : divInt g.simulationSettings.grid_size g.simulationSettings.sdf_reduction = m
  by_cases hr : g.simulationSettings.sdf_reduction = 0
  · exfalso
    revert h
    unfold MoldLabGame.executeJFA
    simp [Run.bind_eq, Run.andThen, Run.emit, Run.fail, hr]
  refine ⟨hr, ?_⟩
  cases hinit : (g.toGameEngine.DispatchComputeShader d g.jumpFloodInitShaderProgram m m m).result with
  | error e =>
    exfalso
    revert h
    unfold MoldLabGame.executeJFA
    simp [Run.bind_eq, Run.andThen, Run.emit, Run.fail, hr, hm, hinit]
  | ok u =>
    refine ⟨rfl, ?_⟩
    by_cases hd : m ≤ 1073741824 ∧ firstExponent m + 1 ≤ fuel
    · refine ⟨?_, hd.1, hd.2⟩
      cases hstep : (g.toGameEngine.DispatchComputeShader d g.jumpFloodStepShaderProgram m m m).result with
      | ok u => rfl
      | error e =>
        exfalso
        obtain ⟨e1, he1⟩ := jfaStepLoop_error g d m
          { stepSize := 2 ^ firstExponent m, iterations := 0, readTexture := g.sdfTexBuffer1,
            writeTexture := g.sdfTexBuffer2, jfaStep := g.jfaStepSV.value } e hstep
          (two_pow_bounds (show firstExponent m ≤ 30 by
            have := (firstExponent_spec hd.1).1; omega)).1 fuel
        revert h
        unfold MoldLabGame.executeJFA
        simp only [Run.bind_eq, hm]
        rw [if_neg hr, doublingLoop_char, if_pos hd]
        simp [Run.bind_eq, Run.andThen, Run.emit, Run.fail, hinit, he1]
    · exfalso
      revert h
      unfold MoldLabGame.executeJFA
      simp only [Run.bind_eq, hm]
      rw [if_neg hr, doublingLoop_char, if_neg hd]
      simp [Run.andThen, Run.emit, Run.fail, hinit]

theorem alternate_snoc (a b : Nat) (k : Nat) :
    alternate a b k ++ [if k % 2 = 0 then a else b] = alternate a b (k + 1) := by
  induction k generalizing a b with
  | zero => simp [alternate]
  | succ k ih =>
    have hpar : (k + 1) % 2 = 0 ↔ ¬ (k % 2 = 0) := by omega
    have := ih b a
    simp only [alternate, List.cons_append, List.cons.injEq, true_and] at this ⊢
    rw [← this]
    by_cases hp : k % 2 = 0 <;> simp [hp, hpar]

theorem jfaCalls_observed (g : MoldLabGame) (d : Driver) (m : Int)
    (hinit : (g.toGameEngine.DispatchComputeShader d g.jumpFloodInitShaderProgram m m m).result
      = .ok ())
    (hstep : (g.toGameEngine.DispatchComputeShader d g.jumpFloodStepShaderProgram m m m).result
      = .ok ()) :
    dispatchCount (g.jfaCalls d m) = 1 + (firstExponent m + 1) ∧
    readBindings (g.jfaCalls d m) = alternate g.sdfTexBuffer1 g.sdfTexBuffer2 (firstExponent m + 2) ∧
    writeBindings (g.jfaCalls d m) =
      alternate g.sdfTexBuffer2 g.sdfTexBuffer1 (firstExponent m + 1) ∧
    uploadedStepSizes (g.jfaCalls d m) =
      (if g.jfaStepSV.location = -1 then [] else halvings (firstExponent m)) ∧
    (g.jfaCalls d m).getLast? = some (.bindImageTexture SDF_TEXTURE_READ_LOCATION
      (if (firstExponent m + 1) % 2 = 0 then g.sdfTexBuffer1 else g.sdfTexBuffer2) .readOnly) := by
  obtain ⟨i1, i2, i3, i4⟩ :=
    loopCalls_observed g d m hstep (firstExponent m) g.sdfTexBuffer1 g.sdfTexBuffer2
  have hsn := alternate_snoc g.sdfTexBuffer1 g.sdfTexBuffer2 (firstExponent m + 1)
  unfold MoldLabGame.jfaCalls
  rw [DispatchComputeShader_calls_of_ok _ _ _ _ _ _ hinit]
  unfold dispatchCount readBindings writeBindings uploadedStepSizes at *
  simp only [List.countP_append, List.filterMap_append, i1, i2, i3, i4]
  refine ⟨?_, ?_, ?_, ?_, ?_⟩
  · simp [isDispatch]
  · rw [← hsn]
    simp [readBinding?, SDF_TEXTURE_READ_LOCATION]
  · simp [writeBinding?, SDF_TEXTURE_READ_LOCATION, SDF_TEXTURE_WRITE_LOCATION]
  · simp [uniformValue?]
  · exact List.getLast?_concat _

theorem firstExponent_succ (m : Int) : firstExponent m + 1 = max 1 (Nat.clog 2 m.toNat) := by
  unfold firstExponent
  omega

theorem halvings_head? (j : Nat) : (halvings j).head? = some (2 ^ j) := by
  cases j <;> simp [halvings]

/-- C3 (amended): for a reduced grid size `m = grid_size / sdf_reduction` with `m ≤ 2^30`
(and `1 ≤ m`, which the accepted init dispatch implies), when the init and step dispatches
do not throw and each loop is given a budget of at least 30 iterations, `executeJFA`
returns after exactly `max 1 ⌈log2 m⌉` iterations of the step loop, and its trace holds
that many glDispatchCompute calls besides the one of the init pass. -/
theorem executeJFA_step_count (fuel : Nat) (g : MoldLabGame) (d : Driver) (m : Int)
    (hr : g.simulationSettings.sdf_reduction ≠ 0)
    (hm : divInt g.simulationSettings.grid_size g.simulationSettings.sdf_reduction = m)
    (h30 : m ≤ 1073741824) (hfuel : 30 ≤ fuel)
    (hinit : (g.toGameEngine.DispatchComputeShader d g.jumpFloodInitShaderProgram m m m).error?
      = none)
    (hstep : (g.toGameEngine.DispatchComputeShader d g.jumpFloodStepShaderProgram m m m).error?
      = none) :
    ∃ s, (g.executeJFA fuel d).result = .ok s ∧
      s.iterations = ((max 1 (Nat.clog 2 m.toNat) : Nat) : Int) ∧
      dispatchCount (g.executeJFA fuel d).calls = 1 + max 1 (Nat.clog 2 m.toNat) := by
  rw [Run.error?_eq_none_iff_unit] at hinit hstep
  have hJ := (firstExponent_spec h30).1
  have heq := executeJFA_eq fuel g d m hr hm hinit hstep h30 (by omega)
  refine ⟨g.jfaFinal m, by rw [heq], ?_, ?_⟩
  · rw [← firstExponent_succ]
    rfl
  · rw [heq, ← firstExponent_succ]
    exact (jfaCalls_observed g d m hinit hstep).1

/-- C3 (witness): grid size 200 with reduction factor 2, reduced size 100. -/
theorem executeJFA_step_count_witness :
    (sampleGame 200 2 false).simulationSettings.sdf_reduction ≠ 0 ∧
    divInt (sampleGame 200 2 false).simulationSettings.grid_size
      (sampleGame 200 2 false).simulationSettings.sdf_reduction = 100 ∧
    ((sampleGame 200 2 false).toGameEngine.DispatchComputeShader sampleDriver
      (sampleGame 200 2 false).jumpFloodInitShaderProgram 100 100 100).error? = none ∧
    ((sampleGame 200 2 false).toGameEngine.DispatchComputeShader sampleDriver
      (sampleGame 200 2 false).jumpFloodStepShaderProgram 100 100 100).error? = none ∧
    ∃ s, ((sampleGame 200 2 false).executeJFA 32 sampleDriver).result = .ok s ∧
      s.iterations = ((max 1 (Nat.clog 2 (100 : Int).toNat) : Nat) : Int) ∧
      dispatchCount ((sampleGame 200 2 false).executeJFA 32 sampleDriver).calls =
        1 + max 1 (Nat.clog 2 (100 : Int).toNat) :=
  ⟨by decide, by decide, by decide, by decide,
    executeJFA_step_count 32 (sampleGame 200 2 false) sampleDriver 100
      (by decide) (by decide) (by decide) (by decide) (by decide) (by decide)⟩

/-- C3 (counterexample): with grid size 2 and reduction factor 2 the reduced size is 1;
the step loop runs one iteration (two glDispatchCompute calls with the init pass),
whereas ⌈log2 1⌉ = 0. -/
theorem executeJFA_step_count_at_one :
    ((sampleGame 2 2 false).executeJFA 32 sampleDriver).value?.map JfaLocals.iterations
      = some 1 ∧
    dispatchCount ((sampleGame 2 2 false).executeJFA 32 sampleDriver).calls = 2 ∧
    Nat.clog 2 (divInt 2 2).toNat = 0 :=
  ⟨by decide, by decide, Nat.clog_one_right 2⟩

/-- C4 (amended): for a reduced grid size `m` with `2 ≤ m ≤ 2^30`, in a run of
`executeJFA` whose dispatches do not throw and whose `stepSize` uniform has a valid
location, the first value uploaded with glUniform1i is a power of two strictly below `m`,
and no power of two strictly below `m` is larger. -/
theorem executeJFA_first_step_size (fuel : Nat) (g : MoldLabGame) (d : Driver) (m : Int)
    (hr : g.simulationSettings.sdf_reduction ≠ 0)
    (hm : divInt g.simulationSettings.grid_size g.simulationSettings.sdf_reduction = m)
    (h2 : 2 ≤ m) (h30 : m ≤ 1073741824) (hfuel : 30 ≤ fuel)
    (hloc : g.jfaStepSV.location ≠ -1)
    (hinit : (g.toGameEngine.DispatchComputeShader d g.jumpFloodInitShaderProgram m m m).error?
      = none)
    (hstep : (g.toGameEngine.DispatchComputeShader d g.jumpFloodStepShaderProgram m m m).error?
      = none) :
    ∃ j : Nat, (uploadedStepSizes (g.executeJFA fuel d).calls).head? = some (2 ^ j) ∧
      (2 : Int) ^ j < m ∧ ∀ k : Nat, (2 : Int) ^ k < m → (2 : Int) ^ k ≤ 2 ^ j := by
  rw [Run.error?_eq_none_iff_unit] at hinit hstep
  obtain ⟨hJ, hle, hlt⟩ := firstExponent_spec h30
  have heq := executeJFA_eq fuel g d m hr hm hinit hstep h30 (by omega)
  refine ⟨firstExponent m, ?_, ?_, ?_⟩
  · rw [heq, (jfaCalls_observed g d m hinit hstep).2.2.2.1, if_neg hloc, halvings_head?]
  · by_cases h0 : firstExponent m = 0
    · rw [h0]; norm_num; omega
    · have := hlt (firstExponent m - 1) (by omega)
      rwa [Nat.sub_add_cancel (by omega)] at this
  · intro k hk
    have hklt : (2 : Int) ^ k < 2 ^ (firstExponent m + 1) := lt_of_lt_of_le hk hle
    have hk1 : k < firstExponent m + 1 := (pow_lt_pow_iff_right₀ (by norm_num)).1 hklt
    exact pow_le_pow_right₀ (by norm_num) (by omega)

/-- C4 (witness): grid size 200 with reduction factor 2; the first step size uploaded is 64. -/
theorem executeJFA_first_step_size_witness :
    (sampleGame 200 2 false).simulationSettings.sdf_reduction ≠ 0 ∧
    divInt (sampleGame 200 2 false).simulationSettings.grid_size
      (sampleGame 200 2 false).simulationSettings.sdf_reduction = 100 ∧
    (sampleGame 200 2 false).jfaStepSV.location ≠ -1 ∧
    ((sampleGame 200 2 false).toGameEngine.DispatchComputeShader sampleDriver
      (sampleGame 200 2 false).jumpFloodInitShaderProgram 100 100 100).error? = none ∧
    ((sampleGame 200 2 false).toGameEngine.DispatchComputeShader sampleDriver
      (sampleGame 200 2 false).jumpFloodStepShaderProgram 100 100 100).error? = none ∧
    (uploadedStepSizes ((sampleGame 200 2 false).executeJFA 32 sampleDriver).calls).head?
      = some 64 ∧
    ∃ j : Nat,
      (uploadedStepSizes ((sampleGame 200 2 false).executeJFA 32 sampleDriver).calls).head?
        = some (2 ^ j) ∧
      (2 : Int) ^ j < 100 ∧ ∀ k : Nat, (2 : Int) ^ k < 100 → (2 : Int) ^ k ≤ 2 ^ j :=
  ⟨by decide, by decide, by decide, by decide, by decide, by decide,
    executeJFA_first_step_size 32 (sampleGame 200 2 false) sampleDriver 100
      (by decide) (by decide) (by decide) (by decide) (by decide) (by decide) (by decide)
      (by decide)⟩

/-- C4 (counterexample): with grid size 2 and reduction factor 2 the reduced size is 1 and
the first step size uploaded is 1, which is not strictly less than 1. -/
theorem executeJFA_first_step_size_at_one :
    (uploadedStepSizes ((sampleGame 2 2 false).executeJFA 32 sampleDriver).calls).head?
      = some 1 ∧
    ¬ ((1 : Int) < divInt (sampleGame 2 2 false).simulationSettings.grid_size
      (sampleGame 2 2 false).simulationSettings.sdf_reduction) :=
  ⟨by decide, by decide⟩

/-- C5 (amended): when the reduced grid size `grid_size / sdf_reduction` is 1 and the
dispatches do not throw, the step loop of `executeJFA` runs exactly one iteration (step
size 1) and the texture left bound for reading is `sdfTexBuffer2`, the one that step wrote;
when the reduced size is below 1 the init dispatch throws "Dispatch item must be above 0"
and no glDispatchCompute is issued at all. -/
theorem executeJFA_reduced_size_le_one (fuel : Nat) (g : MoldLabGame) (d : Driver)
    (hr : g.simulationSettings.sdf_reduction ≠ 0) (hfuel : 1 ≤ fuel) :
    (divInt g.simulationSettings.grid_size g.simulationSettings.sdf_reduction = 1 →
      (g.toGameEngine.DispatchComputeShader d g.jumpFloodInitShaderProgram 1 1 1).error? = none →
      (g.toGameEngine.DispatchComputeShader d g.jumpFloodStepShaderProgram 1 1 1).error? = none →
      ∃ s, (g.executeJFA fuel d).result = .ok s ∧ s.iterations = 1 ∧
        s.readTexture = g.sdfTexBuffer2 ∧
        uploadedStepSizes (g.executeJFA fuel d).calls =
          (if g.jfaStepSV.location = -1 then [] else [1]) ∧
        dispatchCount (g.executeJFA fuel d).calls = 2 ∧
        (g.executeJFA fuel d).calls.getLast? =
          some (.bindImageTexture SDF_TEXTURE_READ_LOCATION g.sdfTexBuffer2 .readOnly)) ∧
    (divInt g.simulationSettings.grid_size g.simulationSettings.sdf_reduction < 1 →
      (g.executeJFA fuel d).error? = some .dispatchItemBelowOne ∧
      dispatchCount (g.executeJFA fuel d).calls = 0) := by
  constructor
  · intro hm hinit hstep
    rw [Run.error?_eq_none_iff_unit] at hinit hstep
    have hJ : firstExponent 1 = 0 := by
      unfold firstExponent
      rw [show (1 : Int).toNat = 1 from rfl, Nat.clog_one_right]
    have heq := executeJFA_eq fuel g d 1 hr hm hinit hstep (by norm_num) (by omega)
    obtain ⟨o1, _, _, o4, o5⟩ := jfaCalls_observed g d 1 hinit hstep
    refine ⟨g.jfaFinal 1, by rw [heq], ?_, ?_, ?_, ?_, ?_⟩
    · simp [MoldLabGame.jfaFinal, hJ]
    · simp [MoldLabGame.jfaFinal, hJ]
    · rw [heq, o4, hJ]; rfl
    · rw [heq, o1, hJ]
    · rw [heq, o5, hJ]; rfl
  · intro hm
    unfold MoldLabGame.executeJFA GameEngine.DispatchComputeShader
    simp [Run.bind_eq, Run.andThen, Run.emit, Run.fail, Run.error?, hr, hm, dispatchCount,
      isDispatch]

/-- C5 (witness): grid size 2 with reduction factor 2, reduced size 1. -/
theorem executeJFA_reduced_size_le_one_witness :
    (sampleGame 2 2 false).simulationSettings.sdf_reduction ≠ 0 ∧ 1 ≤ 32 ∧
    divInt (sampleGame 2 2 false).simulationSettings.grid_size
      (sampleGame 2 2 false).simulationSettings.sdf_reduction = 1 ∧
    ((sampleGame 2 2 false).toGameEngine.DispatchComputeShader sampleDriver
      (sampleGame 2 2 false).jumpFloodInitShaderProgram 1 1 1).error? = none ∧
    ((sampleGame 2 2 false).toGameEngine.DispatchComputeShader sampleDriver
      (sampleGame 2 2 false).jumpFloodStepShaderProgram 1 1 1).error? = none ∧
    ∃ s, ((sampleGame 2 2 false).executeJFA 32 sampleDriver).result = .ok s ∧ s.iterations = 1 ∧
      s.readTexture = (sampleGame 2 2 false).sdfTexBuffer2 ∧
      uploadedStepSizes ((sampleGame 2 2 false).executeJFA 32 sampleDriver).calls =
        (if (sampleGame 2 2 false).jfaStepSV.location = -1 then [] else [1]) ∧
      dispatchCount ((sampleGame 2 2 false).executeJFA 32 sampleDriver).calls = 2 ∧
      ((sampleGame 2 2 false).executeJFA 32 sampleDriver).calls.getLast? =
        some (.bindImageTexture SDF_TEXTURE_READ_LOCATION (sampleGame 2 2 false).sdfTexBuffer2
          .readOnly) :=
  ⟨by decide, by decide, by decide, by decide, by decide,
    (executeJFA_reduced_size_le_one 32 (sampleGame 2 2 false) sampleDriver
      (by decide) (by decide)).1 (by decide) (by decide) (by decide)⟩

/-- C5 (counterexample): with grid size 2 and reduction factor 2 the reduced size is 1,
yet the step loop runs one iteration and the texture left bound for reading is
`sdfTexBuffer2`, not the `sdfTexBuffer1` that the init pass wrote. -/
theorem executeJFA_reduced_size_one_runs_a_step :
    divInt (sampleGame 2 2 false).simulationSettings.grid_size
      (sampleGame 2 2 false).simulationSettings.sdf_reduction ≤ 1 ∧
    ((sampleGame 2 2 false).executeJFA 32 sampleDriver).value?.map JfaLocals.iterations
      = some 1 ∧
    ((sampleGame 2 2 false).executeJFA 32 sampleDriver).calls.getLast? =
      some (.bindImageTexture SDF_TEXTURE_READ_LOCATION (sampleGame 2 2 false).sdfTexBuffer2
        .readOnly) ∧
    (sampleGame 2 2 false).sdfTexBuffer2 ≠ (sampleGame 2 2 false).sdfTexBuffer1 :=
  ⟨by decide, by decide, by decide, by decide⟩

theorem executeJFA_returns_eq (fuel : Nat) (g : MoldLabGame) (d : Driver) (s : JfaLocals)
    (h : (g.executeJFA fuel d).result = .ok s) :
    ∃ m : Int,
      (g.toGameEngine.DispatchComputeShader d g.jumpFloodInitShaderProgram m m m).result
        = .ok () ∧
      (g.toGameEngine.DispatchComputeShader d g.jumpFloodStepShaderProgram m m m).result
        = .ok () ∧
      s = g.jfaFinal m ∧ (g.executeJFA fuel d).calls = g.jfaCalls d m := by
  obtain ⟨hr, hinit, hstep, h30, hfuel⟩ := executeJFA_inv fuel g d s h
  have heq := executeJFA_eq fuel g d _ hr rfl hinit hstep h30 hfuel
  refine ⟨_, hinit, hstep, ?_, by rw [heq]⟩
  rw [heq] at h
  exact (Except.ok.inj h).symm

theorem bindings_dispatch (e : GameEngine) (d : Driver) (p : Nat) (x y z : Int) :
    readBindings (e.DispatchComputeShader d p x y z).calls = [] ∧
    writeBindings (e.DispatchComputeShader d p x y z).calls = [] := by
  unfold GameEngine.DispatchComputeShader readBindings writeBindings
  simp only [Run.bind_eq]
  split_ifs <;> simp [Run.andThen, Run.emit, Run.fail, readBinding?, writeBinding?]

theorem bindings_upload (sv : ShaderVariable) :
    readBindings sv.uploadToShader.calls = [] ∧ writeBindings sv.uploadToShader.calls = [] := by
  unfold ShaderVariable.uploadToShader readBindings writeBindings
  split_ifs <;> simp [Run.ret, Run.emit, readBinding?, writeBinding?]

theorem jfaStepBody_bindings (g : MoldLabGame) (d : Driver) (n : Int) (s : JfaLocals) :
    readBindings (g.jfaStepBody d n s).calls = [s.readTexture] ∧
    writeBindings (g.jfaStepBody d n s).calls = [s.writeTexture] ∧
    ∀ s1, (g.jfaStepBody d n s).result = .ok s1 →
      s1.readTexture = s.writeTexture ∧ s1.writeTexture = s.readTexture := by
  have hb := bindings_dispatch g.toGameEngine d g.jumpFloodStepShaderProgram n n n
  have hu := bindings_upload { location := g.jfaStepSV.location, value := s.stepSize }
  have hur := uploadToShader_result { location := g.jfaStepSV.location, value := s.stepSize }
  unfold readBindings writeBindings at *
  unfold MoldLabGame.jfaStepBody
  simp only [Run.bind_eq, Run.pure_eq]
  cases hD : (g.toGameEngine.DispatchComputeShader d g.jumpFloodStepShaderProgram n n n).result with
  | error e =>
    simp [Run.andThen, Run.emit, Run.ret, hD, hur, hb, hu, readBinding?, writeBinding?,
      SDF_TEXTURE_READ_LOCATION, SDF_TEXTURE_WRITE_LOCATION]
  | ok u =>
    simp [Run.andThen, Run.emit, Run.ret, hD, hur, hb, hu, readBinding?, writeBinding?,
      SDF_TEXTURE_READ_LOCATION, SDF_TEXTURE_WRITE_LOCATION]

theorem jfaStepLoop_bindings (g : MoldLabGame) (d : Driver) (n : Int) :
    ∀ (fuel : Nat) (s : JfaLocals), ∃ k : Nat,
      readBindings (g.jfaStepLoop d n fuel s).calls = alternate s.readTexture s.writeTexture k ∧
      writeBindings (g.jfaStepLoop d n fuel s).calls = alternate s.writeTexture s.readTexture k ∧
      ∀ s1, (g.jfaStepLoop d n fuel s).result = .ok s1 →
        s1.readTexture = (if k % 2 = 0 then s.readTexture else s.writeTexture) := by
  have hdone : ∀ s : JfaLocals,
      readBindings (Run.ret s).calls = alternate s.readTexture s.writeTexture 0 ∧
      writeBindings (Run.ret s).calls = alternate s.writeTexture s.readTexture 0 ∧
      ∀ s1, (Run.ret s).result = .ok s1 →
        s1.readTexture = (if 0 % 2 = 0 then s.readTexture else s.writeTexture) := by
    intro s
    refine ⟨rfl, rfl, ?_⟩
    intro s1 hs1
    rw [← Except.ok.inj hs1]
    rfl
  intro fuel
  induction fuel with
  | zero =>
    intro s
    unfold MoldLabGame.jfaStepLoop
    by_cases hs : s.stepSize ≥ 1
    · rw [if_pos hs]
      refine ⟨0, rfl, rfl, ?_⟩
      intro s1 hs1
      cases hs1
    · rw [if_neg hs]
      exact ⟨0, hdone s⟩
  | succ f ih =>
    intro s
    unfold MoldLabGame.jfaStepLoop
    by_cases hs : s.stepSize ≥ 1
    · rw [if_pos hs]
      obtain ⟨b1, b2, b3⟩ := jfaStepBody_bindings g d n s
      rw [Run.bind_eq]
      unfold Run.andThen
      cases hb : (g.jfaStepBody d n s).result with
      | error e =>
        refine ⟨1, ?_⟩
        simp [b1, b2, alternate]
      | ok s1 =>
        obtain ⟨hr1, hw1⟩ := b3 s1 hb
        obtain ⟨k, i1, i2, i3⟩ := ih s1
        refine ⟨k + 1, ?_⟩
        unfold readBindings writeBindings at *
        simp only [List.filterMap_append, b1, b2, i1, i2, hr1, hw1]
        refine ⟨by simp [alternate], by simp [alternate], ?_⟩
        intro s2 hs2
        rw [i3 s2 hs2, hr1, hw1]
        have hpar : (k + 1) % 2 = 0 ↔ ¬ (k % 2 = 0) := by omega
        by_cases hp : k % 2 = 0 <;> simp [hp, hpar]
    · rw [if_neg hs]
      exact ⟨0, hdone s⟩

theorem executeJFA_bindings (fuel : Nat) (g : MoldLabGame) (d : Driver) :
    ∃ k : Nat,
      writeBindings (g.executeJFA fuel d).calls = alternate g.sdfTexBuffer2 g.sdfTexBuffer1 k ∧
      (readBindings (g.executeJFA fuel d).calls = alternate g.sdfTexBuffer1 g.sdfTexBuffer2 k ∨
       readBindings (g.executeJFA fuel d).calls =
        alternate g.sdfTexBuffer1 g.sdfTexBuffer2 (k + 1)) := by
  have hi := bindings_dispatch g.toGameEngine d g.jumpFloodInitShaderProgram
    (divInt g.simulationSettings.grid_size g.simulationSettings.sdf_reduction)
    (divInt g.simulationSettings.grid_size g.simulationSettings.sdf_reduction)
    (divInt g.simulationSettings.grid_size g.simulationSettings.sdf_reduction)
  unfold MoldLabGame.executeJFA
  simp only [Run.bind_eq, Run.pure_eq]
  by_cases hr : g.simulationSettings.sdf_reduction = 0
  · refine ⟨0, ?_⟩
    simp [hr, Run.andThen, Run.emit, Run.fail, readBindings, writeBindings, readBinding?,
      writeBinding?, alternate, SDF_TEXTURE_READ_LOCATION, SDF_TEXTURE_WRITE_LOCATION]
  · rw [if_neg hr]
    cases hinit : (g.toGameEngine.DispatchComputeShader d g.jumpFloodInitShaderProgram
        (divInt g.simulationSettings.grid_size g.simulationSettings.sdf_reduction)
        (divInt g.simulationSettings.grid_size g.simulationSettings.sdf_reduction)
        (divInt g.simulationSettings.grid_size g.simulationSettings.sdf_reduction)).result with
    | error e =>
      refine ⟨0, ?_⟩
      unfold readBindings writeBindings at *
      simp [Run.andThen, Run.emit, hinit, hi, readBinding?, writeBinding?, alternate,
        SDF_TEXTURE_READ_LOCATION, SDF_TEXTURE_WRITE_LOCATION]
    | ok u =>
      cases hdl : doublingLoop fuel 1
          (divInt g.simulationSettings.grid_size g.simulationSettings.sdf_reduction) with
      | none =>
        refine ⟨0, ?_⟩
        unfold readBindings writeBindings at *
        simp [Run.andThen, Run.emit, Run.fail, hinit, hi, readBinding?, writeBinding?,
          alternate, SDF_TEXTURE_READ_LOCATION, SDF_TEXTURE_WRITE_LOCATION]
      | some stepSize =>
        obtain ⟨k, l1, l2, l3⟩ := jfaStepLoop_bindings g d
          (divInt g.simulationSettings.grid_size g.simulationSettings.sdf_reduction) fuel
          { stepSize := stepSize, iterations := 0, readTexture := g.sdfTexBuffer1,
            writeTexture := g.sdfTexBuffer2, jfaStep := g.jfaStepSV.value }
        refine ⟨k, ?_⟩
        cases hloop : (g.jfaStepLoop d
            (divInt g.simulationSettings.grid_size g.simulationSettings.sdf_reduction) fuel
            { stepSize := stepSize, iterations := 0, readTexture := g.sdfTexBuffer1,
              writeTexture := g.sdfTexBuffer2, jfaStep := g.jfaStepSV.value }).result with
        | error e =>
          unfold readBindings writeBindings at *
          simp [Run.andThen, Run.emit, hinit, hi, hloop, l1, l2, readBinding?, writeBinding?,
            SDF_TEXTURE_READ_LOCATION, SDF_TEXTURE_WRITE_LOCATION]
        | ok s1 =>
          have hs1 := l3 s1 hloop
          have hsn := alternate_snoc g.sdfTexBuffer1 g.sdfTexBuffer2 k
          unfold readBindings writeBindings at *
          simp only at hs1
          simp [Run.andThen, Run.emit, Run.ret, hinit, hi, hloop, l1, l2, readBinding?,
            writeBinding?, SDF_TEXTURE_READ_LOCATION, SDF_TEXTURE_WRITE_LOCATION, hs1, hsn]

/-- C6: in every run of `executeJFA`, the `i`-th read-only binding of the SDF read unit
(the buffer current after `i` step iterations) is `sdfTexBuffer1` when `i` is even and
`sdfTexBuffer2` when `i` is odd. When the run returns after `k` iterations there are
`k + 1` such bindings, the buffer held as `readTexture` is `sdfTexBuffer1` for even `k`
and `sdfTexBuffer2` for odd `k`, and the last GL call binds it for reading. -/
theorem executeJFA_current_buffer_parity (fuel : Nat) (g : MoldLabGame) (d : Driver) :
    (∀ (i r : Nat), (readBindings (g.executeJFA fuel d).calls)[i]? = some r →
      r = (if i % 2 = 0 then g.sdfTexBuffer1 else g.sdfTexBuffer2)) ∧
    (∀ s, (g.executeJFA fuel d).result = .ok s →
      ∃ k : Nat, s.iterations = (k : Int) ∧
        (readBindings (g.executeJFA fuel d).calls).length = k + 1 ∧
        s.readTexture = (if k % 2 = 0 then g.sdfTexBuffer1 else g.sdfTexBuffer2) ∧
        (g.executeJFA fuel d).calls.getLast? =
          some (.bindImageTexture SDF_TEXTURE_READ_LOCATION s.readTexture .readOnly)) := by
  constructor
  · intro i r hr
    obtain ⟨k, _, hk | hk⟩ := executeJFA_bindings fuel g d
    · rw [hk] at hr
      have hi : i < k := by
        by_contra hc
        rw [List.getElem?_eq_none (by rw [alternate_length]; omega)] at hr
        cases hr
      rw [alternate_getElem? _ _ _ _ hi] at hr
      exact (Option.some.inj hr).symm
    · rw [hk] at hr
      have hi : i < k + 1 := by
        by_contra hc
        rw [List.getElem?_eq_none (by rw [alternate_length]; omega)] at hr
        cases hr
      rw [alternate_getElem? _ _ _ _ hi] at hr
      exact (Option.some.inj hr).symm
  · intro s h
    obtain ⟨m, hinit, hstep, hs, hcalls⟩ := executeJFA_returns_eq fuel g d s h
    obtain ⟨_, o2, _, _, o5⟩ := jfaCalls_observed g d m hinit hstep
    refine ⟨firstExponent m + 1, by rw [hs]; rfl, ?_, by rw [hs]; rfl, ?_⟩
    · rw [hcalls, o2, alternate_length]
    · rw [hcalls, o5, hs]
      rfl

/-- C6 (witness): grid size 200 with reduction factor 2; seven iterations, eight read
bindings, `sdfTexBuffer2` current at the end. -/
theorem executeJFA_current_buffer_parity_witness :
    ((sampleGame 200 2 false).executeJFA 32 sampleDriver).result =
      .ok { stepSize := 0, iterations := 7, readTexture := 4, writeTexture := 3, jfaStep := 1 } ∧
    readBindings ((sampleGame 200 2 false).executeJFA 32 sampleDriver).calls
      = [3, 4, 3, 4, 3, 4, 3, 4] ∧
    ∃ k : Nat, (7 : Int) = (k : Int) ∧
      (readBindings ((sampleGame 200 2 false).executeJFA 32 sampleDriver).calls).length
        = k + 1 ∧
      (4 : Nat) = (if k % 2 = 0 then (sampleGame 200 2 false).sdfTexBuffer1
        else (sampleGame 200 2 false).sdfTexBuffer2) ∧
      ((sampleGame 200 2 false).executeJFA 32 sampleDriver).calls.getLast? =
        some (.bindImageTexture SDF_TEXTURE_READ_LOCATION 4 .readOnly) :=
  ⟨rfl, by decide,
    (executeJFA_current_buffer_parity 32 (sampleGame 200 2 false) sampleDriver).2
      { stepSize := 0, iterations := 7, readTexture := 4, writeTexture := 3, jfaStep := 1 }
      rfl⟩

/-- C7: when `sdfTexBuffer1` and `sdfTexBuffer2` are distinct handles, in every run of
`executeJFA` the texture bound read-only and the texture bound write-only in the same step
iteration differ, and in the following iteration the read texture is the previous write
texture and the write texture is the previous read texture; a run that returns has exactly
one write binding per iteration. -/
theorem executeJFA_roles_exchanged (fuel : Nat) (g : MoldLabGame) (d : Driver)
    (hne : g.sdfTexBuffer1 ≠ g.sdfTexBuffer2) :
    (∀ (i r w : Nat), (readBindings (g.executeJFA fuel d).calls)[i]? = some r →
      (writeBindings (g.executeJFA fuel d).calls)[i]? = some w →
      r ≠ w ∧
      ∀ (r2 w2 : Nat), (readBindings (g.executeJFA fuel d).calls)[i + 1]? = some r2 →
        (writeBindings (g.executeJFA fuel d).calls)[i + 1]? = some w2 →
        r2 = w ∧ w2 = r) ∧
    (∀ s, (g.executeJFA fuel d).result = .ok s →
      ((writeBindings (g.executeJFA fuel d).calls).length : Int) = s.iterations) := by
  constructor
  · obtain ⟨k, hW, hR⟩ := executeJFA_bindings fuel g d
    have key : ∀ (i x : Nat), (readBindings (g.executeJFA fuel d).calls)[i]? = some x →
        i < k → x = (if i % 2 = 0 then g.sdfTexBuffer1 else g.sdfTexBuffer2) := by
      intro i x hx hi
      rcases hR with hR | hR
      · rw [hR, alternate_getElem? _ _ _ _ hi] at hx
        exact (Option.some.inj hx).symm
      · rw [hR, alternate_getElem? _ _ _ _ (by omega)] at hx
        exact (Option.some.inj hx).symm
    have keyW : ∀ (i x : Nat), (writeBindings (g.executeJFA fuel d).calls)[i]? = some x →
        i < k ∧ x = (if i % 2 = 0 then g.sdfTexBuffer2 else g.sdfTexBuffer1) := by
      intro i x hx
      rw [hW] at hx
      have hi : i < k := by
        by_contra hc
        rw [List.getElem?_eq_none (by rw [alternate_length]; omega)] at hx
        cases hx
      rw [alternate_getElem? _ _ _ _ hi] at hx
      exact ⟨hi, (Option.some.inj hx).symm⟩
    intro i r w hr hw
    obtain ⟨hi, hw1⟩ := keyW i w hw
    have hr1 := key i r hr hi
    constructor
    · rw [hr1, hw1]
      by_cases hp : i % 2 = 0
      · simp [hp, hne]
      · simp [hp, Ne.symm hne]
    · intro r2 w2 hr2 hw2
      obtain ⟨hi2, hw3⟩ := keyW (i + 1) w2 hw2
      have hr3 := key (i + 1) r2 hr2 hi2
      have hpar : (i + 1) % 2 = 0 ↔ ¬ (i % 2 = 0) := by omega
      rw [hr1, hw1, hr3, hw3]
      by_cases hp : i % 2 = 0 <;> simp [hp, hpar]
  · intro s h
    obtain ⟨m, hinit, hstep, hs, hcalls⟩ := executeJFA_returns_eq fuel g d s h
    obtain ⟨_, _, o3, _, _⟩ := jfaCalls_observed g d m hinit hstep
    rw [hcalls, o3, alternate_length, hs]
    rfl

/-- C7 (witness): grid size 200 with reduction factor 2 and the distinct handles 3 and 4;
seven iterations, the write bindings alternate 4, 3, 4, ... -/
theorem executeJFA_roles_exchanged_witness :
    (sampleGame 200 2 false).sdfTexBuffer1 ≠ (sampleGame 200 2 false).sdfTexBuffer2 ∧
    writeBindings ((sampleGame 200 2 false).executeJFA 32 sampleDriver).calls
      = [4, 3, 4, 3, 4, 3, 4] ∧
    ∀ (i r w : Nat),
      (readBindings ((sampleGame 200 2 false).executeJFA 32 sampleDriver).calls)[i]? = some r →
      (writeBindings ((sampleGame 200 2 false).executeJFA 32 sampleDriver).calls)[i]? = some w →
      r ≠ w ∧
      ∀ (r2 w2 : Nat),
        (readBindings ((sampleGame 200 2 false).executeJFA 32 sampleDriver).calls)[i + 1]?
          = some r2 →
        (writeBindings ((sampleGame 200 2 false).executeJFA 32 sampleDriver).calls)[i + 1]?
          = some w2 →
        r2 = w ∧ w2 = r :=
  ⟨by decide, by decide,
    (executeJFA_roles_exchanged 32 (sampleGame 200 2 false) sampleDriver (by decide)).1⟩

/-! ## Theorems: MoldLabGame::DispatchComputeShaders -/

theorem jfaStepLoop_update (g : MoldLabGame) (d : Driver) (n : Int) (b : Nat) (c : Bool) :
    ∀ (fuel : Nat) (s : JfaLocals),
      MoldLabGame.jfaStepLoop { g with simulationSettingsBuffer := b, gridSizeChanged := c }
        d n fuel s = g.jfaStepLoop d n fuel s := by
  intro fuel
  induction fuel with
  | zero => intro s; rfl
  | succ f ih =>
    intro s
    unfold MoldLabGame.jfaStepLoop
    split_ifs
    · have hb : MoldLabGame.jfaStepBody
          { g with simulationSettingsBuffer := b, gridSizeChanged := c } d n s
          = g.jfaStepBody d n s := rfl
      rw [Run.bind_eq, Run.bind_eq, hb]
      unfold Run.andThen
      cases (g.jfaStepBody d n s).result with
      | error e => rfl
      | ok s1 => simp only [ih]
    · rfl

theorem executeJFA_update (fuel : Nat) (g : MoldLabGame) (d : Driver) (b : Nat) (c : Bool) :
    MoldLabGame.executeJFA fuel { g with simulationSettingsBuffer := b, gridSizeChanged := c } d
      = g.executeJFA fuel d := by
  unfold MoldLabGame.executeJFA
  simp only [jfaStepLoop_update]

theorem uploadSettingsBuffer_result (d : Driver) (buffer : Nat) (settings : SimulationData) :
    (uploadSettingsBuffer d buffer settings).result =
      .ok (if buffer = 0 then d.genBuffer else buffer) := by
  unfold uploadSettingsBuffer
  split_ifs <;> simp [Run.bind_eq, Run.andThen, Run.emit, Run.ret, Run.pure_eq, *]

theorem uploadSettingsBuffer_calls (d : Driver) (buffer : Nat) (settings : SimulationData) :
    (uploadSettingsBuffer d buffer settings).calls =
      (if buffer = 0 then [.genBuffers d.genBuffer] else []) ++
      [.bindShaderStorageBuffer (if buffer = 0 then d.genBuffer else buffer),
       .bufferDataSettings settings,
       .bindBufferBase SIMULATION_BUFFER_LOCATION (if buffer = 0 then d.genBuffer else buffer),
       .bindShaderStorageBuffer 0] := by
  unfold uploadSettingsBuffer
  split_ifs <;> simp [Run.bind_eq, Run.andThen, Run.emit, Run.ret, Run.pure_eq, *]

theorem DispatchComputeShaders_steady_inv (fuel : Nat) (g : MoldLabGame) (d : Driver)
    (g1 : MoldLabGame) (hflag : g.gridSizeChanged = false)
    (h : (g.DispatchComputeShaders fuel d).result = .ok g1) :
    (g.toGameEngine.DispatchComputeShader d g.decaySporesShaderProgram
      g.simulationSettings.grid_size g.simulationSettings.grid_size
      g.simulationSettings.grid_size).result = .ok () ∧
    (g.toGameEngine.DispatchComputeShader d g.moveSporesShaderProgram
      g.simulationSettings.spore_count 1 1).result = .ok () ∧
    (g.toGameEngine.DispatchComputeShader d g.drawSporesShaderProgram
      g.simulationSettings.spore_count 1 1).result = .ok () ∧
    (∃ s, (g.executeJFA fuel d).result = .ok s ∧
      g1 = { g with
        simulationSettingsBuffer :=
          if g.simulationSettingsBuffer = 0 then d.genBuffer else g.simulationSettingsBuffer
        gridSizeChanged := false
        jfaStepSV := { g.jfaStepSV with value := s.jfaStep } }) ∧
    (g.DispatchComputeShaders fuel d).calls =
      (uploadSettingsBuffer d g.simulationSettingsBuffer g.simulationSettings).calls ++
      (g.toGameEngine.DispatchComputeShader d g.decaySporesShaderProgram
        g.simulationSettings.grid_size g.simulationSettings.grid_size
        g.simulationSettings.grid_size).calls ++
      (g.toGameEngine.DispatchComputeShader d g.moveSporesShaderProgram
        g.simulationSettings.spore_count 1 1).calls ++
      (g.toGameEngine.DispatchComputeShader d g.drawSporesShaderProgram
        g.simulationSettings.spore_count 1 1).calls ++
      (g.executeJFA fuel d).calls := by
  have hup := uploadSettingsBuffer_result d g.simulationSettingsBuffer g.simulationSettings
  revert h
  unfold MoldLabGame.DispatchComputeShaders
  simp only [Run.bind_eq, Run.pure_eq, hflag, executeJFA_update]
  cases h1 : (g.toGameEngine.DispatchComputeShader d g.decaySporesShaderProgram
      g.simulationSettings.grid_size g.simulationSettings.grid_size
      g.simulationSettings.grid_size).result with
  | error e => simp [Run.andThen, hup, h1]
  | ok u1 =>
    cases h2 : (g.toGameEngine.DispatchComputeShader d g.moveSporesShaderProgram
        g.simulationSettings.spore_count 1 1).result with
    | error e => simp [Run.andThen, hup, h1, h2]
    | ok u2 =>
      cases h3 : (g.toGameEngine.DispatchComputeShader d g.drawSporesShaderProgram
          g.simulationSettings.spore_count 1 1).result with
      | error e => simp [Run.andThen, hup, h1, h2, h3]
      | ok u3 =>
        cases h4 : (g.executeJFA fuel d).result with
        | error e => simp [Run.andThen, hup, h1, h2, h3, h4]
        | ok s =>
          simp [Run.andThen, Run.ret, hup, h1, h2, h3, h4]
          intro hg
          exact hg.symm

theorem DispatchComputeShaders_reset_inv (fuel : Nat) (g : MoldLabGame) (d : Driver)
    (g1 : MoldLabGame) (hflag : g.gridSizeChanged = true)
    (h : (g.DispatchComputeShaders fuel d).result = .ok g1) :
    (g.toGameEngine.DispatchComputeShader d g.clearGridShaderProgram
      g.simulationSettings.grid_size g.simulationSettings.grid_size
      g.simulationSettings.grid_size).result = .ok () ∧
    (g.toGameEngine.DispatchComputeShader d g.randomizeSporesShaderProgram
      g.simulationSettings.spore_count 1 1).result = .ok () ∧
    (∃ s, (g.executeJFA fuel d).result = .ok s ∧
      g1 = { g with
        simulationSettingsBuffer :=
          if g.simulationSettingsBuffer = 0 then d.genBuffer else g.simulationSettingsBuffer
        gridSizeChanged := false
        jfaStepSV := { g.jfaStepSV with value := s.jfaStep } }) ∧
    (g.DispatchComputeShaders fuel d).calls =
      (uploadSettingsBuffer d g.simulationSettingsBuffer g.simulationSettings).calls ++
      (g.toGameEngine.DispatchComputeShader d g.clearGridShaderProgram
        g.simulationSettings.grid_size g.simulationSettings.grid_size
        g.simulationSettings.grid_size).calls ++
      (g.toGameEngine.DispatchComputeShader d g.randomizeSporesShaderProgram
        g.simulationSettings.spore_count 1 1).calls ++
      (g.executeJFA fuel d).calls := by
  have hup := uploadSettingsBuffer_result d g.simulationSettingsBuffer g.simulationSettings
  revert h
  unfold MoldLabGame.DispatchComputeShaders MoldLabGame.resetSporesAndGrid MoldLabGame.clearGrid
  simp only [Run.bind_eq, Run.pure_eq, hflag, executeJFA_update]
  cases h1 : (g.toGameEngine.DispatchComputeShader d g.clearGridShaderProgram
      g.simulationSettings.grid_size g.simulationSettings.grid_size
      g.simulationSettings.grid_size).result with
  | error e => simp [Run.andThen, hup, h1]
  | ok u1 =>
    cases h2 : (g.toGameEngine.DispatchComputeShader d g.randomizeSporesShaderProgram
        g.simulationSettings.spore_count 1 1).result with
    | error e => simp [Run.andThen, hup, h1, h2]
    | ok u2 =>
      cases h4 : (g.executeJFA fuel d).result with
      | error e => simp [Run.andThen, hup, h1, h2, h4]
      | ok s =>
        simp [Run.andThen, Run.ret, hup, h1, h2, h4]
        intro hg
        exact hg.symm

theorem usedPrograms_dispatch (e : GameEngine) (d : Driver) (p : Nat) (x y z : Int)
    (h : (e.DispatchComputeShader d p x y z).result = .ok ()) :
    usedPrograms (e.DispatchComputeShader d p x y z).calls = [p] ∧
    dispatchCount (e.DispatchComputeShader d p x y z).calls = 1 := by
  rw [DispatchComputeShader_calls_of_ok e d p x y z h]
  simp [usedPrograms, usedProgram?, dispatchCount, isDispatch]

theorem usedPrograms_upload (d : Driver) (buffer : Nat) (settings : SimulationData) :
    usedPrograms (uploadSettingsBuffer d buffer settings).calls = [] ∧
    dispatchCount (uploadSettingsBuffer d buffer settings).calls = 0 := by
  rw [uploadSettingsBuffer_calls]
  split_ifs <;> simp [usedPrograms, usedProgram?, dispatchCount, isDispatch]

theorem usedPrograms_loopCalls (g : MoldLabGame) (d : Driver) (n : Int)
    (hD : (g.toGameEngine.DispatchComputeShader d g.jumpFloodStepShaderProgram n n n).result
      = .ok ()) :
    ∀ (j r w : Nat), usedPrograms (g.loopCalls d n j r w) =
      List.replicate (j + 1) g.jumpFloodStepShaderProgram := by
  have hstepCalls : ∀ (stepSize : Int) (r w : Nat),
      usedPrograms (g.stepCalls d n stepSize r w) = [g.jumpFloodStepShaderProgram] := by
    intro stepSize r w
    rw [stepCalls_eq g d n stepSize r w hD]
    unfold usedPrograms
    split_ifs <;> simp [usedProgram?]
  intro j
  induction j with
  | zero =>
    intro r w
    simpa [MoldLabGame.loopCalls] using hstepCalls 1 r w
  | succ j ih =>
    intro r w
    have h1 := hstepCalls (2 ^ (j + 1)) r w
    have h2 := ih w r
    unfold usedPrograms at *
    simp only [MoldLabGame.loopCalls, List.filterMap_append, h1, h2]
    rw [List.replicate_succ (n := j + 1)]
    rfl

theorem usedPrograms_jfaCalls (g : MoldLabGame) (d : Driver) (m : Int)
    (hinit : (g.toGameEngine.DispatchComputeShader d g.jumpFloodInitShaderProgram m m m).result
      = .ok ())
    (hstep : (g.toGameEngine.DispatchComputeShader d g.jumpFloodStepShaderProgram m m m).result
      = .ok ()) :
    usedPrograms (g.jfaCalls d m) =
      [g.jumpFloodInitShaderProgram, g.jumpFloodInitShaderProgram,
        g.jumpFloodStepShaderProgram] ++
      List.replicate (firstExponent m + 1) g.jumpFloodStepShaderProgram := by
  have h1 := usedPrograms_loopCalls g d m hstep (firstExponent m) g.sdfTexBuffer1 g.sdfTexBuffer2
  unfold MoldLabGame.jfaCalls
  rw [DispatchComputeShader_calls_of_ok _ _ _ _ _ _ hinit]
  unfold usedPrograms at *
  simp only [List.filterMap_append, h1]
  simp [usedProgram?]

theorem usedPrograms_executeJFA (fuel : Nat) (g : MoldLabGame) (d : Driver) (s : JfaLocals)
    (h : (g.executeJFA fuel d).result = .ok s) :
    ∃ k : Nat, s.iterations = (k : Int) ∧
      usedPrograms (g.executeJFA fuel d).calls =
        [g.jumpFloodInitShaderProgram, g.jumpFloodInitShaderProgram,
          g.jumpFloodStepShaderProgram] ++
        List.replicate k g.jumpFloodStepShaderProgram := by
  obtain ⟨m, hinit, hstep, hs, hcalls⟩ := executeJFA_returns_eq fuel g d s h
  exact ⟨firstExponent m + 1, by rw [hs]; rfl, by rw [hcalls, usedPrograms_jfaCalls g d m hinit hstep]⟩

theorem renderUI_idle (fa : FloatArith) (d : Driver) (g : MoldLabGame)
    (hr : g.simulationSettings.sdf_reduction ≠ 0) (hflag : g.gridSizeChanged = false) :
    g.renderUI fa d UIFrame.idle = ⟨[], .ok g⟩ := by
  unfold MoldLabGame.renderUI MoldLabGame.renderUIVariables MoldLabGame.renderUIControls
  simp only [UIFrame.idle, hr, sliderFloat, Run.bind_eq, Run.andThen, Run.ret, Run.pure_eq,
    Option.isSome, if_false, Bool.false_eq_true, List.append_nil]
  cases g
  simp_all

theorem DispatchComputeShaders_steady_programs (fuel : Nat) (g : MoldLabGame) (d : Driver)
    (g1 : MoldLabGame) (hflag : g.gridSizeChanged = false)
    (h : (g.DispatchComputeShaders fuel d).result = .ok g1) :
    ∃ k : Nat, usedPrograms (g.DispatchComputeShaders fuel d).calls =
      [g.decaySporesShaderProgram, g.moveSporesShaderProgram, g.drawSporesShaderProgram,
        g.jumpFloodInitShaderProgram, g.jumpFloodInitShaderProgram,
        g.jumpFloodStepShaderProgram] ++
      List.replicate k g.jumpFloodStepShaderProgram := by
  obtain ⟨h1, h2, h3, ⟨s, hs, _⟩, hcalls⟩ := DispatchComputeShaders_steady_inv fuel g d g1 hflag h
  obtain ⟨k, _, hk⟩ := usedPrograms_executeJFA fuel g d s hs
  refine ⟨k, ?_⟩
  have u0 := (usedPrograms_upload d g.simulationSettingsBuffer g.simulationSettings).1
  have u1 := (usedPrograms_dispatch _ _ _ _ _ _ h1).1
  have u2 := (usedPrograms_dispatch _ _ _ _ _ _ h2).1
  have u3 := (usedPrograms_dispatch _ _ _ _ _ _ h3).1
  rw [hcalls]
  unfold usedPrograms at *
  simp only [List.filterMap_append, u0, u1, u2, u3, hk]
  rfl

/-- C8: in a call of `MoldLabGame::DispatchComputeShaders` with `gridSizeChanged` false that
returns, the GL calls are, in this order: the settings upload, the calls of the decay
dispatch over (grid_size, grid_size, grid_size), of the move dispatch over
(spore_count, 1, 1) and of the draw dispatch over (spore_count, 1, 1) - three
glDispatchCompute calls in all - and then the calls of `executeJFA`; the programs bound
are decay, move, draw, then the JFA init and step programs, so no clear or randomize
dispatch is issued. -/
theorem DispatchComputeShaders_steady_order (fuel : Nat) (g : MoldLabGame) (d : Driver)
    (g1 : MoldLabGame) (hflag : g.gridSizeChanged = false)
    (hret : (g.DispatchComputeShaders fuel d).result = .ok g1) :
    (g.DispatchComputeShaders fuel d).calls =
      (uploadSettingsBuffer d g.simulationSettingsBuffer g.simulationSettings).calls ++
      (g.toGameEngine.DispatchComputeShader d g.decaySporesShaderProgram
        g.simulationSettings.grid_size g.simulationSettings.grid_size
        g.simulationSettings.grid_size).calls ++
      (g.toGameEngine.DispatchComputeShader d g.moveSporesShaderProgram
        g.simulationSettings.spore_count 1 1).calls ++
      (g.toGameEngine.DispatchComputeShader d g.drawSporesShaderProgram
        g.simulationSettings.spore_count 1 1).calls ++
      (g.executeJFA fuel d).calls ∧
    dispatchCount
      ((uploadSettingsBuffer d g.simulationSettingsBuffer g.simulationSettings).calls ++
      (g.toGameEngine.DispatchComputeShader d g.decaySporesShaderProgram
        g.simulationSettings.grid_size g.simulationSettings.grid_size
        g.simulationSettings.grid_size).calls ++
      (g.toGameEngine.DispatchComputeShader d g.moveSporesShaderProgram
        g.simulationSettings.spore_count 1 1).calls ++
      (g.toGameEngine.DispatchComputeShader d g.drawSporesShaderProgram
        g.simulationSettings.spore_count 1 1).calls) = 3 ∧
    ∃ k : Nat, usedPrograms (g.DispatchComputeShaders fuel d).calls =
      [g.decaySporesShaderProgram, g.moveSporesShaderProgram, g.drawSporesShaderProgram,
        g.jumpFloodInitShaderProgram, g.jumpFloodInitShaderProgram,
        g.jumpFloodStepShaderProgram] ++
      List.replicate k g.jumpFloodStepShaderProgram := by
  obtain ⟨h1, h2, h3, _, hcalls⟩ := DispatchComputeShaders_steady_inv fuel g d g1 hflag hret
  refine ⟨hcalls, ?_, DispatchComputeShaders_steady_programs fuel g d g1 hflag hret⟩
  have u0 := (usedPrograms_upload d g.simulationSettingsBuffer g.simulationSettings).2
  have u1 := (usedPrograms_dispatch _ _ _ _ _ _ h1).2
  have u2 := (usedPrograms_dispatch _ _ _ _ _ _ h2).2
  have u3 := (usedPrograms_dispatch _ _ _ _ _ _ h3).2
  unfold dispatchCount at *
  simp only [List.countP_append, u0, u1, u2, u3]

/-- C8 (witness): the sample game at grid size 400 with `gridSizeChanged` false. -/
theorem DispatchComputeShaders_steady_order_witness :
    (sampleGame 400 2 false).gridSizeChanged = false ∧
    ((sampleGame 400 2 false).DispatchComputeShaders 32 sampleDriver).result =
      .ok { sampleGame 400 2 false with
            simulationSettingsBuffer := 77, jfaStepSV := ⟨5, 1⟩ } ∧
    usedPrograms ((sampleGame 400 2 false).DispatchComputeShaders 32 sampleDriver).calls =
      [13, 12, 11, 14, 14, 15, 15, 15, 15, 15, 15, 15, 15, 15] ∧
    ∃ k : Nat,
      usedPrograms ((sampleGame 400 2 false).DispatchComputeShaders 32 sampleDriver).calls =
        [(sampleGame 400 2 false).decaySporesShaderProgram,
          (sampleGame 400 2 false).moveSporesShaderProgram,
          (sampleGame 400 2 false).drawSporesShaderProgram,
          (sampleGame 400 2 false).jumpFloodInitShaderProgram,
          (sampleGame 400 2 false).jumpFloodInitShaderProgram,
          (sampleGame 400 2 false).jumpFloodStepShaderProgram] ++
        List.replicate k (sampleGame 400 2 false).jumpFloodStepShaderProgram :=
  ⟨rfl, rfl, by decide,
    (DispatchComputeShaders_steady_order 32 (sampleGame 400 2 false) sampleDriver
      { sampleGame 400 2 false with simulationSettingsBuffer := 77, jfaStepSV := ⟨5, 1⟩ }
      rfl rfl).2.2⟩

/-- C9: in a call of `MoldLabGame::DispatchComputeShaders` with `gridSizeChanged` true that
returns, the GL calls are the settings upload, then the calls of the clear-grid dispatch
over (grid_size, grid_size, grid_size), then those of the randomize dispatch over
(spore_count, 1, 1) - two glDispatchCompute calls - and then the calls of `executeJFA`;
the programs bound are clear, randomize and the JFA programs, so no decay, move or draw
dispatch is issued. The object returned has `gridSizeChanged` false, a frame of
`renderUI` without any edit leaves it unchanged, and the next call that returns binds
decay, move, draw and then the JFA programs. -/
theorem DispatchComputeShaders_reset_pending (fa : FloatArith) (fuel : Nat) (g : MoldLabGame)
    (d : Driver) (g1 : MoldLabGame) (hflag : g.gridSizeChanged = true)
    (hret : (g.DispatchComputeShaders fuel d).result = .ok g1) :
    (g.DispatchComputeShaders fuel d).calls =
      (uploadSettingsBuffer d g.simulationSettingsBuffer g.simulationSettings).calls ++
      (g.toGameEngine.DispatchComputeShader d g.clearGridShaderProgram
        g.simulationSettings.grid_size g.simulationSettings.grid_size
        g.simulationSettings.grid_size).calls ++
      (g.toGameEngine.DispatchComputeShader d g.randomizeSporesShaderProgram
        g.simulationSettings.spore_count 1 1).calls ++
      (g.executeJFA fuel d).calls ∧
    dispatchCount
      ((uploadSettingsBuffer d g.simulationSettingsBuffer g.simulationSettings).calls ++
      (g.toGameEngine.DispatchComputeShader d g.clearGridShaderProgram
        g.simulationSettings.grid_size g.simulationSettings.grid_size
        g.simulationSettings.grid_size).calls ++
      (g.toGameEngine.DispatchComputeShader d g.randomizeSporesShaderProgram
        g.simulationSettings.spore_count 1 1).calls) = 2 ∧
    (∃ k : Nat, usedPrograms (g.DispatchComputeShaders fuel d).calls =
      [g.clearGridShaderProgram, g.randomizeSporesShaderProgram,
        g.jumpFloodInitShaderProgram, g.jumpFloodInitShaderProgram,
        g.jumpFloodStepShaderProgram] ++
      List.replicate k g.jumpFloodStepShaderProgram) ∧
    g1.gridSizeChanged = false ∧
    g1.renderUI fa d UIFrame.idle = ⟨[], .ok g1⟩ ∧
    ∀ g2, (g1.DispatchComputeShaders fuel d).result = .ok g2 →
      ∃ k : Nat, usedPrograms (g1.DispatchComputeShaders fuel d).calls =
        [g.decaySporesShaderProgram, g.moveSporesShaderProgram, g.drawSporesShaderProgram,
          g.jumpFloodInitShaderProgram, g.jumpFloodInitShaderProgram,
          g.jumpFloodStepShaderProgram] ++
        List.replicate k g.jumpFloodStepShaderProgram := by
  obtain ⟨h1, h2, ⟨s, hs, hg1⟩, hcalls⟩ := DispatchComputeShaders_reset_inv fuel g d g1 hflag hret
  have hr := (executeJFA_inv fuel g d s hs).1
  have u0 := usedPrograms_upload d g.simulationSettingsBuffer g.simulationSettings
  have u1 := usedPrograms_dispatch _ _ _ _ _ _ h1
  have u2 := usedPrograms_dispatch _ _ _ _ _ _ h2
  obtain ⟨k, _, hk⟩ := usedPrograms_executeJFA fuel g d s hs
  have hf1 : g1.gridSizeChanged = false := by rw [hg1]
  have hr1 : g1.simulationSettings.sdf_reduction ≠ 0 := by rw [hg1]; exact hr
  refine ⟨hcalls, ?_, ⟨k, ?_⟩, hf1, renderUI_idle fa d g1 hr1 hf1, ?_⟩
  · unfold dispatchCount at *
    simp only [List.countP_append, u0.2, u1.2, u2.2]
  · rw [hcalls]
    unfold usedPrograms at *
    simp only [List.filterMap_append, u0.1, u1.1, u2.1, hk]
    rfl
  · intro g2 hg2
    have := DispatchComputeShaders_steady_programs fuel g1 d g2 hf1 hg2
    rw [hg1] at this ⊢
    exact this

/-- C9 (witness): the sample game at grid size 400 with `gridSizeChanged` true. -/
theorem DispatchComputeShaders_reset_pending_witness :
    (sampleGame 400 2 true).gridSizeChanged = true ∧
    ((sampleGame 400 2 true).DispatchComputeShaders 32 sampleDriver).result =
      .ok { sampleGame 400 2 false with
            simulationSettingsBuffer := 77, jfaStepSV := ⟨5, 1⟩ } ∧
    usedPrograms ((sampleGame 400 2 true).DispatchComputeShaders 32 sampleDriver).calls =
      [16, 17, 14, 14, 15, 15, 15, 15, 15, 15, 15, 15, 15] ∧
    ({ sampleGame 400 2 false with
        simulationSettingsBuffer := 77, jfaStepSV := ⟨5, 1⟩ } : MoldLabGame).gridSizeChanged
      = false :=
  ⟨rfl, rfl, by decide,
    (DispatchComputeShaders_reset_pending sampleFloatArith 32
      (sampleGame 400 2 true) sampleDriver
      { sampleGame 400 2 false with simulationSettingsBuffer := 77, jfaStepSV := ⟨5, 1⟩ }
      rfl rfl).2.2.2.1⟩

/-! ## Theorems: MoldLabGame::renderUI -/

theorem coerce_grid_size {v r : Int} (hv1 : 1 ≤ v) (hvmax : v ≤ INT_MAX) (hr : 1 ≤ r) :
    mulInt (divInt v r) r = r * (v / r) := by
  unfold INT_MAX at hvmax
  have hq0 : 0 ≤ v / r := Int.ediv_nonneg (by omega) (by omega)
  have hq1 : v / r ≤ v := Int.ediv_le_self _ (by omega)
  have hmul : r * (v / r) ≤ v := Int.mul_ediv_self_le (by omega)
  have hmul0 : 0 ≤ r * (v / r) := Int.mul_nonneg (by omega) hq0
  unfold mulInt divInt
  rw [Int.tdiv_eq_ediv (by omega) (by omega),
    wrapInt_of_inRange (x := v / r) (by unfold INT_MIN; omega) (by unfold INT_MAX; omega),
    mul_comm]
  exact wrapInt_of_inRange (by unfold INT_MIN; omega) (by unfold INT_MAX; omega)

theorem renderUIVariables_grid_size (fa : FloatArith) (ui : UIFrame) (g : MoldLabGame) (v : Int)
    (hs : ui.gridSizeSlider = some v) (hr : g.simulationSettings.sdf_reduction ≠ 0) :
    ∃ g1, g.renderUIVariables fa ui = .ok g1 ∧
      g1.simulationSettings.grid_size =
        mulInt (divInt v g.simulationSettings.sdf_reduction) g.simulationSettings.sdf_reduction ∧
      g1.gridSizeChanged = true := by
  unfold MoldLabGame.renderUIVariables
  cases hsc : ui.sporeCountSlider <;>
    simp only [hs, hr, Option.isSome, if_true, if_false] <;>
    split_ifs <;> exact ⟨_, rfl, rfl, rfl⟩

theorem renderUIControls_settings (d : Driver) (ui : UIFrame) (g g2 : MoldLabGame)
    (h : (g.renderUIControls d ui).result = .ok g2) :
    g2.simulationSettings = g.simulationSettings ∧ g2.gridSizeChanged = g.gridSizeChanged := by
  revert h
  unfold MoldLabGame.renderUIControls
  simp only [Run.bind_eq, Run.pure_eq]
  generalize (if ui.randomizePressed = true then g.resetSporesAndGrid d else Run.ret ()) = rb
  cases hb : rb.result with
  | error e => simp [Run.andThen, hb]
  | ok u =>
    simp only [Run.andThen, hb, Run.ret]
    intro h
    have := (Except.ok.inj h).symm
    subst this
    cases ui.transparencyClicked <;> cases ui.wrapGridClicked <;> split_ifs <;> exact ⟨rfl, rfl⟩

theorem renderUIControls_returns (d : Driver) (ui : UIFrame) (g : MoldLabGame)
    (h : ui.randomizePressed = false) : ∃ g2, (g.renderUIControls d ui).result = .ok g2 := by
  unfold MoldLabGame.renderUIControls
  simp [Run.bind_eq, Run.pure_eq, Run.andThen, Run.ret, h]

/-- C10: when the "Grid Size" slider delivers a value `v` with `1 ≤ v ≤ INT_MAX` and the
reduction factor `r` is at least 1, the grid size stored by `renderUI` is
`G = r * ⌊v / r⌋`: a multiple of `r` with `G ≤ v < G + r`, and the only such multiple.
It is stored by the slider block whatever else happens in the frame, it is the grid
size of the object every returning run of `renderUI` yields, and `renderUI` returns
whenever the Randomize button is not pressed. -/
theorem renderUI_grid_size_coerced (fa : FloatArith) (d : Driver) (ui : UIFrame)
    (g : MoldLabGame) (v : Int) (hs : ui.gridSizeSlider = some v)
    (hv1 : 1 ≤ v) (hvmax : v ≤ INT_MAX) (hr : 1 ≤ g.simulationSettings.sdf_reduction) :
    ∃ G : Int, G = g.simulationSettings.sdf_reduction * (v / g.simulationSettings.sdf_reduction) ∧
      g.simulationSettings.sdf_reduction ∣ G ∧ G ≤ v ∧
      v < G + g.simulationSettings.sdf_reduction ∧
      (∀ x : Int, g.simulationSettings.sdf_reduction ∣ x → x ≤ v →
        v < x + g.simulationSettings.sdf_reduction → x = G) ∧
      (∃ g1, g.renderUIVariables fa ui = .ok g1 ∧ g1.simulationSettings.grid_size = G) ∧
      (∀ g2, (g.renderUI fa d ui).result = .ok g2 → g2.simulationSettings.grid_size = G) ∧
      (ui.randomizePressed = false → ∃ g2, (g.renderUI fa d ui).result = .ok g2) := by
  have hr0 : g.simulationSettings.sdf_reduction ≠ 0 := by omega
  have hpos : 0 < g.simulationSettings.sdf_reduction := by omega
  obtain ⟨g1, hg1, hsize, _⟩ := renderUIVariables_grid_size fa ui g v hs hr0
  rw [coerce_grid_size hv1 hvmax hr] at hsize
  have hle : g.simulationSettings.sdf_reduction * (v / g.simulationSettings.sdf_reduction) ≤ v :=
    Int.mul_ediv_self_le hr0
  have hlt : v < g.simulationSettings.sdf_reduction * (v / g.simulationSettings.sdf_reduction)
      + g.simulationSettings.sdf_reduction := Int.lt_mul_ediv_self_add hpos
  refine ⟨_, rfl, Dvd.intro _ rfl, hle, hlt, ?_, ⟨g1, hg1, hsize⟩, ?_, ?_⟩
  · rintro x ⟨q, rfl⟩ hx1 hx2
    have h1 : q ≤ v / g.simulationSettings.sdf_reduction :=
      Int.le_ediv_of_mul_le hpos (by rw [mul_comm]; exact hx1)
    have h2 : v / g.simulationSettings.sdf_reduction < q + 1 :=
      Int.ediv_lt_of_lt_mul hpos (by rw [add_mul, one_mul, mul_comm]; exact hx2)
    have : q = v / g.simulationSettings.sdf_reduction := by omega
    rw [this]
  · intro g2 hg2
    unfold MoldLabGame.renderUI at hg2
    rw [hg1] at hg2
    rw [(renderUIControls_settings d ui g1 g2 hg2).1, hsize]
  · intro hbtn
    unfold MoldLabGame.renderUI
    rw [hg1]
    exact renderUIControls_returns d ui g1 hbtn

/-- C10 (witness): the slider delivers 401 with reduction factor 2; the grid size stored is 400. -/
theorem renderUI_grid_size_coerced_witness :
    ({ UIFrame.idle with gridSizeSlider := some 401 } : UIFrame).gridSizeSlider = some 401 ∧
    (1 : Int) ≤ 401 ∧ (401 : Int) ≤ INT_MAX ∧
    1 ≤ (sampleGame 400 2 false).simulationSettings.sdf_reduction ∧
    (((sampleGame 400 2 false).renderUI sampleFloatArith sampleDriver
      { UIFrame.idle with gridSizeSlider := some 401 }).value?.map
        (SimulationData.grid_size ∘ MoldLabGame.simulationSettings)) = some 400 ∧
    ∃ G : Int, G = (sampleGame 400 2 false).simulationSettings.sdf_reduction *
        (401 / (sampleGame 400 2 false).simulationSettings.sdf_reduction) ∧
      (sampleGame 400 2 false).simulationSettings.sdf_reduction ∣ G ∧ G ≤ 401 ∧
      401 < G + (sampleGame 400 2 false).simulationSettings.sdf_reduction := by
  obtain ⟨G, h1, h2, h3, h4, _⟩ :=
    renderUI_grid_size_coerced sampleFloatArith sampleDriver
      { UIFrame.idle with gridSizeSlider := some 401 } (sampleGame 400 2 false) 401
      rfl (by decide) (by decide) (by decide)
  exact ⟨rfl, by decide, by decide, by decide, by decide, G, h1, h2, h3, h4⟩

/-! ## Theorems: the first step size of executeJFA and the halving of step sizes -/

theorem halvings_length (j : Nat) : (halvings j).length = j + 1 := by
  induction j with
  | zero => rfl
  | succ j ih => simp [halvings, ih]

theorem halvings_getElem? (j i : Nat) (h : i ≤ j) : (halvings j)[i]? = some (2 ^ (j - i)) := by
  induction j generalizing i with
  | zero =>
    have : i = 0 := by omega
    subst this
    rfl
  | succ j ih =>
    cases i with
    | zero => simp [halvings]
    | succ i =>
      simp only [halvings, List.getElem?_cons_succ]
      rw [ih i (by omega)]
      congr 2
      omega

/-- C19 (amended): for a reduced grid size `m = grid_size / sdf_reduction` with `m ≤ 2^30`,
in a run of `executeJFA` whose dispatches do not throw and whose `stepSize` uniform has a
valid location, the first value uploaded with glUniform1i is the smallest power of two
`s` with `m ≤ s * 2`: the doubling stops at the first `s` for which `s * 2 < m` fails. -/
theorem executeJFA_first_step_size_doubled (fuel : Nat) (g : MoldLabGame) (d : Driver) (m : Int)
    (hr : g.simulationSettings.sdf_reduction ≠ 0)
    (hm : divInt g.simulationSettings.grid_size g.simulationSettings.sdf_reduction = m)
    (h30 : m ≤ 1073741824) (hfuel : 30 ≤ fuel)
    (hloc : g.jfaStepSV.location ≠ -1)
    (hinit : (g.toGameEngine.DispatchComputeShader d g.jumpFloodInitShaderProgram m m m).error?
      = none)
    (hstep : (g.toGameEngine.DispatchComputeShader d g.jumpFloodStepShaderProgram m m m).error?
      = none) :
    ∃ j : Nat, (uploadedStepSizes (g.executeJFA fuel d).calls).head? = some (2 ^ j) ∧
      m ≤ (2 : Int) ^ j * 2 ∧ ¬ ((2 : Int) ^ j * 2 < m) ∧
      ∀ k : Nat, m ≤ (2 : Int) ^ k * 2 → (2 : Int) ^ j ≤ 2 ^ k := by
  rw [Run.error?_eq_none_iff_unit] at hinit hstep
  obtain ⟨hJ, hle, hlt⟩ := firstExponent_spec h30
  have heq := executeJFA_eq fuel g d m hr hm hinit hstep h30 (by omega)
  have hle2 : m ≤ (2 : Int) ^ firstExponent m * 2 := by rw [← pow_succ]; exact hle
  refine ⟨firstExponent m, ?_, hle2, by omega, ?_⟩
  · rw [heq, (jfaCalls_observed g d m hinit hstep).2.2.2.1, if_neg hloc, halvings_head?]
  · intro k hk
    apply pow_le_pow_right₀ (by norm_num)
    by_contra hc
    have hkJ : k < firstExponent m := by omega
    have := hlt k hkJ
    rw [pow_succ] at this
    omega

/-- C19 (witness): grid size 200 with reduction factor 2; the first step size uploaded
is 64, and 64 * 2 = 128 is not below 100. -/
theorem executeJFA_first_step_size_doubled_witness :
    (sampleGame 200 2 false).simulationSettings.sdf_reduction ≠ 0 ∧
    divInt (sampleGame 200 2 false).simulationSettings.grid_size
      (sampleGame 200 2 false).simulationSettings.sdf_reduction = 100 ∧
    (sampleGame 200 2 false).jfaStepSV.location ≠ -1 ∧
    ((sampleGame 200 2 false).toGameEngine.DispatchComputeShader sampleDriver
      (sampleGame 200 2 false).jumpFloodInitShaderProgram 100 100 100).error? = none ∧
    ((sampleGame 200 2 false).toGameEngine.DispatchComputeShader sampleDriver
      (sampleGame 200 2 false).jumpFloodStepShaderProgram 100 100 100).error? = none ∧
    ∃ j : Nat,
      (uploadedStepSizes ((sampleGame 200 2 false).executeJFA 32 sampleDriver).calls).head?
        = some (2 ^ j) ∧
      (100 : Int) ≤ (2 : Int) ^ j * 2 ∧ ¬ ((2 : Int) ^ j * 2 < 100) ∧
      ∀ k : Nat, (100 : Int) ≤ (2 : Int) ^ k * 2 → (2 : Int) ^ j ≤ 2 ^ k :=
  ⟨by decide, by decide, by decide, by decide, by decide,
    executeJFA_first_step_size_doubled 32 (sampleGame 200 2 false) sampleDriver 100
      (by decide) (by decide) (by decide) (by decide) (by decide) (by decide) (by decide)⟩

/-- C19 (counterexample): with grid size 200 and reduction factor 2 the reduced size is 100
and the first step size uploaded is 64, for which 64 * 2 < 100 fails; the largest power of
two `s` with `s * 2 < 100` is 32. -/
theorem executeJFA_first_step_size_not_below_half :
    divInt (sampleGame 200 2 false).simulationSettings.grid_size
      (sampleGame 200 2 false).simulationSettings.sdf_reduction = 100 ∧
    (uploadedStepSizes ((sampleGame 200 2 false).executeJFA 32 sampleDriver).calls).head?
      = some 64 ∧
    ¬ ((64 : Int) * 2 < 100) ∧ (32 : Int) * 2 < 100 :=
  ⟨by decide, by decide, by decide, by decide⟩

theorem executeJFA_returns_bounded (fuel : Nat) (g : MoldLabGame) (d : Driver) (s : JfaLocals)
    (h : (g.executeJFA fuel d).result = .ok s) :
    ∃ m : Int, m ≤ 1073741824 ∧
      (g.toGameEngine.DispatchComputeShader d g.jumpFloodInitShaderProgram m m m).result
        = .ok () ∧
      (g.toGameEngine.DispatchComputeShader d g.jumpFloodStepShaderProgram m m m).result
        = .ok () ∧
      s = g.jfaFinal m ∧ (g.executeJFA fuel d).calls = g.jfaCalls d m := by
  obtain ⟨hr, hinit, hstep, h30, hfuel⟩ := executeJFA_inv fuel g d s h
  have heq := executeJFA_eq fuel g d _ hr rfl hinit hstep h30 hfuel
  refine ⟨_, h30, hinit, hstep, ?_, by rw [heq]⟩
  rw [heq] at h
  exact (Except.ok.inj h).symm

theorem executeJFA_returns_step_sizes (fuel : Nat) (g : MoldLabGame) (d : Driver) (s : JfaLocals)
    (hloc : g.jfaStepSV.location ≠ -1)
    (h : (g.executeJFA fuel d).result = .ok s) :
    ∃ j : Nat, s.iterations = ((j + 1 : Nat) : Int) ∧
      (uploadedStepSizes (g.executeJFA fuel d).calls).length = j + 1 ∧
      (∀ i, i ≤ j →
        (uploadedStepSizes (g.executeJFA fuel d).calls)[i]? = some ((2 : Int) ^ (j - i))) ∧
      (∀ (i : Nat) (a b : Int),
        (uploadedStepSizes (g.executeJFA fuel d).calls)[i]? = some a →
        (uploadedStepSizes (g.executeJFA fuel d).calls)[i + 1]? = some b →
        a = 2 * b ∧ b = divInt a 2) ∧
      (uploadedStepSizes (g.executeJFA fuel d).calls).getLast? = some 1 := by
  obtain ⟨m, h30, hinit, hstep, hs, hcalls⟩ := executeJFA_returns_bounded fuel g d s h
  have hJ30 := (firstExponent_spec h30).1
  have hup := (jfaCalls_observed g d m hinit hstep).2.2.2.1
  rw [if_neg hloc] at hup
  rw [hcalls, hup]
  refine ⟨firstExponent m, by rw [hs]; rfl, halvings_length _, ?_, ?_, ?_⟩
  · intro i hi
    exact halvings_getElem? _ _ hi
  · intro i a b ha hb
    have hi : i + 1 ≤ firstExponent m := by
      by_contra hc
      rw [List.getElem?_eq_none (by rw [halvings_length]; omega)] at hb
      cases hb
    rw [halvings_getElem? _ _ (by omega)] at ha
    rw [halvings_getElem? _ _ hi] at hb
    have ha1 := (Option.some.inj ha).symm
    have hb1 := (Option.some.inj hb).symm
    have hexp : firstExponent m - i = (firstExponent m - (i + 1)) + 1 := by omega
    have hJ : firstExponent m - (i + 1) + 1 ≤ 30 := by omega
    rw [ha1, hb1, hexp]
    refine ⟨by rw [pow_succ]; ring, (divInt_two_pow_succ hJ).symm⟩
  · rw [List.getLast?_eq_getElem?, halvings_length]
    simpa using halvings_getElem? (firstExponent m) (firstExponent m) (le_refl _)

theorem dispatchStepSizes_append (a b : List GLCall) : ∀ cur : Option Int,
    dispatchStepSizes cur (a ++ b) =
      dispatchStepSizes cur a ++ dispatchStepSizes (a.foldl stepSizeAfter cur) b := by
  induction a with
  | nil => intro cur; rfl
  | cons c rest ih =>
    intro cur
    show (if isDispatch c = true then [cur] else []) ++
        dispatchStepSizes (stepSizeAfter cur c) (rest ++ b) =
      ((if isDispatch c = true then [cur] else []) ++
        dispatchStepSizes (stepSizeAfter cur c) rest) ++
        dispatchStepSizes (List.foldl stepSizeAfter (stepSizeAfter cur c) rest) b
    rw [ih, List.append_assoc]

theorem stepCalls_dispatchStepSizes (g : MoldLabGame) (d : Driver) (n stepSize : Int) (r w : Nat)
    (hD : (g.toGameEngine.DispatchComputeShader d g.jumpFloodStepShaderProgram n n n).result
      = .ok ())
    (hloc : g.jfaStepSV.location ≠ -1) (cur : Option Int) :
    dispatchStepSizes cur (g.stepCalls d n stepSize r w) = [some stepSize] ∧
    (g.stepCalls d n stepSize r w).foldl stepSizeAfter cur = some stepSize := by
  rw [stepCalls_eq g d n stepSize r w hD, if_neg hloc]
  simp [dispatchStepSizes, stepSizeAfter, isDispatch]

theorem loopCalls_dispatchStepSizes (g : MoldLabGame) (d : Driver) (n : Int)
    (hD : (g.toGameEngine.DispatchComputeShader d g.jumpFloodStepShaderProgram n n n).result
      = .ok ())
    (hloc : g.jfaStepSV.location ≠ -1) :
    ∀ (j r w : Nat) (cur : Option Int),
      dispatchStepSizes cur (g.loopCalls d n j r w) = (halvings j).map some ∧
      (g.loopCalls d n j r w).foldl stepSizeAfter cur = some 1 := by
  intro j
  induction j with
  | zero =>
    intro r w cur
    have h := stepCalls_dispatchStepSizes g d n 1 r w hD hloc cur
    simpa [MoldLabGame.loopCalls, halvings] using h
  | succ j ih =>
    intro r w cur
    obtain ⟨h1, h2⟩ := stepCalls_dispatchStepSizes g d n (2 ^ (j + 1)) r w hD hloc cur
    obtain ⟨i1, i2⟩ := ih w r (some (2 ^ (j + 1)))
    simp only [MoldLabGame.loopCalls, dispatchStepSizes_append, List.foldl_append, h1, h2, i1, i2]
    simp [halvings]

theorem jfaCalls_dispatchStepSizes (g : MoldLabGame) (d : Driver) (m : Int)
    (hinit : (g.toGameEngine.DispatchComputeShader d g.jumpFloodInitShaderProgram m m m).result
      = .ok ())
    (hstep : (g.toGameEngine.DispatchComputeShader d g.jumpFloodStepShaderProgram m m m).result
      = .ok ())
    (hloc : g.jfaStepSV.location ≠ -1) :
    dispatchStepSizes none (g.jfaCalls d m) = none :: (halvings (firstExponent m)).map some := by
  unfold MoldLabGame.jfaCalls
  rw [DispatchComputeShader_calls_of_ok _ _ _ _ _ _ hinit]
  simp only [dispatchStepSizes_append, List.foldl_append]
  rw [(loopCalls_dispatchStepSizes g d m hstep hloc (firstExponent m) _ _ _).1]
  simp [dispatchStepSizes, stepSizeAfter, isDispatch]

theorem executeJFA_large (fuel : Nat) (g : MoldLabGame) (d : Driver) (m : Int)
    (hr : g.simulationSettings.sdf_reduction ≠ 0)
    (hm : divInt g.simulationSettings.grid_size g.simulationSettings.sdf_reduction = m)
    (hinit : (g.toGameEngine.DispatchComputeShader d g.jumpFloodInitShaderProgram m m m).result
      = .ok ())
    (hlarge : 1073741824 < m) :
    (g.executeJFA fuel d).error? = some .fuelExhausted ∧
    uploadedStepSizes (g.executeJFA fuel d).calls = [] ∧
    dispatchCount (g.executeJFA fuel d).calls = 1 := by
  have hc := DispatchComputeShader_calls_of_ok _ _ _ _ _ _ hinit
  unfold MoldLabGame.executeJFA
  simp only [Run.bind_eq, hm]
  rw [if_neg hr, doublingLoop_char, if_neg (by omega)]
  simp [Run.andThen, Run.emit, Run.fail, Run.error?, hinit, hc, uploadedStepSizes,
    uniformValue?, dispatchCount, isDispatch]

/-- C20 (amended): for a reduced grid size `m = grid_size / sdf_reduction` with `m ≤ 2^30`
whose init and step dispatches are accepted (so `1 ≤ m`), with a valid location of the
`stepSize` uniform and a budget of at least 30 iterations per loop, `executeJFA` returns
after `J + 1` step iterations, `J = max 1 ⌈log2 m⌉ - 1`. The values uploaded with
glUniform1i are `2^J, ..., 2, 1`; the dispatches of the run are the init dispatch, before
any upload, and one step dispatch per uploaded value, each running with the value
uploaded just before it. Every step size is a power of two, each is twice the next one
(which is its `int` half), and the last step dispatched runs with step size 1. -/
theorem executeJFA_step_sizes_halve (fuel : Nat) (g : MoldLabGame) (d : Driver) (m : Int)
    (hr : g.simulationSettings.sdf_reduction ≠ 0)
    (hm : divInt g.simulationSettings.grid_size g.simulationSettings.sdf_reduction = m)
    (h30 : m ≤ 1073741824) (hfuel : 30 ≤ fuel)
    (hinit : (g.toGameEngine.DispatchComputeShader d g.jumpFloodInitShaderProgram m m m).error?
      = none)
    (hstep : (g.toGameEngine.DispatchComputeShader d g.jumpFloodStepShaderProgram m m m).error?
      = none)
    (hloc : g.jfaStepSV.location ≠ -1) :
    1 ≤ m ∧
    ∃ s, (g.executeJFA fuel d).result = .ok s ∧
      s.iterations = ((firstExponent m + 1 : Nat) : Int) ∧
      firstExponent m + 1 = max 1 (Nat.clog 2 m.toNat) ∧
      uploadedStepSizes (g.executeJFA fuel d).calls = halvings (firstExponent m) ∧
      dispatchStepSizes none (g.executeJFA fuel d).calls =
        none :: (halvings (firstExponent m)).map some ∧
      (∀ i, i ≤ firstExponent m →
        (uploadedStepSizes (g.executeJFA fuel d).calls)[i]?
          = some ((2 : Int) ^ (firstExponent m - i))) ∧
      (∀ (i : Nat) (a b : Int),
        (uploadedStepSizes (g.executeJFA fuel d).calls)[i]? = some a →
        (uploadedStepSizes (g.executeJFA fuel d).calls)[i + 1]? = some b →
        a = 2 * b ∧ b = divInt a 2) ∧
      (uploadedStepSizes (g.executeJFA fuel d).calls).getLast? = some 1 ∧
      (dispatchStepSizes none (g.executeJFA fuel d).calls).getLast? = some (some 1) := by
  rw [Run.error?_eq_none_iff_unit] at hinit hstep
  have hJ30 := (firstExponent_spec h30).1
  have heq := executeJFA_eq fuel g d m hr hm hinit hstep h30 (by omega)
  have hup := (jfaCalls_observed g d m hinit hstep).2.2.2.1
  rw [if_neg hloc] at hup
  have hds := jfaCalls_dispatchStepSizes g d m hinit hstep hloc
  have hlast : (halvings (firstExponent m)).getLast? = some 1 := by
    rw [List.getLast?_eq_getElem?, halvings_length]
    simpa using halvings_getElem? (firstExponent m) (firstExponent m) (le_refl _)
  have h1 : 1 ≤ m := ((DispatchComputeShader_ok_iff _ _ _ _ _ _).1 hinit).1.1
  refine ⟨h1, g.jfaFinal m, by rw [heq], rfl, firstExponent_succ m, ?_, ?_, ?_, ?_, ?_, ?_⟩
  · rw [heq, hup]
  · rw [heq, hds]
  · intro i hi
    rw [heq, hup]
    exact halvings_getElem? _ _ hi
  · intro i a b ha hb
    rw [heq, hup] at ha hb
    have hi : i + 1 ≤ firstExponent m := by
      by_contra hc
      rw [List.getElem?_eq_none (by rw [halvings_length]; omega)] at hb
      cases hb
    rw [halvings_getElem? _ _ (by omega)] at ha
    rw [halvings_getElem? _ _ hi] at hb
    have ha1 := (Option.some.inj ha).symm
    have hb1 := (Option.some.inj hb).symm
    have hexp : firstExponent m - i = (firstExponent m - (i + 1)) + 1 := by omega
    have hJ : firstExponent m - (i + 1) + 1 ≤ 30 := by omega
    rw [ha1, hb1, hexp]
    refine ⟨by rw [pow_succ]; ring, (divInt_two_pow_succ hJ).symm⟩
  · rw [heq, hup]
    exact hlast
  · rw [heq, hds, List.getLast?_cons, List.getLast?_map, hlast]
    rfl

/-- C20 (witness): grid size 200 with reduction factor 2 (reduced size 100): the step
sizes uploaded are 64, 32, 16, 8, 4, 2, 1, one before each of the seven step dispatches. -/
theorem executeJFA_step_sizes_halve_witness :
    (sampleGame 200 2 false).simulationSettings.sdf_reduction ≠ 0 ∧
    divInt (sampleGame 200 2 false).simulationSettings.grid_size
      (sampleGame 200 2 false).simulationSettings.sdf_reduction = 100 ∧
    (100 : Int) ≤ 1073741824 ∧ 30 ≤ 32 ∧
    ((sampleGame 200 2 false).toGameEngine.DispatchComputeShader sampleDriver
      (sampleGame 200 2 false).jumpFloodInitShaderProgram 100 100 100).error? = none ∧
    ((sampleGame 200 2 false).toGameEngine.DispatchComputeShader sampleDriver
      (sampleGame 200 2 false).jumpFloodStepShaderProgram 100 100 100).error? = none ∧
    (sampleGame 200 2 false).jfaStepSV.location ≠ -1 ∧
    uploadedStepSizes ((sampleGame 200 2 false).executeJFA 32 sampleDriver).calls
      = [64, 32, 16, 8, 4, 2, 1] ∧
    dispatchStepSizes none ((sampleGame 200 2 false).executeJFA 32 sampleDriver).calls
      = [none, some 64, some 32, some 16, some 8, some 4, some 2, some 1] ∧
    ∃ s, ((sampleGame 200 2 false).executeJFA 32 sampleDriver).result = .ok s ∧
      s.iterations = ((firstExponent 100 + 1 : Nat) : Int) ∧
      firstExponent 100 + 1 = max 1 (Nat.clog 2 (100 : Int).toNat) ∧
      uploadedStepSizes ((sampleGame 200 2 false).executeJFA 32 sampleDriver).calls
        = halvings (firstExponent 100) ∧
      dispatchStepSizes none ((sampleGame 200 2 false).executeJFA 32 sampleDriver).calls =
        none :: (halvings (firstExponent 100)).map some :=
  ⟨by decide, by decide, by decide, by decide, by decide, by decide, by decide,
    by decide, by decide,
    (executeJFA_step_sizes_halve 32 (sampleGame 200 2 false) sampleDriver 100
      (by decide) (by decide) (by decide) (by decide) (by decide) (by decide)
      (by decide)).2.imp (fun _ hs => ⟨hs.1, hs.2.1, hs.2.2.1, hs.2.2.2.1, hs.2.2.2.2.1⟩)⟩

/-- C20 (counterexample): with grid size 0 and reduction factor 2 the reduced size is 0;
the init dispatch throws "Dispatch item must be above 0", nothing is uploaded and no step
is dispatched, so there is no last step of size 1. With reduced size 2^30 + 1 (and device
limits that accept the init dispatch) no iteration budget lets `executeJFA` finish: the
doubling loop does not stop, nothing is uploaded and no step is dispatched. -/
theorem executeJFA_no_step_outside_range :
    divInt (sampleGame 0 2 false).simulationSettings.grid_size
      (sampleGame 0 2 false).simulationSettings.sdf_reduction = 0 ∧
    ((sampleGame 0 2 false).executeJFA 32 sampleDriver).error? = some .dispatchItemBelowOne ∧
    uploadedStepSizes ((sampleGame 0 2 false).executeJFA 32 sampleDriver).calls = [] ∧
    dispatchStepSizes none ((sampleGame 0 2 false).executeJFA 32 sampleDriver).calls = [] ∧
    divInt sampleGameLarge.simulationSettings.grid_size
      sampleGameLarge.simulationSettings.sdf_reduction = 1073741825 ∧
    ∀ fuel : Nat,
      (sampleGameLarge.executeJFA fuel sampleDriver).error? = some .fuelExhausted ∧
      uploadedStepSizes (sampleGameLarge.executeJFA fuel sampleDriver).calls = [] ∧
      dispatchCount (sampleGameLarge.executeJFA fuel sampleDriver).calls = 1 :=
  ⟨by decide, by decide, by decide, by decide, by decide,
    fun fuel => executeJFA_large fuel sampleGameLarge sampleDriver 1073741825
      (by decide) (by decide) rfl (by decide)⟩

/-! ## Theorems: memory barriers and the settings upload of a tick -/

/-- C17: the decay dispatch of the sample game issues one glDispatchCompute immediately
followed by one glMemoryBarrier whose only bit is GL_SHADER_STORAGE_BARRIER_BIT; in a
tick, the barriers between the decay, move and draw dispatches carry that bit alone, so
no barrier with GL_SHADER_IMAGE_ACCESS_BARRIER_BIT separates the decay kernel's image
writes from the move kernel. -/
theorem DispatchComputeShader_barrier_storage_only :
    (sampleEngine.DispatchComputeShader sampleDriver 13 400 400 400).calls =
      [.useProgram 13, .dispatchCompute 50 50 50, .memoryBarrier .shaderStorage] ∧
    (sampleEngine.DispatchComputeShader sampleDriver 13 400 400 400).error? = none ∧
    GLCall.memoryBarrier .shaderImageAccess ∉
      (sampleEngine.DispatchComputeShader sampleDriver 13 400 400 400).calls ∧
    (((sampleGame 400 2 false).DispatchComputeShaders 32 sampleDriver).calls.drop 5).take 9 =
      [.useProgram 13, .dispatchCompute 50 50 50, .memoryBarrier .shaderStorage,
       .useProgram 12, .dispatchCompute 62500 1 1, .memoryBarrier .shaderStorage,
       .useProgram 11, .dispatchCompute 62500 1 1, .memoryBarrier .shaderStorage] := by
  refine ⟨by decide, by decide, by decide, by decide⟩

theorem Run.calls_andThen {α β : Type} (r : Run α) (f : α → Run β) :
    (r.andThen f).calls =
      r.calls ++ (match r.result with
        | .ok a => (f a).calls
        | .error _ => []) := by
  unfold Run.andThen
  cases r.result <;> simp

theorem Run.forall_calls_andThen {α β : Type} (P : GLCall → Prop) (r : Run α) (f : α → Run β)
    (hr : ∀ c ∈ r.calls, P c) (hf : ∀ a, ∀ c ∈ (f a).calls, P c) :
    ∀ c ∈ (r.andThen f).calls, P c := by
  intro c hc
  rw [Run.calls_andThen] at hc
  rcases List.mem_append.1 hc with h | h
  · exact hr c h
  · cases hres : r.result with
    | error e => rw [hres] at h; cases h
    | ok a => rw [hres] at h; exact hf a c h

theorem DispatchComputeShader_no_upload (e : GameEngine) (d : Driver) (p : Nat) (x y z : Int) :
    ∀ c ∈ (e.DispatchComputeShader d p x y z).calls, settingsUpload? c = none := by
  unfold GameEngine.DispatchComputeShader
  simp only [Run.bind_eq]
  split_ifs <;> simp [Run.andThen, Run.emit, Run.fail, settingsUpload?]

theorem jfaStepBody_no_upload (g : MoldLabGame) (d : Driver) (n : Int) (s : JfaLocals) :
    ∀ c ∈ (g.jfaStepBody d n s).calls, settingsUpload? c = none := by
  have hD := DispatchComputeShader_no_upload g.toGameEngine d g.jumpFloodStepShaderProgram n n n
  have hU : ∀ sv : ShaderVariable, ∀ c ∈ sv.uploadToShader.calls, settingsUpload? c = none := by
    intro sv
    unfold ShaderVariable.uploadToShader
    split_ifs <;> simp [Run.ret, Run.emit, settingsUpload?]
  unfold MoldLabGame.jfaStepBody
  simp only [Run.bind_eq, Run.pure_eq]
  refine Run.forall_calls_andThen _ _ _ (by simp [Run.emit, settingsUpload?]) (fun _ => ?_)
  refine Run.forall_calls_andThen _ _ _ (by simp [Run.emit, settingsUpload?]) (fun _ => ?_)
  refine Run.forall_calls_andThen _ _ _ (hU _) (fun _ => ?_)
  refine Run.forall_calls_andThen _ _ _ hD (fun _ => ?_)
  refine Run.forall_calls_andThen _ _ _ (by simp [Run.emit, settingsUpload?]) (fun _ => ?_)
  simp [Run.ret]

theorem jfaStepLoop_no_upload (g : MoldLabGame) (d : Driver) (n : Int) :
    ∀ (fuel : Nat) (s : JfaLocals),
      ∀ c ∈ (g.jfaStepLoop d n fuel s).calls, settingsUpload? c = none := by
  intro fuel
  induction fuel with
  | zero =>
    intro s
    unfold MoldLabGame.jfaStepLoop
    split_ifs <;> simp [Run.fail, Run.ret]
  | succ f ih =>
    intro s
    unfold MoldLabGame.jfaStepLoop
    split_ifs
    · rw [Run.bind_eq]
      exact Run.forall_calls_andThen _ _ _ (jfaStepBody_no_upload g d n s) (fun s1 => ih s1)
    · simp [Run.ret]

theorem executeJFA_no_upload (fuel : Nat) (g : MoldLabGame) (d : Driver) :
    ∀ c ∈ (g.executeJFA fuel d).calls, settingsUpload? c = none := by
  unfold MoldLabGame.executeJFA
  simp only [Run.bind_eq, Run.pure_eq]
  refine Run.forall_calls_andThen _ _ _ (by simp [Run.emit, settingsUpload?]) (fun _ => ?_)
  refine Run.forall_calls_andThen _ _ _ (by simp [Run.emit, settingsUpload?]) (fun _ => ?_)
  split_ifs
  · simp [Run.fail]
  · refine Run.forall_calls_andThen _ _ _ (DispatchComputeShader_no_upload _ _ _ _ _ _)
      (fun _ => ?_)
    refine Run.forall_calls_andThen _ _ _ (by simp [Run.emit, settingsUpload?]) (fun _ => ?_)
    refine Run.forall_calls_andThen _ _ _ (by simp [Run.emit, settingsUpload?]) (fun _ => ?_)
    cases doublingLoop fuel 1
        (divInt g.simulationSettings.grid_size g.simulationSettings.sdf_reduction) with
    | none => simp [Run.fail]
    | some stepSize =>
      simp only
      refine Run.forall_calls_andThen _ _ _ (jfaStepLoop_no_upload g d _ fuel _) (fun _ => ?_)
      refine Run.forall_calls_andThen _ _ _ (by simp [Run.emit, settingsUpload?]) (fun _ => ?_)
      simp [Run.ret]

theorem resetSporesAndGrid_no_upload (g : MoldLabGame) (d : Driver) :
    ∀ c ∈ (g.resetSporesAndGrid d).calls, settingsUpload? c = none := by
  unfold MoldLabGame.resetSporesAndGrid MoldLabGame.clearGrid
  simp only [Run.bind_eq]
  exact Run.forall_calls_andThen _ _ _ (DispatchComputeShader_no_upload _ _ _ _ _ _)
    (fun _ => DispatchComputeShader_no_upload _ _ _ _ _ _)

/-- C18: in every call of `MoldLabGame::DispatchComputeShaders`, whichever branch is taken
and whether or not a dispatch throws, the GL calls are those of `uploadSettingsBuffer`
followed by the rest; the upload part holds exactly one glBufferData of the whole
`SimulationData` struct, with the current settings, and no glDispatchCompute; the rest
holds no settings upload. So the settings are uploaded exactly once, before every
dispatch. -/
theorem DispatchComputeShaders_uploads_once (fuel : Nat) (g : MoldLabGame) (d : Driver) :
    settingsUploads (g.DispatchComputeShaders fuel d).calls = [g.simulationSettings] ∧
    ∃ rest : List GLCall,
      (g.DispatchComputeShaders fuel d).calls =
        (uploadSettingsBuffer d g.simulationSettingsBuffer g.simulationSettings).calls ++ rest ∧
      settingsUploads
        (uploadSettingsBuffer d g.simulationSettingsBuffer g.simulationSettings).calls
        = [g.simulationSettings] ∧
      dispatchCount
        (uploadSettingsBuffer d g.simulationSettingsBuffer g.simulationSettings).calls = 0 ∧
      settingsUploads rest = [] := by
  have hup := uploadSettingsBuffer_result d g.simulationSettingsBuffer g.simulationSettings
  have hupc : settingsUploads
      (uploadSettingsBuffer d g.simulationSettingsBuffer g.simulationSettings).calls
      = [g.simulationSettings] := by
    rw [uploadSettingsBuffer_calls]
    unfold settingsUploads
    split_ifs <;> simp [settingsUpload?]
  have hdc := (usedPrograms_upload d g.simulationSettingsBuffer g.simulationSettings).2
  have key : ∃ rest : List GLCall,
      (g.DispatchComputeShaders fuel d).calls =
        (uploadSettingsBuffer d g.simulationSettingsBuffer g.simulationSettings).calls ++ rest ∧
      ∀ c ∈ rest, settingsUpload? c = none := by
    unfold MoldLabGame.DispatchComputeShaders
    simp only [Run.bind_eq, Run.pure_eq]
    rw [Run.calls_andThen, hup]
    refine ⟨_, rfl, ?_⟩
    simp only
    refine Run.forall_calls_andThen _ _ _ ?_ (fun _ => ?_)
    · split_ifs <;> first
        | exact resetSporesAndGrid_no_upload _ d
        | exact Run.forall_calls_andThen _ _ _ (DispatchComputeShader_no_upload _ _ _ _ _ _)
            (fun _ => Run.forall_calls_andThen _ _ _
              (DispatchComputeShader_no_upload _ _ _ _ _ _)
              (fun _ => DispatchComputeShader_no_upload _ _ _ _ _ _))
    · refine Run.forall_calls_andThen _ _ _ (executeJFA_no_upload fuel _ d) (fun _ => ?_)
      simp [Run.ret]
  obtain ⟨rest, hcalls, hrest⟩ := key
  have hrest2 : settingsUploads rest = [] := by
    unfold settingsUploads
    rw [List.filterMap_eq_nil_iff]
    exact hrest
  refine ⟨?_, rest, hcalls, hupc, hdc, hrest2⟩
  rw [hcalls]
  unfold settingsUploads at *
  rw [List.filterMap_append, hupc, hrest2]
  rfl

/-! ## Theorems: edits of the grid size and the spore count through renderUI -/

theorem renderUIVariables_ints (fa : FloatArith) (ui : UIFrame) (g : MoldLabGame)
    (hr : g.simulationSettings.sdf_reduction ≠ 0) :
    ∃ g1, g.renderUIVariables fa ui = .ok g1 ∧
      g1.simulationSettings.sdf_reduction = g.simulationSettings.sdf_reduction ∧
      g1.simulationSettings.spore_count =
        ui.sporeCountSlider.getD g.simulationSettings.spore_count ∧
      g1.simulationSettings.grid_size =
        (match ui.gridSizeSlider with
          | some v =>
            mulInt (divInt v g.simulationSettings.sdf_reduction)
              g.simulationSettings.sdf_reduction
          | none => g.simulationSettings.grid_size) ∧
      g1.gridSizeChanged = ui.gridSizeSlider.isSome := by
  unfold MoldLabGame.renderUIVariables
  cases hsc : ui.sporeCountSlider <;> cases hgs : ui.gridSizeSlider <;>
    simp only [hr, Option.isSome, Bool.false_eq_true, if_true, if_false, Option.getD] <;>
    first
      | exact ⟨_, rfl, rfl, rfl, rfl, rfl⟩
      | (split_ifs <;> exact ⟨_, rfl, rfl, rfl, rfl, rfl⟩)

theorem renderUIVariables_of_zero (fa : FloatArith) (ui : UIFrame) (g : MoldLabGame)
    (hr : g.simulationSettings.sdf_reduction = 0) :
    g.renderUIVariables fa ui = .error .divisionByZero := by
  unfold MoldLabGame.renderUIVariables
  cases hsc : ui.sporeCountSlider <;> cases hgs : ui.gridSizeSlider <;> simp [hr]

theorem renderUI_returns_inv (fa : FloatArith) (d : Driver) (ui : UIFrame) (g g2 : MoldLabGame)
    (h : (g.renderUI fa d ui).result = .ok g2) :
    g.simulationSettings.sdf_reduction ≠ 0 ∧
    ∃ g1, g.renderUIVariables fa ui = .ok g1 ∧ (g1.renderUIControls d ui).result = .ok g2 := by
  by_cases hr : g.simulationSettings.sdf_reduction = 0
  · exfalso
    unfold MoldLabGame.renderUI at h
    rw [renderUIVariables_of_zero fa ui g hr] at h
    cases h
  · obtain ⟨g1, hg1, _⟩ := renderUIVariables_ints fa ui g hr
    refine ⟨hr, g1, hg1, ?_⟩
    unfold MoldLabGame.renderUI at h
    rw [hg1] at h
    exact h

theorem renderUIControls_kept (d : Driver) (ui : UIFrame) (g g2 : MoldLabGame)
    (h : (g.renderUIControls d ui).result = .ok g2) :
    g2.simulationSettings = g.simulationSettings ∧ g2.gridSizeChanged = g.gridSizeChanged ∧
    g2.orbitRadius = g.orbitRadius := by
  revert h
  unfold MoldLabGame.renderUIControls
  simp only [Run.bind_eq, Run.pure_eq]
  generalize (if ui.randomizePressed = true then g.resetSporesAndGrid d else Run.ret ()) = rb
  cases hb : rb.result with
  | error e => simp [Run.andThen, hb]
  | ok u =>
    simp only [Run.andThen, hb, Run.ret]
    intro h
    have := (Except.ok.inj h).symm
    subst this
    cases ui.transparencyClicked <;> cases ui.wrapGridClicked <;> split_ifs <;>
      exact ⟨rfl, rfl, rfl⟩

/-- C11: starting from grid size 400 with reduction factor 2, a slider value of 401 is
coerced to 400, the size already in effect, yet `renderUI` leaves `gridSizeChanged` true
(it is the return value of the slider), and the next `DispatchComputeShaders` binds the
clear-grid and randomize programs (16, 17) and none of decay, move, draw (13, 12, 11). -/
theorem renderUI_same_size_still_resets :
    ((sampleGame 400 2 false).renderUI sampleFloatArith sampleDriver
      { UIFrame.idle with gridSizeSlider := some 401 }).result = .ok (sampleGame 400 2 true) ∧
    (sampleGame 400 2 true).simulationSettings.grid_size = 400 ∧
    (sampleGame 400 2 true).gridSizeChanged = true ∧
    usedPrograms ((sampleGame 400 2 true).DispatchComputeShaders 32 sampleDriver).calls =
      [16, 17, 14, 14, 15, 15, 15, 15, 15, 15, 15, 15, 15] :=
  ⟨rfl, rfl, rfl, by decide⟩

/-- C12: when the "Grid Size" slider is moved and the coerced size differs from the
previous one, then with `gridResizeFactor` the single-precision quotient of the new size
by the previous size, `renderUI` stores `grid_resize_factor = gridResizeFactor`, the
single-precision products `spore_speed * gridResizeFactor` and
`sensor_distance * gridResizeFactor` (each then offered to its own slider, which keeps
the value unless moved in the same frame), and `orbitRadius * gridResizeFactor`; every
returning run of `renderUI` yields these values. -/
theorem renderUI_rescales_by_resize_factor (fa : FloatArith) (d : Driver) (ui : UIFrame)
    (g : MoldLabGame) (v : Int) (hs : ui.gridSizeSlider = some v)
    (hr : g.simulationSettings.sdf_reduction ≠ 0)
    (hne : g.simulationSettings.grid_size ≠
      mulInt (divInt v g.simulationSettings.sdf_reduction) g.simulationSettings.sdf_reduction) :
    ∃ g1, g.renderUIVariables fa ui = .ok g1 ∧
      g1.simulationSettings.grid_size =
        mulInt (divInt v g.simulationSettings.sdf_reduction)
          g.simulationSettings.sdf_reduction ∧
      g1.simulationSettings.grid_resize_factor =
        fa.div (fa.ofInt g1.simulationSettings.grid_size)
          (fa.ofInt g.simulationSettings.grid_size) ∧
      g1.simulationSettings.spore_speed =
        sliderFloat ui.sporeSpeedSlider
          (fa.mul g.simulationSettings.spore_speed g1.simulationSettings.grid_resize_factor) ∧
      g1.simulationSettings.sensor_distance =
        sliderFloat ui.sensorDistanceSlider
          (fa.mul g.simulationSettings.sensor_distance
            g1.simulationSettings.grid_resize_factor) ∧
      g1.orbitRadius = fa.mul g.orbitRadius g1.simulationSettings.grid_resize_factor ∧
      (ui.sporeSpeedSlider = none → g1.simulationSettings.spore_speed =
        fa.mul g.simulationSettings.spore_speed g1.simulationSettings.grid_resize_factor) ∧
      (ui.sensorDistanceSlider = none → g1.simulationSettings.sensor_distance =
        fa.mul g.simulationSettings.sensor_distance
          g1.simulationSettings.grid_resize_factor) ∧
      ∀ g2, (g.renderUI fa d ui).result = .ok g2 →
        g2.simulationSettings = g1.simulationSettings ∧ g2.orbitRadius = g1.orbitRadius := by
  have key : ∃ g1, g.renderUIVariables fa ui = .ok g1 ∧
      g1.simulationSettings.grid_size =
        mulInt (divInt v g.simulationSettings.sdf_reduction)
          g.simulationSettings.sdf_reduction ∧
      g1.simulationSettings.grid_resize_factor =
        fa.div (fa.ofInt g1.simulationSettings.grid_size)
          (fa.ofInt g.simulationSettings.grid_size) ∧
      g1.simulationSettings.spore_speed =
        sliderFloat ui.sporeSpeedSlider
          (fa.mul g.simulationSettings.spore_speed g1.simulationSettings.grid_resize_factor) ∧
      g1.simulationSettings.sensor_distance =
        sliderFloat ui.sensorDistanceSlider
          (fa.mul g.simulationSettings.sensor_distance
            g1.simulationSettings.grid_resize_factor) ∧
      g1.orbitRadius = fa.mul g.orbitRadius g1.simulationSettings.grid_resize_factor := by
    unfold MoldLabGame.renderUIVariables
    cases hsc : ui.sporeCountSlider <;>
      simp only [hs, hr, Option.isSome, if_true, if_false] <;>
      rw [if_pos hne] <;> exact ⟨_, rfl, rfl, rfl, rfl, rfl, rfl⟩
  obtain ⟨g1, h0, h1, h2, h3, h4, h5⟩ := key
  refine ⟨g1, h0, h1, h2, h3, h4, h5, ?_, ?_, ?_⟩
  · intro hn
    rw [h3, hn]
    rfl
  · intro hn
    rw [h4, hn]
    rfl
  · intro g2 hg2
    unfold MoldLabGame.renderUI at hg2
    rw [h0] at hg2
    obtain ⟨k1, _, k3⟩ := renderUIControls_kept d ui g1 g2 hg2
    exact ⟨k1, k3⟩

/-- C12 (witness): from grid size 400 with reduction factor 2 the slider delivers 301,
coerced to 300. -/
theorem renderUI_rescales_by_resize_factor_witness :
    ({ UIFrame.idle with gridSizeSlider := some 301 } : UIFrame).gridSizeSlider = some 301 ∧
    (sampleGame 400 2 false).simulationSettings.sdf_reduction ≠ 0 ∧
    (sampleGame 400 2 false).simulationSettings.grid_size ≠
      mulInt (divInt 301 (sampleGame 400 2 false).simulationSettings.sdf_reduction)
        (sampleGame 400 2 false).simulationSettings.sdf_reduction ∧
    ∃ g1, (sampleGame 400 2 false).renderUIVariables sampleFloatArith
        { UIFrame.idle with gridSizeSlider := some 301 } = .ok g1 ∧
      g1.simulationSettings.grid_size = 300 ∧
      g1.simulationSettings.grid_resize_factor =
        sampleFloatArith.div (sampleFloatArith.ofInt g1.simulationSettings.grid_size)
          (sampleFloatArith.ofInt (sampleGame 400 2 false).simulationSettings.grid_size) := by
  obtain ⟨g1, h0, h1, h2, _⟩ :=
    renderUI_rescales_by_resize_factor sampleFloatArith sampleDriver
      { UIFrame.idle with gridSizeSlider := some 301 } (sampleGame 400 2 false) 301
      rfl (by decide) (by decide)
  exact ⟨rfl, by decide, by decide, g1, h0, h1, h2⟩

/-- C13 (amended): when the "Spore Count" slider delivers a value `c` and the "Grid Size"
slider is not moved, every returning run of `renderUI` yields an object whose spore count
is `c` and whose `gridSizeChanged` is false, so RESET-PENDING is not entered: the next
returning `DispatchComputeShaders` issues the settings upload, the decay dispatch over
the grid, the move and draw dispatches over (`c`, 1, 1) and then `executeJFA`, binding
decay, move, draw and the JFA programs, with no clear or randomize dispatch. -/
theorem renderUI_spore_count_edit_stays_steady (fa : FloatArith) (fuel : Nat) (d : Driver)
    (ui : UIFrame) (g g1 : MoldLabGame) (c : Int)
    (hs : ui.sporeCountSlider = some c) (hg : ui.gridSizeSlider = none)
    (hret : (g.renderUI fa d ui).result = .ok g1) :
    g1.simulationSettings.spore_count = c ∧ g1.gridSizeChanged = false ∧
    g1.simulationSettings.grid_size = g.simulationSettings.grid_size ∧
    ∀ g2, (g1.DispatchComputeShaders fuel d).result = .ok g2 →
      (g1.DispatchComputeShaders fuel d).calls =
        (uploadSettingsBuffer d g1.simulationSettingsBuffer g1.simulationSettings).calls ++
        (g1.toGameEngine.DispatchComputeShader d g1.decaySporesShaderProgram
          g1.simulationSettings.grid_size g1.simulationSettings.grid_size
          g1.simulationSettings.grid_size).calls ++
        (g1.toGameEngine.DispatchComputeShader d g1.moveSporesShaderProgram c 1 1).calls ++
        (g1.toGameEngine.DispatchComputeShader d g1.drawSporesShaderProgram c 1 1).calls ++
        (g1.executeJFA fuel d).calls ∧
      ∃ k : Nat, usedPrograms (g1.DispatchComputeShaders fuel d).calls =
        [g1.decaySporesShaderProgram, g1.moveSporesShaderProgram, g1.drawSporesShaderProgram,
          g1.jumpFloodInitShaderProgram, g1.jumpFloodInitShaderProgram,
          g1.jumpFloodStepShaderProgram] ++
        List.replicate k g1.jumpFloodStepShaderProgram := by
  obtain ⟨hr, g0, hg0, hctl⟩ := renderUI_returns_inv fa d ui g g1 hret
  obtain ⟨g0', hg0', _, hcount, hsize, hflag⟩ := renderUIVariables_ints fa ui g hr
  rw [hg0] at hg0'
  have hgg : g0 = g0' := Except.ok.inj hg0'
  subst hgg
  obtain ⟨k1, k2, _⟩ := renderUIControls_kept d ui g0 g1 hctl
  rw [hs] at hcount
  rw [hg] at hsize hflag
  have hc1 : g1.simulationSettings.spore_count = c := by rw [k1, hcount]; rfl
  have hf1 : g1.gridSizeChanged = false := by rw [k2, hflag]; rfl
  refine ⟨hc1, hf1, by rw [k1, hsize], ?_⟩
  intro g2 hg2
  obtain ⟨_, _, _, _, hcalls⟩ := DispatchComputeShaders_steady_inv fuel g1 d g2 hf1 hg2
  rw [hc1] at hcalls
  exact ⟨hcalls, DispatchComputeShaders_steady_programs fuel g1 d g2 hf1 hg2⟩

/-- C13 (witness): the spore count of the sample game goes from 500000 to 600000. -/
theorem renderUI_spore_count_edit_stays_steady_witness :
    ({ UIFrame.idle with sporeCountSlider := some 600000 } : UIFrame).sporeCountSlider
      = some 600000 ∧
    ({ UIFrame.idle with sporeCountSlider := some 600000 } : UIFrame).gridSizeSlider = none ∧
    ((sampleGame 400 2 false).renderUI sampleFloatArith sampleDriver
      { UIFrame.idle with sporeCountSlider := some 600000 }).result
      = .ok (sampleGameWithSpores 600000) ∧
    (sampleGameWithSpores 600000).simulationSettings.spore_count = 600000 ∧
    (sampleGameWithSpores 600000).gridSizeChanged = false :=
  ⟨rfl, rfl, rfl,
    (renderUI_spore_count_edit_stays_steady sampleFloatArith 32 sampleDriver
      { UIFrame.idle with sporeCountSlider := some 600000 } (sampleGame 400 2 false)
      (sampleGameWithSpores 600000) 600000 rfl rfl rfl).1,
    (renderUI_spore_count_edit_stays_steady sampleFloatArith 32 sampleDriver
      { UIFrame.idle with sporeCountSlider := some 600000 } (sampleGame 400 2 false)
      (sampleGameWithSpores 600000) 600000 rfl rfl rfl).2.1⟩

/-- C13 (counterexample): after the spore count of the sample game is changed from 500000
to 600000 through `renderUI`, `gridSizeChanged` is false and the next
`DispatchComputeShaders` binds decay, move, draw (13, 12, 11), dispatching move over
600000 agents (75000 workgroups of 8), and neither clear-grid (16) nor randomize (17). -/
theorem renderUI_spore_count_edit_no_reset :
    (sampleGame 400 2 false).simulationSettings.spore_count = 500000 ∧
    ((sampleGame 400 2 false).renderUI sampleFloatArith sampleDriver
      { UIFrame.idle with sporeCountSlider := some 600000 }).result
      = .ok (sampleGameWithSpores 600000) ∧
    (sampleGameWithSpores 600000).gridSizeChanged = false ∧
    usedPrograms ((sampleGameWithSpores 600000).DispatchComputeShaders 32 sampleDriver).calls =
      [13, 12, 11, 14, 14, 15, 15, 15, 15, 15, 15, 15, 15, 15] ∧
    GLCall.dispatchCompute 75000 1 1 ∈
      ((sampleGameWithSpores 600000).DispatchComputeShaders 32 sampleDriver).calls :=
  ⟨rfl, rfl, rfl, by decide, by decide⟩

/-! ## Theorems: storage of the agent buffer and the distance-field textures -/

/-- C14: in the sample session the agent buffer is given 32 * 500000 bytes by
`initializeSimulationBuffers`; after the spore count is edited to 600000 the session still
returns, the object holds spore count 600000, the storage of the agent buffer (handle 2)
is still 32 * 500000 bytes, which is not 32 * 600000, and the next update dispatches the
move and draw kernels over 600000 agents (75000 workgroups of 8). -/
theorem spores_buffer_not_resized :
    (sampleSession { UIFrame.idle with sporeCountSlider := some 600000 }).error? = none ∧
    (sampleSession { UIFrame.idle with sporeCountSlider := some 600000 }).value?.map
      (SimulationData.spore_count ∘ MoldLabGame.simulationSettings) = some 600000 ∧
    (sampleSession { UIFrame.idle with sporeCountSlider := some 600000 }).value?.map
      MoldLabGame.sporesBuffer = some 2 ∧
    allocatedBuffer (sampleSession { UIFrame.idle with sporeCountSlider := some 600000 }).calls 2
      = some (.bytes (32 * 500000)) ∧
    (32 : Int) * 500000 ≠ 32 * 600000 ∧
    workGroupCount 600000 8 = 75000 ∧
    GLCall.dispatchCompute 75000 1 1 ∈
      (sampleSession { UIFrame.idle with sporeCountSlider := some 600000 }).calls := by
  refine ⟨by decide, by decide, by decide, by decide, by decide, by decide, by decide⟩

/-- C15: in the sample session both distance-field textures (handles 3 and 4) are given
storage of side 400 / 2 = 200 by `initializeSDFBuffer`; after the grid size is edited to
500 the session still returns, the object holds grid size 500, both textures still have
side 200 whereas the reduced size is 250, and the next update dispatches the JFA kernels
over (250, 250, 250) (32 workgroups of 8 per axis). -/
theorem sdf_textures_not_resized :
    (sampleSession { UIFrame.idle with gridSizeSlider := some 500 }).error? = none ∧
    (sampleSession { UIFrame.idle with gridSizeSlider := some 500 }).value?.map
      (SimulationData.grid_size ∘ MoldLabGame.simulationSettings) = some 500 ∧
    (sampleSession { UIFrame.idle with gridSizeSlider := some 500 }).value?.map
      MoldLabGame.sdfTexBuffer1 = some 3 ∧
    (sampleSession { UIFrame.idle with gridSizeSlider := some 500 }).value?.map
      MoldLabGame.sdfTexBuffer2 = some 4 ∧
    allocatedTexture (sampleSession { UIFrame.idle with gridSizeSlider := some 500 }).calls 3
      = some (200, 200, 200) ∧
    allocatedTexture (sampleSession { UIFrame.idle with gridSizeSlider := some 500 }).calls 4
      = some (200, 200, 200) ∧
    divInt 500 2 = 250 ∧
    workGroupCount 250 8 = 32 ∧
    GLCall.dispatchCompute 32 32 32 ∈
      (sampleSession { UIFrame.idle with gridSizeSlider := some 500 }).calls := by
  refine ⟨by decide, by decide, by decide, by decide, by decide, by decide, by decide,
    by decide, by decide⟩

/-! ## Theorems: divisibility of the grid size by the reduction factor -/

theorem DispatchComputeShaders_settings (fuel : Nat) (g : MoldLabGame) (d : Driver)
    (g1 : MoldLabGame) (h : (g.DispatchComputeShaders fuel d).result = .ok g1) :
    g1.simulationSettings = g.simulationSettings := by
  cases hflag : g.gridSizeChanged with
  | false =>
    obtain ⟨_, _, _, ⟨s, _, hg1⟩, _⟩ := DispatchComputeShaders_steady_inv fuel g d g1 hflag h
    rw [hg1]
  | true =>
    obtain ⟨_, _, ⟨s, _, hg1⟩, _⟩ := DispatchComputeShaders_reset_inv fuel g d g1 hflag h
    rw [hg1]

theorem Run.andThen_ok {α β : Type} (r : Run α) (f : α → Run β) (b : β)
    (h : (r.andThen f).result = .ok b) : ∃ a, r.result = .ok a ∧ (f a).result = .ok b := by
  unfold Run.andThen at h
  cases hr : r.result with
  | error e => rw [hr] at h; cases h
  | ok a => rw [hr] at h; exact ⟨a, rfl, h⟩

theorem HandleCameraMovement_ints (fa : FloatArith) (g : MoldLabGame) (orbitRadius deltaTime : F32) :
    (g.HandleCameraMovement fa orbitRadius deltaTime).simulationSettings.grid_size
      = g.simulationSettings.grid_size ∧
    (g.HandleCameraMovement fa orbitRadius deltaTime).simulationSettings.sdf_reduction
      = g.simulationSettings.sdf_reduction ∧
    (g.HandleCameraMovement fa orbitRadius deltaTime).simulationSettings.spore_count
      = g.simulationSettings.spore_count ∧
    (g.HandleCameraMovement fa orbitRadius deltaTime).inputState = g.inputState :=
  ⟨rfl, rfl, rfl, rfl⟩

theorem update_settings (fa : FloatArith) (fuel : Nat) (d : Driver) (deltaTime : F32)
    (g g1 : MoldLabGame) (h : (g.update fa fuel d deltaTime).result = .ok g1) :
    g1.simulationSettings.grid_size = g.simulationSettings.grid_size ∧
    g1.simulationSettings.sdf_reduction = g.simulationSettings.sdf_reduction ∧
    g1.simulationSettings.spore_count = g.simulationSettings.spore_count := by
  obtain ⟨c1, c2, c3, _⟩ := HandleCameraMovement_ints fa g g.orbitRadius deltaTime
  unfold MoldLabGame.update at h
  have hs := DispatchComputeShaders_settings fuel _ d g1 h
  rw [hs]
  simp only
  split_ifs <;> exact ⟨c1, c2, c3⟩

theorem initializeVoxelGridBuffer_settings (d : Driver) (g g1 : MoldLabGame)
    (h : (g.initializeVoxelGridBuffer d).result = .ok g1) :
    g1.simulationSettings = g.simulationSettings := by
  revert h
  unfold MoldLabGame.initializeVoxelGridBuffer
  simp only [Run.bind_eq, Run.pure_eq, Run.andThen, Run.emit, Run.emitAll, Run.ret]
  intro h
  rw [← Except.ok.inj h]

theorem initializeSDFBuffer_settings (d : Driver) (g g1 : MoldLabGame)
    (h : (g.initializeSDFBuffer d).result = .ok g1) :
    g1.simulationSettings = g.simulationSettings := by
  revert h
  unfold MoldLabGame.initializeSDFBuffer
  split_ifs
  · intro h; cases h
  · simp only [Run.bind_eq, Run.pure_eq, Run.andThen, Run.emit, Run.emitAll, Run.ret]
    intro h
    rw [← Except.ok.inj h]

theorem initializeSimulationBuffers_settings (d : Driver) (sizeofSpore : Int)
    (g g1 : MoldLabGame) (h : (g.initializeSimulationBuffers d sizeofSpore).result = .ok g1) :
    g1.simulationSettings = g.simulationSettings := by
  have hup := uploadSettingsBuffer_result d g.simulationSettingsBuffer g.simulationSettings
  revert h
  unfold MoldLabGame.initializeSimulationBuffers
  simp only [Run.bind_eq, Run.pure_eq, Run.andThen, Run.emit, Run.ret, hup]
  intro h
  rw [← Except.ok.inj h]

theorem renderingStart_settings (d : Driver) (sizeofSpore : Int) (g g0 : MoldLabGame)
    (h : (g.renderingStart d sizeofSpore).result = .ok g0) :
    g0.simulationSettings = g.simulationSettings := by
  unfold MoldLabGame.renderingStart at h
  simp only [Run.bind_eq] at h
  obtain ⟨g3, h3, h⟩ := Run.andThen_ok _ _ _ h
  obtain ⟨g4, h4, h⟩ := Run.andThen_ok _ _ _ h
  rw [initializeSimulationBuffers_settings d sizeofSpore g4 g0 h,
    initializeSDFBuffer_settings d g3 g4 h4, initializeVoxelGridBuffer_settings d _ g3 h3]
  rfl

theorem start_eq (d : Driver) (g g1 : MoldLabGame) (h : (g.start d).result = .ok g1) :
    g1 = g := by
  revert h
  unfold MoldLabGame.start
  simp only [Run.bind_eq]
  cases hb : (g.resetSporesAndGrid d).result with
  | error e => simp [Run.andThen, hb]
  | ok u =>
    simp only [Run.andThen, hb, Run.ret]
    intro h
    exact (Except.ok.inj h).symm

theorem modInt_two_of_even (k : Int) : modInt (2 * k) 2 = 0 := by
  unfold modInt
  rw [Int.mul_tmod_right]
  rfl

theorem mulInt_two_even (x : Int) : ∃ k, mulInt x 2 = 2 * k := by
  refine ⟨mulInt x 2 / 2, ?_⟩
  unfold mulInt wrapInt
  omega

theorem reachable_invariant (fa : FloatArith) (fuel : Nat) (d : Driver) (sizeofSpore : Int)
    (g : MoldLabGame) (h : MoldLabGame.Reachable fa fuel d sizeofSpore g) :
    g.simulationSettings.sdf_reduction = 2 ∧ ∃ k, g.simulationSettings.grid_size = 2 * k := by
  induction h with
  | started e aspectRatio g0 g1 h0 h1 =>
    rw [start_eq d g0 g1 h1, renderingStart_settings d sizeofSpore _ g0 h0]
    exact ⟨rfl, 200, rfl⟩
  | updated g g1 input deltaTime _ hupd ih =>
    obtain ⟨u1, u2, _⟩ := update_settings fa fuel d deltaTime _ g1 hupd
    rw [u1, u2]
    exact ih
  | edited g g1 ui _ hedit ih =>
    obtain ⟨hr, g0, hg0, hctl⟩ := renderUI_returns_inv fa d ui g g1 hedit
    obtain ⟨g0', hg0', hred, _, hsize, _⟩ := renderUIVariables_ints fa ui g hr
    rw [hg0] at hg0'
    have hgg : g0 = g0' := Except.ok.inj hg0'
    subst hgg
    obtain ⟨k1, _, _⟩ := renderUIControls_kept d ui g0 g1 hctl
    rw [k1, hred, hsize]
    refine ⟨ih.1, ?_⟩
    cases ui.gridSizeSlider with
    | none => exact ih.2
    | some v =>
      simp only [ih.1]
      exact mulInt_two_even _

/-- C16: `grid_size % sdf_reduction == 0` is an invariant of the simulation parameters.
The settings written by `assignDefaultsToSimulationData` satisfy it; so does every object
reached from construction, `renderingStart` and `start` by returning calls of `update`
and `renderUI`; and on such an object the "Variables:" block of `renderUI` returns, for
every frame of widget results (whatever value the "Grid Size" slider delivers), with
settings that satisfy it again, so that the condition of the warning branch is false. -/
theorem grid_size_divisible_invariant (fa : FloatArith) (fuel : Nat) (d : Driver)
    (sizeofSpore : Int) (g : MoldLabGame)
    (h : MoldLabGame.Reachable fa fuel d sizeofSpore g) (ui : UIFrame) :
    (∀ data aspectRatio,
      modInt (assignDefaultsToSimulationData data aspectRatio).grid_size
        (assignDefaultsToSimulationData data aspectRatio).sdf_reduction = 0) ∧
    modInt g.simulationSettings.grid_size g.simulationSettings.sdf_reduction = 0 ∧
    ∃ g1, g.renderUIVariables fa ui = .ok g1 ∧
      modInt g1.simulationSettings.grid_size g1.simulationSettings.sdf_reduction = 0 ∧
      divisibilityWarning g1.simulationSettings = false := by
  obtain ⟨hred, k, hk⟩ := reachable_invariant fa fuel d sizeofSpore g h
  have hr : g.simulationSettings.sdf_reduction ≠ 0 := by
    rw [hred]
    decide
  obtain ⟨g1, h1, r1, _, s1, _⟩ := renderUIVariables_ints fa ui g hr
  have hmod : modInt g1.simulationSettings.grid_size g1.simulationSettings.sdf_reduction = 0 := by
    rw [r1, s1, hred]
    cases ui.gridSizeSlider with
    | none =>
      simp only
      rw [hk]
      exact modInt_two_of_even k
    | some v =>
      simp only
      obtain ⟨j, hj⟩ := mulInt_two_even (divInt v 2)
      rw [hj]
      exact modInt_two_of_even j
  refine ⟨fun _ _ => rfl, ?_, g1, h1, hmod, ?_⟩
  · rw [hred, hk]
    exact modInt_two_of_even k
  · unfold divisibilityWarning
    rw [hmod]
    rfl

/-- C16 (witness): the object after start-up on the sample configuration, and a frame in
which the "Grid Size" slider delivers 301. -/
theorem grid_size_divisible_invariant_witness :
    MoldLabGame.Reachable sampleFloatArith 32 sampleDriver 32 sampleStarted ∧
    (∀ data aspectRatio,
      modInt (assignDefaultsToSimulationData data aspectRatio).grid_size
        (assignDefaultsToSimulationData data aspectRatio).sdf_reduction = 0) ∧
    modInt sampleStarted.simulationSettings.grid_size
      sampleStarted.simulationSettings.sdf_reduction = 0 ∧
    ∃ g1, sampleStarted.renderUIVariables sampleFloatArith
        { UIFrame.idle with gridSizeSlider := some 301 } = .ok g1 ∧
      modInt g1.simulationSettings.grid_size g1.simulationSettings.sdf_reduction = 0 ∧
      divisibilityWarning g1.simulationSettings = false :=
  ⟨.started sampleEngine F32.one sampleStarted sampleStarted rfl rfl,
    grid_size_divisible_invariant sampleFloatArith 32 sampleDriver 32 sampleStarted
      (.started sampleEngine F32.one sampleStarted sampleStarted rfl rfl)
      { UIFrame.idle with gridSizeSlider := some 301 }⟩

/-! ## Theorems: validation failures of DispatchComputeShader -/

theorem Run.error?_andThen_ne {α β : Type} (r : Run α) (f : α → Run β) (e : Abort)
    (hr : r.error? ≠ some e) (hf : ∀ a, r.result = .ok a → (f a).error? ≠ some e) :
    (r.andThen f).error? ≠ some e := by
  unfold Run.andThen
  cases hres : r.result with
  | error e1 =>
    simp only [Run.error?]
    intro h
    apply hr
    unfold Run.error?
    rw [hres]
    exact h
  | ok a => exact hf a hres

theorem Run.error?_emit (c : GLCall) : (Run.emit c).error? = none := rfl

theorem Run.error?_ret {α : Type} (a : α) : (Run.ret a).error? = none := rfl

theorem DispatchComputeShader_itemBelowOne_iff (e : GameEngine) (d : Driver) (p : Nat)
    (x y z : Int) :
    (e.DispatchComputeShader d p x y z).error? = some .dispatchItemBelowOne ↔
      (x < 1 ∨ y < 1 ∨ z < 1) := by
  unfold GameEngine.DispatchComputeShader
  simp only [Run.bind_eq]
  split_ifs <;> simp_all [Run.andThen, Run.emit, Run.fail, Run.error?]

theorem DispatchComputeShader_not_fuelExhausted (e : GameEngine) (d : Driver) (p : Nat)
    (x y z : Int) :
    (e.DispatchComputeShader d p x y z).error? ≠ some .fuelExhausted := by
  unfold GameEngine.DispatchComputeShader
  simp only [Run.bind_eq]
  split_ifs <;> simp [Run.andThen, Run.emit, Run.fail, Run.error?]

/-- C21: when `DispatchComputeShader` throws one of the four validation errors (item count
below 1, program 0, workgroup count above the stored maximum, local size above the stored
maximum), its GL calls hold no glDispatchCompute and no glMemoryBarrier: they are empty
for the first two errors and the single glUseProgram for the last two. The item-count
check comes first: when an item count is below 1 the error reported is the item-count
error, and that is what a call with program 0 reports. -/
theorem DispatchComputeShader_validation_failure_atomic (e : GameEngine) (d : Driver)
    (p : Nat) (x y z : Int) (a : Abort)
    (h : (e.DispatchComputeShader d p x y z).error? = some a)
    (ha : a = .dispatchItemBelowOne ∨ a = .programNotInitialized ∨
      a = .exceedsWorkGroupCounts ∨ a = .exceedsLocalSize) :
    dispatchCount (e.DispatchComputeShader d p x y z).calls = 0 ∧
    (e.DispatchComputeShader d p x y z).calls.filterMap barrierBits? = [] ∧
    ((a = .dispatchItemBelowOne ∨ a = .programNotInitialized) →
      (e.DispatchComputeShader d p x y z).calls = []) ∧
    ((a = .exceedsWorkGroupCounts ∨ a = .exceedsLocalSize) →
      (e.DispatchComputeShader d p x y z).calls = [.useProgram p]) ∧
    ((x < 1 ∨ y < 1 ∨ z < 1) → a = .dispatchItemBelowOne ∧
      (e.DispatchComputeShader d 0 x y z).error? = some .dispatchItemBelowOne ∧
      (e.DispatchComputeShader d 0 x y z).calls = []) := by
  have h0 : (x < 1 ∨ y < 1 ∨ z < 1) →
      (e.DispatchComputeShader d 0 x y z).error? = some .dispatchItemBelowOne ∧
      (e.DispatchComputeShader d 0 x y z).calls = [] := by
    intro hx
    unfold GameEngine.DispatchComputeShader
    rw [if_pos hx]
    exact ⟨rfl, rfl⟩
  generalize e.DispatchComputeShader d 0 x y z = R0 at h0 ⊢
  revert h
  unfold GameEngine.DispatchComputeShader
  simp only [Run.bind_eq]
  split_ifs <;> simp only [Run.andThen, Run.emit, Run.fail, Run.error?] <;> intro h <;>
    cases h <;> simp_all [dispatchCount, isDispatch, barrierBits?, Run.error?]

/-- C21 (witness): on the sample engine and driver, item counts (0, 400, 400) with
program 0 report the item-count error with no GL call issued; with the maximum workgroup
count of the x axis lowered to 10, the decay kernel over (400, 400, 400) reports the
workgroup-count error after glUseProgram alone. -/
theorem DispatchComputeShader_validation_failure_atomic_witness :
    ((sampleEngine.DispatchComputeShader sampleDriver 0 0 400 400).error?
        = some .dispatchItemBelowOne ∧
      dispatchCount (sampleEngine.DispatchComputeShader sampleDriver 0 0 400 400).calls = 0 ∧
      (sampleEngine.DispatchComputeShader sampleDriver 0 0 400 400).calls.filterMap barrierBits?
        = [] ∧
      (sampleEngine.DispatchComputeShader sampleDriver 0 0 400 400).calls = []) ∧
    (({ sampleEngine with maxWorkGroupCountX := 10 } : GameEngine).DispatchComputeShader
        sampleDriver 13 400 400 400).error? = some .exceedsWorkGroupCounts ∧
    dispatchCount (({ sampleEngine with maxWorkGroupCountX := 10 } : GameEngine).DispatchComputeShader
        sampleDriver 13 400 400 400).calls = 0 ∧
    (({ sampleEngine with maxWorkGroupCountX := 10 } : GameEngine).DispatchComputeShader
        sampleDriver 13 400 400 400).calls.filterMap barrierBits? = [] ∧
    (({ sampleEngine with maxWorkGroupCountX := 10 } : GameEngine).DispatchComputeShader
        sampleDriver 13 400 400 400).calls = [.useProgram 13] :=
  ⟨⟨rfl,
    (DispatchComputeShader_validation_failure_atomic sampleEngine sampleDriver 0 0 400 400
      .dispatchItemBelowOne rfl (Or.inl rfl)).1,
    (DispatchComputeShader_validation_failure_atomic sampleEngine sampleDriver 0 0 400 400
      .dispatchItemBelowOne rfl (Or.inl rfl)).2.1,
    (DispatchComputeShader_validation_failure_atomic sampleEngine sampleDriver 0 0 400 400
      .dispatchItemBelowOne rfl (Or.inl rfl)).2.2.1 (Or.inl rfl)⟩,
    rfl,
    (DispatchComputeShader_validation_failure_atomic { sampleEngine with maxWorkGroupCountX := 10 }
      sampleDriver 13 400 400 400 .exceedsWorkGroupCounts rfl (Or.inr (Or.inr (Or.inl rfl)))).1,
    (DispatchComputeShader_validation_failure_atomic { sampleEngine with maxWorkGroupCountX := 10 }
      sampleDriver 13 400 400 400 .exceedsWorkGroupCounts rfl (Or.inr (Or.inr (Or.inl rfl)))).2.1,
    (DispatchComputeShader_validation_failure_atomic { sampleEngine with maxWorkGroupCountX := 10 }
      sampleDriver 13 400 400 400 .exceedsWorkGroupCounts rfl
      (Or.inr (Or.inr (Or.inl rfl)))).2.2.2.1 (Or.inl rfl)⟩

/-! ## Theorems: termination of the step schedule of executeJFA -/

theorem doublingTests_last (n : Int) : ∀ (fuel : Nat) (s r : Int),
    doublingLoop fuel s n = some r → (doublingTests fuel s n).getLast? = some r := by
  intro fuel
  induction fuel with
  | zero =>
    intro s r h
    unfold doublingLoop at h
    cases h
  | succ f ih =>
    intro s r h
    unfold doublingLoop at h
    unfold doublingTests
    by_cases hc : mulInt s 2 < n
    · rw [if_pos hc] at h ⊢
      have h1 := ih _ _ h
      cases f with
      | zero =>
        unfold doublingLoop at h
        cases h
      | succ f1 =>
        unfold doublingTests at h1 ⊢
        rw [List.getLast?_cons_cons]
        exact h1
    · rw [if_neg hc] at h ⊢
      cases h
      rfl

theorem doublingTests_in_range {n : Int} (h30 : n ≤ 1073741824) : ∀ (fuel : Nat) (s : Int),
    1 ≤ s → (s = 1 ∨ s < n) →
    ∀ t ∈ doublingTests fuel s n,
      1 ≤ t ∧ INT_MIN ≤ t * 2 ∧ t * 2 ≤ INT_MAX ∧ mulInt t 2 = t * 2 := by
  intro fuel
  induction fuel with
  | zero =>
    intro s _ _ t ht
    unfold doublingTests at ht
    cases ht
  | succ f ih =>
    intro s h1 hs t ht
    have hm : mulInt s 2 = s * 2 := by
      unfold mulInt
      exact wrapInt_of_inRange (by unfold INT_MIN; omega) (by unfold INT_MAX; omega)
    unfold doublingTests at ht
    rcases List.mem_cons.1 ht with rfl | ht
    · exact ⟨h1, by unfold INT_MIN; omega, by unfold INT_MAX; omega, hm⟩
    · by_cases hc : mulInt s 2 < n
      · rw [if_pos hc] at ht
        exact ih (mulInt s 2) (by omega) (Or.inr hc) t ht
      · rw [if_neg hc] at ht
        cases ht

theorem halving_decreases {s : Int} (h1 : 1 ≤ s) (h2 : s ≤ INT_MAX) :
    0 ≤ divInt s 2 ∧ divInt s 2 < s ∧ divInt s 2 = s / 2 := by
  unfold INT_MAX at h2
  unfold divInt
  rw [Int.tdiv_eq_ediv (by omega) (by norm_num)]
  have h : wrapInt (s / 2) = s / 2 :=
    wrapInt_of_inRange (by unfold INT_MIN; omega) (by unfold INT_MAX; omega)
  rw [h]
  omega

theorem jfaStepBody_error_ne (g : MoldLabGame) (d : Driver) (n : Int) (s : JfaLocals) (e : Abort)
    (hD : (g.toGameEngine.DispatchComputeShader d g.jumpFloodStepShaderProgram n n n).error?
      ≠ some e) :
    (g.jfaStepBody d n s).error? ≠ some e := by
  cases hres : (g.toGameEngine.DispatchComputeShader d g.jumpFloodStepShaderProgram n n n).result with
  | error e1 =>
    unfold Run.error? at hD ⊢
    rw [hres] at hD
    rw [jfaStepBody_error g d n s e1 hres]
    exact hD
  | ok u =>
    rw [jfaStepBody_eq g d n s hres]
    simp [Run.error?]

theorem jfaStepBody_stepSize (g : MoldLabGame) (d : Driver) (n : Int) (s s1 : JfaLocals)
    (h : (g.jfaStepBody d n s).result = .ok s1) : s1.stepSize = divInt s.stepSize 2 := by
  cases hres : (g.toGameEngine.DispatchComputeShader d g.jumpFloodStepShaderProgram n n n).result with
  | error e1 =>
    rw [jfaStepBody_error g d n s e1 hres] at h
    cases h
  | ok u =>
    rw [jfaStepBody_eq g d n s hres] at h
    rw [← Except.ok.inj h]

theorem divInt_two_lt_pow {s : Int} {f : Nat} (h1 : 1 ≤ s) (h : s < 2 ^ (f + 1)) :
    divInt s 2 < 2 ^ f := by
  have hp : (0 : Int) < 2 ^ f := by positivity
  rw [pow_succ] at h
  generalize (2 : Int) ^ f = P at h hp
  unfold divInt
  rw [Int.tdiv_eq_ediv (by omega) (by norm_num)]
  unfold wrapInt
  omega

theorem jfaStepLoop_not_fuelExhausted (g : MoldLabGame) (d : Driver) (n : Int) :
    ∀ (fuel : Nat) (s : JfaLocals), s.stepSize < 2 ^ fuel →
      (g.jfaStepLoop d n fuel s).error? ≠ some .fuelExhausted := by
  intro fuel
  induction fuel with
  | zero =>
    intro s hs
    unfold MoldLabGame.jfaStepLoop
    rw [if_neg (by simpa using hs)]
    simp [Run.ret, Run.error?]
  | succ f ih =>
    intro s hs
    unfold MoldLabGame.jfaStepLoop
    by_cases hc : s.stepSize ≥ 1
    · rw [if_pos hc, Run.bind_eq]
      refine Run.error?_andThen_ne _ _ _ ?_ (fun s1 h1 => ?_)
      · exact jfaStepBody_error_ne g d n s _ (DispatchComputeShader_not_fuelExhausted _ _ _ _ _ _)
      · apply ih
        rw [jfaStepBody_stepSize g d n s s1 h1]
        exact divInt_two_lt_pow hc hs
    · rw [if_neg hc]
      simp [Run.ret, Run.error?]

theorem executeJFA_not_fuelExhausted (fuel : Nat) (g : MoldLabGame) (d : Driver)
    (h30 : divInt g.simulationSettings.grid_size g.simulationSettings.sdf_reduction ≤ 1073741824)
    (hfuel : 30 ≤ fuel) :
    (g.executeJFA fuel d).error? ≠ some .fuelExhausted := by
  have hJ := (firstExponent_spec h30).1
  unfold MoldLabGame.executeJFA
  simp only [Run.bind_eq, Run.pure_eq]
  refine Run.error?_andThen_ne _ _ _ (by simp [Run.error?_emit]) (fun _ _ => ?_)
  refine Run.error?_andThen_ne _ _ _ (by simp [Run.error?_emit]) (fun _ _ => ?_)
  split_ifs with hr
  · simp [Run.fail, Run.error?]
  · refine Run.error?_andThen_ne _ _ _
      (DispatchComputeShader_not_fuelExhausted _ _ _ _ _ _) (fun _ _ => ?_)
    refine Run.error?_andThen_ne _ _ _ (by simp [Run.error?_emit]) (fun _ _ => ?_)
    refine Run.error?_andThen_ne _ _ _ (by simp [Run.error?_emit]) (fun _ _ => ?_)
    rw [doublingLoop_char, if_pos ⟨h30, by omega⟩]
    simp only
    refine Run.error?_andThen_ne _ _ _ ?_ (fun _ _ => ?_)
    · apply jfaStepLoop_not_fuelExhausted
      simp only
      exact pow_lt_pow_right₀ (by norm_num) (by omega)
    · refine Run.error?_andThen_ne _ _ _ (by simp [Run.error?_emit]) (fun _ _ => ?_)
      simp [Run.error?_ret]

/-- C23: for a reduced grid size `n = grid_size / sdf_reduction` with `n ≤ 2^30` (zero and
negative values included) and an iteration budget of at least 30 per loop, `executeJFA`
never exhausts the budget: it returns or throws one of its exceptions, and it returns
when the reduction factor is nonzero and the init and step dispatches are accepted. The
doubling loop stops at `2^J` with `J ≤ 29`; every product `stepSize * 2` it evaluates
lies inside `int`, so none overflows; the halving loop started from `2^J` stops within
the budget whatever the dispatches do; and `stepSize / 2` of a positive `int` is
nonnegative and strictly smaller. -/
theorem executeJFA_terminates (fuel : Nat) (g : MoldLabGame) (d : Driver) (n : Int)
    (hn : divInt g.simulationSettings.grid_size g.simulationSettings.sdf_reduction = n)
    (h30 : n ≤ 1073741824) (hfuel : 30 ≤ fuel) :
    (g.executeJFA fuel d).error? ≠ some .fuelExhausted ∧
    (g.simulationSettings.sdf_reduction ≠ 0 →
      (g.toGameEngine.DispatchComputeShader d g.jumpFloodInitShaderProgram n n n).result
        = .ok () →
      (g.toGameEngine.DispatchComputeShader d g.jumpFloodStepShaderProgram n n n).result
        = .ok () →
      ∃ s, (g.executeJFA fuel d).result = .ok s) ∧
    firstExponent n ≤ 29 ∧
    doublingLoop fuel 1 n = some (2 ^ firstExponent n) ∧
    (doublingTests fuel 1 n).getLast? = some (2 ^ firstExponent n) ∧
    (∀ t ∈ doublingTests fuel 1 n,
      INT_MIN ≤ t * 2 ∧ t * 2 ≤ INT_MAX ∧ mulInt t 2 = t * 2) ∧
    (∀ s : JfaLocals, s.stepSize = 2 ^ firstExponent n →
      (g.jfaStepLoop d n fuel s).error? ≠ some .fuelExhausted) ∧
    (∀ s : Int, 1 ≤ s → s ≤ INT_MAX → 0 ≤ divInt s 2 ∧ divInt s 2 < s) := by
  have hJ := (firstExponent_spec h30).1
  have hloop : doublingLoop fuel 1 n = some (2 ^ firstExponent n) := by
    rw [doublingLoop_char, if_pos ⟨h30, by omega⟩]
  refine ⟨?_, ?_, hJ, hloop, doublingTests_last n fuel 1 _ hloop, ?_, ?_, ?_⟩
  · exact executeJFA_not_fuelExhausted fuel g d (by rw [hn]; exact h30) hfuel
  · intro hr hinit hstep
    exact ⟨_, by rw [executeJFA_eq fuel g d n hr hn hinit hstep h30 (by omega)]⟩
  · intro t ht
    exact (doublingTests_in_range h30 fuel 1 (le_refl 1) (Or.inl rfl) t ht).2
  · intro s hs
    apply jfaStepLoop_not_fuelExhausted
    rw [hs]
    exact pow_lt_pow_right₀ (by norm_num) (by omega)
  · intro s h1 h2
    exact ⟨(halving_decreases h1 h2).1, (halving_decreases h1 h2).2.1⟩

/-- C23 (witness): grid size 200 with reduction factor 2 (reduced size 100) and a budget
of 32 iterations per loop. -/
theorem executeJFA_terminates_witness :
    divInt (sampleGame 200 2 false).simulationSettings.grid_size
      (sampleGame 200 2 false).simulationSettings.sdf_reduction = 100 ∧
    (100 : Int) ≤ 1073741824 ∧ 30 ≤ 32 ∧
    ((sampleGame 200 2 false).executeJFA 32 sampleDriver).error? ≠ some .fuelExhausted ∧
    firstExponent 100 ≤ 29 ∧
    doublingLoop 32 1 100 = some (2 ^ firstExponent 100) ∧
    ∀ t ∈ doublingTests 32 1 100,
      INT_MIN ≤ t * 2 ∧ t * 2 ≤ INT_MAX ∧ mulInt t 2 = t * 2 :=
  ⟨by decide, by decide, by decide,
    (executeJFA_terminates 32 (sampleGame 200 2 false) sampleDriver 100
      (by decide) (by decide) (by decide)).1,
    (executeJFA_terminates 32 (sampleGame 200 2 false) sampleDriver 100
      (by decide) (by decide) (by decide)).2.2.1,
    (executeJFA_terminates 32 (sampleGame 200 2 false) sampleDriver 100
      (by decide) (by decide) (by decide)).2.2.2.1,
    (executeJFA_terminates 32 (sampleGame 200 2 false) sampleDriver 100
      (by decide) (by decide) (by decide)).2.2.2.2.2.1⟩

/-! ## Theorems: item counts under the slider ranges -/

theorem DispatchComputeShader_items_ok (e : GameEngine) (d : Driver) (p : Nat) {x y z : Int}
    (hx : 1 ≤ x) (hy : 1 ≤ y) (hz : 1 ≤ z) :
    (e.DispatchComputeShader d p x y z).error? ≠ some .dispatchItemBelowOne := by
  rw [Ne, DispatchComputeShader_itemBelowOne_iff]
  omega

theorem jfaStepLoop_no_itemBelowOne (g : MoldLabGame) (d : Driver) {n : Int} (hn : 1 ≤ n) :
    ∀ (fuel : Nat) (s : JfaLocals),
      (g.jfaStepLoop d n fuel s).error? ≠ some .dispatchItemBelowOne := by
  intro fuel
  induction fuel with
  | zero =>
    intro s
    unfold MoldLabGame.jfaStepLoop
    split_ifs <;> simp [Run.ret, Run.fail, Run.error?]
  | succ f ih =>
    intro s
    unfold MoldLabGame.jfaStepLoop
    split_ifs
    · rw [Run.bind_eq]
      exact Run.error?_andThen_ne _ _ _
        (jfaStepBody_error_ne g d n s _ (DispatchComputeShader_items_ok _ d _ hn hn hn))
        (fun s1 _ => ih s1)
    · simp [Run.ret, Run.error?]

theorem executeJFA_no_itemBelowOne (fuel : Nat) (g : MoldLabGame) (d : Driver)
    (hn : 1 ≤ divInt g.simulationSettings.grid_size g.simulationSettings.sdf_reduction) :
    (g.executeJFA fuel d).error? ≠ some .dispatchItemBelowOne := by
  unfold MoldLabGame.executeJFA
  simp only [Run.bind_eq, Run.pure_eq]
  refine Run.error?_andThen_ne _ _ _ (by simp [Run.error?_emit]) (fun _ _ => ?_)
  refine Run.error?_andThen_ne _ _ _ (by simp [Run.error?_emit]) (fun _ _ => ?_)
  split_ifs with hr
  · simp [Run.fail, Run.error?]
  · refine Run.error?_andThen_ne _ _ _
      (DispatchComputeShader_items_ok _ d _ hn hn hn) (fun _ _ => ?_)
    refine Run.error?_andThen_ne _ _ _ (by simp [Run.error?_emit]) (fun _ _ => ?_)
    refine Run.error?_andThen_ne _ _ _ (by simp [Run.error?_emit]) (fun _ _ => ?_)
    cases doublingLoop fuel 1
        (divInt g.simulationSettings.grid_size g.simulationSettings.sdf_reduction) with
    | none => simp [Run.fail, Run.error?]
    | some stepSize =>
      simp only
      refine Run.error?_andThen_ne _ _ _ (jfaStepLoop_no_itemBelowOne g d hn fuel _)
        (fun _ _ => ?_)
      refine Run.error?_andThen_ne _ _ _ (by simp [Run.error?_emit]) (fun _ _ => ?_)
      simp [Run.error?_ret]

theorem resetSporesAndGrid_no_itemBelowOne (g : MoldLabGame) (d : Driver)
    (hg : 1 ≤ g.simulationSettings.grid_size) (hc : 1 ≤ g.simulationSettings.spore_count) :
    (g.resetSporesAndGrid d).error? ≠ some .dispatchItemBelowOne := by
  unfold MoldLabGame.resetSporesAndGrid MoldLabGame.clearGrid
  simp only [Run.bind_eq]
  exact Run.error?_andThen_ne _ _ _ (DispatchComputeShader_items_ok _ d _ hg hg hg)
    (fun _ _ => DispatchComputeShader_items_ok _ d _ hc (le_refl 1) (le_refl 1))

theorem DispatchComputeShaders_no_itemBelowOne (fuel : Nat) (g : MoldLabGame) (d : Driver)
    (hg : 1 ≤ g.simulationSettings.grid_size) (hc : 1 ≤ g.simulationSettings.spore_count)
    (hn : 1 ≤ divInt g.simulationSettings.grid_size g.simulationSettings.sdf_reduction) :
    (g.DispatchComputeShaders fuel d).error? ≠ some .dispatchItemBelowOne := by
  unfold MoldLabGame.DispatchComputeShaders
  simp only [Run.bind_eq, Run.pure_eq]
  refine Run.error?_andThen_ne _ _ _ ?_ (fun _ _ => ?_)
  · unfold Run.error?
    rw [uploadSettingsBuffer_result]
    simp
  · refine Run.error?_andThen_ne _ _ _ ?_ (fun _ _ => ?_)
    · split_ifs <;> first
        | exact resetSporesAndGrid_no_itemBelowOne _ d hg hc
        | exact Run.error?_andThen_ne _ _ _ (DispatchComputeShader_items_ok _ d _ hg hg hg)
            (fun _ _ => Run.error?_andThen_ne _ _ _
              (DispatchComputeShader_items_ok _ d _ hc (le_refl 1) (le_refl 1))
              (fun _ _ => DispatchComputeShader_items_ok _ d _ hc (le_refl 1) (le_refl 1)))
    · refine Run.error?_andThen_ne _ _ _ (executeJFA_no_itemBelowOne fuel _ d hn)
        (fun _ _ => ?_)
      simp [Run.error?_ret]

theorem divInt_two_mul (q : Int) (h0 : 0 ≤ q) (h1 : q ≤ 1073741823) : divInt (2 * q) 2 = q := by
  unfold divInt
  rw [Int.tdiv_eq_ediv (by omega) (by norm_num)]
  unfold wrapInt
  omega

/-- C22: with reduction factor 2, when the "Grid Size" slider delivers a value `v` in
[25, 500] and the spore count after the "Spore Count" slider is some `c` with `1 ≤ c`
(so for every `c` in [1, 1000000]), the grid size stored by `renderUI` is
`g = 2 * ⌊v / 2⌋` with `24 ≤ g ≤ 500`, and the reduced size `g / 2` lies in [12, 250].
The item counts passed to `DispatchComputeShader` are then `g`, `c`, 1 and `g / 2`, all
at least 1: on the object the slider block yields and on the object every returning
`renderUI` yields, neither `DispatchComputeShaders` (in either branch) nor `executeJFA`
throws "Dispatch item must be above 0". -/
theorem renderUI_ranges_keep_items_positive (fa : FloatArith) (fuel : Nat) (d : Driver)
    (ui : UIFrame) (g : MoldLabGame) (v c : Int)
    (hr : g.simulationSettings.sdf_reduction = 2)
    (hs : ui.gridSizeSlider = some v) (hv1 : 25 ≤ v) (hv2 : v ≤ 500)
    (hcount : ui.sporeCountSlider.getD g.simulationSettings.spore_count = c)
    (hc1 : 1 ≤ c) :
    ∃ g1, g.renderUIVariables fa ui = .ok g1 ∧
      g1.simulationSettings.grid_size = 2 * (v / 2) ∧
      24 ≤ g1.simulationSettings.grid_size ∧ g1.simulationSettings.grid_size ≤ 500 ∧
      12 ≤ divInt g1.simulationSettings.grid_size g1.simulationSettings.sdf_reduction ∧
      divInt g1.simulationSettings.grid_size g1.simulationSettings.sdf_reduction ≤ 250 ∧
      g1.simulationSettings.spore_count = c ∧
      (g1.DispatchComputeShaders fuel d).error? ≠ some .dispatchItemBelowOne ∧
      (g1.executeJFA fuel d).error? ≠ some .dispatchItemBelowOne ∧
      ∀ g2, (g.renderUI fa d ui).result = .ok g2 →
        g2.simulationSettings = g1.simulationSettings ∧
        g2.gridSizeChanged = true ∧
        (g2.DispatchComputeShaders fuel d).error? ≠ some .dispatchItemBelowOne ∧
        (g2.executeJFA fuel d).error? ≠ some .dispatchItemBelowOne := by
  have hr0 : g.simulationSettings.sdf_reduction ≠ 0 := by
    rw [hr]
    decide
  obtain ⟨g1, hg1, hred, hcnt, hsize, hchanged⟩ := renderUIVariables_ints fa ui g hr0
  rw [hs] at hsize hchanged
  simp only at hsize
  rw [hr, coerce_grid_size (by omega) (by unfold INT_MAX; omega) (by norm_num)] at hsize
  rw [hr] at hred
  rw [hcount] at hcnt
  have hn : divInt g1.simulationSettings.grid_size g1.simulationSettings.sdf_reduction
      = v / 2 := by
    rw [hsize, hred]
    exact divInt_two_mul _ (by omega) (by omega)
  have key : ∀ g2 : MoldLabGame, g2.simulationSettings = g1.simulationSettings →
      (g2.DispatchComputeShaders fuel d).error? ≠ some .dispatchItemBelowOne ∧
      (g2.executeJFA fuel d).error? ≠ some .dispatchItemBelowOne := by
    intro g2 h2
    refine ⟨DispatchComputeShaders_no_itemBelowOne fuel g2 d ?_ ?_ ?_,
      executeJFA_no_itemBelowOne fuel g2 d ?_⟩
    · rw [h2, hsize]
      omega
    · rw [h2, hcnt]
      exact hc1
    · rw [h2, hn]
      omega
    · rw [h2, hn]
      omega
  refine ⟨g1, hg1, hsize, by omega, by omega, by omega, by omega, hcnt,
    (key g1 rfl).1, (key g1 rfl).2, ?_⟩
  intro g2 h2
  obtain ⟨_, g0, hg0, hctl⟩ := renderUI_returns_inv fa d ui g g2 h2
  rw [hg1] at hg0
  have hgg : g1 = g0 := Except.ok.inj hg0
  subst hgg
  obtain ⟨k1, k2, _⟩ := renderUIControls_kept d ui g1 g2 hctl
  exact ⟨k1, by rw [k2, hchanged]; rfl, (key g2 k1).1, (key g2 k1).2⟩

/-- C22 (witness): the sample game at grid size 400 with reduction factor 2 and 500000
spores; the "Grid Size" slider delivers 25, stored as 24, reduced size 12. -/
theorem renderUI_ranges_keep_items_positive_witness :
    (sampleGame 400 2 false).simulationSettings.sdf_reduction = 2 ∧
    ({ UIFrame.idle with gridSizeSlider := some 25 } : UIFrame).gridSizeSlider = some 25 ∧
    (25 : Int) ≤ 25 ∧ (25 : Int) ≤ 500 ∧
    ({ UIFrame.idle with gridSizeSlider := some 25 } : UIFrame).sporeCountSlider.getD
      (sampleGame 400 2 false).simulationSettings.spore_count = 500000 ∧
    (1 : Int) ≤ 500000 ∧
    ∃ g1, (sampleGame 400 2 false).renderUIVariables sampleFloatArith
        { UIFrame.idle with gridSizeSlider := some 25 } = .ok g1 ∧
      g1.simulationSettings.grid_size = 2 * (25 / 2) ∧
      24 ≤ g1.simulationSettings.grid_size ∧ g1.simulationSettings.grid_size ≤ 500 ∧
      12 ≤ divInt g1.simulationSettings.grid_size g1.simulationSettings.sdf_reduction ∧
      divInt g1.simulationSettings.grid_size g1.simulationSettings.sdf_reduction ≤ 250 ∧
      g1.simulationSettings.spore_count = 500000 ∧
      (g1.DispatchComputeShaders 32 sampleDriver).error? ≠ some .dispatchItemBelowOne ∧
      (g1.executeJFA 32 sampleDriver).error? ≠ some .dispatchItemBelowOne := by
  obtain ⟨g1, h0, h1, h2, h3, h4, h5, h6, h7, h8, _⟩ :=
    renderUI_ranges_keep_items_positive sampleFloatArith 32 sampleDriver
      { UIFrame.idle with gridSizeSlider := some 25 } (sampleGame 400 2 false) 25 500000
      rfl rfl (by decide) (by decide) rfl (by decide)
  exact ⟨rfl, rfl, by decide, by decide, rfl, by decide,
    g1, h0, h1, h2, h3, h4, h5, h6, h7, h8⟩

end MoldLab
